import Mathlib

/-!
# MIOpen convolution descriptor: shape arithmetic and workspace planning

A shallow embedding of `src/src/convolution.cpp`, with the two queries of
`src/src/hip/handlehip.cpp` that it calls, and of the solvers and the
configuration class of `src/test/solver.cpp`, with a model of the search engine
that the test drives.

Conventions of the embedding.

* `int` values are integers reduced to 32 bits, two's complement (`toInt`), and
  `std::ptrdiff_t` values integers reduced to 64 bits (`toPtrdiff`): a length
  read into an `int` or a `std::ptrdiff_t` variable is narrowed, and a sum,
  difference or product of such values is reduced after it is formed.  (Signed
  overflow is undefined in C++; the reduction is what the compiled code does.)
  The members of a `ConvolutionDescriptor` are `int` values and are kept as
  integers; theorems state the range they need.
* `std::size_t` values are natural numbers (`Nat`); where the source computes
  in `std::size_t`, or converts a signed value to `std::size_t`, the result is
  reduced modulo `2 ^ 64` explicitly (`toSizeT`, `SIZE_MOD`).
* Signed `/` and `%` are C++ truncating division (`Int.tdiv`, `Int.tmod`).  A
  division or remainder by zero stops the program in C++; the functions here
  follow the value of `Int.tdiv`, `Int.tmod` and `Nat.div` there, the divisors
  are listed by the traced variants of the shape functions, and theorems
  assume or prove them non-zero.
* `double` values are rationals (`ℚ`); binary64 is exact on integers of
  magnitude up to `2 ^ 53` and on the quotients taken below when the operands
  stay under `2 ^ 52`, and theorems about the branches that go through
  `double` assume that range.
* A thrown `miopen::Exception` is the `Except.error` result.
* A `std::string` is a `String`; a stream is the text written to it or left in
  it.  State that outlives a call (the performance database, a static counter)
  is passed in and returned.
-/

namespace miopen

/-! ## Types declared in the public header -/

/-- Modelled from the spec: the enumeration `miopenConvolutionMode_t` of
`miopen.h` (Standard, Transposed, Grouped, Depthwise), which is not part of the
sources at hand.  A C enumeration can hold a value that is none of its
enumerators; `outOfRange` stands for every such value. -/
inductive miopenConvolutionMode_t where
  | miopenConvolution
  | miopenTranspose
  | miopenGroupConv
  | miopenDepthwise
  | outOfRange
  deriving DecidableEq, Repr

/-- Modelled from the spec: the enumeration `miopenPaddingMode_t` of `miopen.h`
(Default, Same, Valid); `outOfRange` stands for every value that is none of the
enumerators. -/
inductive miopenPaddingMode_t where
  | miopenPaddingDefault
  | miopenPaddingSame
  | miopenPaddingValid
  | outOfRange
  deriving DecidableEq, Repr

/-- Modelled from the spec: the status codes of `miopenStatus_t` that
`convolution.cpp` throws, and the code `miopenStatusUnknownError` of the
exceptions built from a failing HIP status. -/
inductive miopenStatus_t where
  | miopenStatusBadParm
  | miopenStatusInvalidValue
  | miopenStatusUnknownError
  deriving DecidableEq, Repr

/-- Modelled from the spec: the element types of `miopenDataType_t`. -/
inductive miopenDataType_t where
  | miopenHalf
  | miopenFloat
  deriving DecidableEq, Repr

/-- The exception object built by `MIOPEN_THROW(status, message)`. -/
structure Exception where
  status : miopenStatus_t
  message : String
  deriving DecidableEq, Repr

deriving instance DecidableEq for Except

/-- The statement `MIOPEN_THROW(status, message)`: leaves the function with an
exception. -/
def MIOPEN_THROW {α : Type} (status : miopenStatus_t) (message : String) :
    Except Exception α :=
  Except.error { status := status, message := message }

/-- The number of values of `std::size_t`. -/
def SIZE_MOD : Nat := 2 ^ 64

/-- Conversion of a signed value to `std::size_t`: reduction modulo `2 ^ 64`. -/
def toSizeT (x : Int) : Nat := (x % (2 ^ 64 : Int)).toNat

/-- Reduction of an integer to the range of `int`, 32 bits in two's complement:
the conversion of a `std::size_t` value to `int`, and the result of `int`
arithmetic. -/
def toInt (x : Int) : Int := (x + 2 ^ 31) % 2 ^ 32 - 2 ^ 31

/-- Reduction of an integer to the range of `std::ptrdiff_t`, 64 bits in two's
complement. -/
def toPtrdiff (x : Int) : Int := (x + 2 ^ 63) % 2 ^ 64 - 2 ^ 63

/-- A length, which is a `std::size_t` value, converted to `std::ptrdiff_t`:
lengths from `2 ^ 63` on become negative.  A number that is no `std::size_t`
value (`2 ^ 64` or more), which no tensor holds, is left as it is. -/
def sizeToPtrdiff (n : Nat) : Int := if n < SIZE_MOD then toPtrdiff (n : Int) else (n : Int)

/-- A rank-4 `TensorDescriptor`: its element type and its four lengths
(the functions below `assert` that `GetLengths().size() == 4`). -/
structure TensorDescriptor where
  type : miopenDataType_t
  lens : Nat × Nat × Nat × Nat
  deriving DecidableEq, Repr

/-- The accessor `TensorDescriptor::GetType`. -/
def TensorDescriptor.GetType (t : TensorDescriptor) : miopenDataType_t := t.type

/-- The accessor `TensorDescriptor::GetLengths`, read through `tien<4>`. -/
def TensorDescriptor.GetLengths (t : TensorDescriptor) : Nat × Nat × Nat × Nat := t.lens

/-- The data members of `ConvolutionDescriptor`. -/
structure ConvolutionDescriptor where
  mode : miopenConvolutionMode_t
  paddingMode : miopenPaddingMode_t
  pad_h : Int
  pad_w : Int
  u : Int
  v : Int
  dilation_h : Int
  dilation_w : Int
  group_count : Int
  deriving DecidableEq, Repr

open miopenConvolutionMode_t miopenPaddingMode_t miopenStatus_t

/-! ## Constructors -/

/-- The 6-argument constructor `ConvolutionDescriptor::ConvolutionDescriptor`:
the member initialisers, then the validation of the body. -/
def ConvolutionDescriptor.ConvolutionDescriptor6
    (p_pad_h p_pad_w p_u p_v p_dilation_h p_dilation_w : Int) :
    Except Exception ConvolutionDescriptor :=
  let self : ConvolutionDescriptor :=
    { mode := miopenConvolution
      paddingMode := miopenPaddingDefault
      pad_h := p_pad_h
      pad_w := p_pad_w
      u := p_u
      v := p_v
      dilation_h := p_dilation_h
      dilation_w := p_dilation_w
      group_count := 1 }
  if self.pad_h < 0 ∨ self.pad_w < 0 ∨ self.u ≤ 0 ∨ self.v ≤ 0 ∨ self.dilation_h ≤ 0 ∨
      self.dilation_w ≤ 0 then
    MIOPEN_THROW miopenStatusBadParm
      ("Invalid parameters, check usage. MIOPEN expects padding " ++
        ">= 0, stride >= 1, dilation >= 1 and the same dilation " ++
        "factor for horizontal and vertical direction")
  else
    Except.ok self

/-- The 8-argument constructor `ConvolutionDescriptor::ConvolutionDescriptor`:
the member initialisers, then the three validations of the body in order. -/
def ConvolutionDescriptor.ConvolutionDescriptor8
    (c_mode : miopenConvolutionMode_t) (p_mode : miopenPaddingMode_t)
    (p_pad_h p_pad_w p_u p_v p_dilation_h p_dilation_w : Int) :
    Except Exception ConvolutionDescriptor :=
  let self : ConvolutionDescriptor :=
    { mode := c_mode
      paddingMode := p_mode
      pad_h := p_pad_h
      pad_w := p_pad_w
      u := p_u
      v := p_v
      dilation_h := p_dilation_h
      dilation_w := p_dilation_w
      group_count := 1 }
  if self.pad_h < 0 ∨ self.pad_w < 0 ∨ self.u ≤ 0 ∨ self.v ≤ 0 ∨ self.dilation_h ≤ 0 ∨
      self.dilation_w ≤ 0 then
    MIOPEN_THROW miopenStatusBadParm
      ("Invalid parameters, check usage. MIOPEN expects padding " ++
        ">= 0, stride >= 1, dilation >= 1 and the same dilation " ++
        "factor for horizontal and vertical direction")
  else if ¬ (self.mode = miopenConvolution ∨ self.mode = miopenTranspose ∨
      self.mode = miopenGroupConv ∨ self.mode = miopenDepthwise) then
    MIOPEN_THROW miopenStatusBadParm "Convolution mode not supported"
  else if ¬ (self.paddingMode = miopenPaddingSame ∨ self.paddingMode = miopenPaddingValid ∨
      self.paddingMode = miopenPaddingDefault) then
    MIOPEN_THROW miopenStatusBadParm "Padding mode not supported"
  else
    Except.ok self

/-! ## Shape arithmetic -/

/-- Conversion of a `double` to `std::ptrdiff_t`: the fractional part is
discarded (truncation toward zero). -/
def doubleToPtrdiff (x : ℚ) : Int := if 0 ≤ x then Int.floor x else Int.ceil x

/-- The function `std::ceil` on `double`. -/
def std_ceil (x : ℚ) : ℚ := (Int.ceil x : ℚ)

/-- The lengths of a tensor read into four `std::ptrdiff_t` variables, as by
`std::tie(...) = miopen::tien<4>(desc.GetLengths())`: each `std::size_t` length
is converted to `std::ptrdiff_t`. -/
def tienPtrdiff (t : TensorDescriptor) : Int × Int × Int × Int :=
  (sizeToPtrdiff t.GetLengths.1, sizeToPtrdiff t.GetLengths.2.1,
    sizeToPtrdiff t.GetLengths.2.2.1, sizeToPtrdiff t.GetLengths.2.2.2)

/-- The function `ConvolutionDescriptor::GetForwardOutputDim`.  The lengths are
read into `std::ptrdiff_t` variables, the type check and the channel check of
the mode are made, the output extent is computed in the branch chosen by the
padding mode, and the four signed results are converted to `std::size_t`.
The product `2 * pad_h` is an `int` product; the other sums and products are
taken in `std::ptrdiff_t`, or in `double` where an operand is a `double`. -/
def ConvolutionDescriptor.GetForwardOutputDim (self : ConvolutionDescriptor)
    (inputTensorDesc filterDesc : TensorDescriptor) :
    Except Exception (Nat × Nat × Nat × Nat) :=
  if inputTensorDesc.GetType ≠ filterDesc.GetType then
    MIOPEN_THROW miopenStatusBadParm "Types do not match for the filter"
  else
    let input_n : Int := (tienPtrdiff inputTensorDesc).1
    let input_c : Int := (tienPtrdiff inputTensorDesc).2.1
    let input_h : Int := (tienPtrdiff inputTensorDesc).2.2.1
    let input_w : Int := (tienPtrdiff inputTensorDesc).2.2.2
    let filter_k : Int := (tienPtrdiff filterDesc).1
    let filter_c : Int := (tienPtrdiff filterDesc).2.1
    let filter_h : Int := (tienPtrdiff filterDesc).2.2.1
    let filter_w : Int := (tienPtrdiff filterDesc).2.2.2
    -- the channel check of the mode: `true` when the check throws
    let channelThrow : Bool :=
      if self.mode = miopenConvolution then
        decide (input_c ≠ filter_c)
      else if self.mode = miopenTranspose then
        decide (input_c ≠ filter_k)
      else if self.mode = miopenGroupConv then
        decide (Int.tmod input_c filter_c ≠ 0) ||
          decide (Int.tmod filter_k (Int.tdiv input_c filter_c) ≠ 0)
      else if self.mode = miopenDepthwise then
        decide (filter_c ≠ 1) || decide (Int.tmod filter_k input_c ≠ 0)
      else
        false
    if channelThrow then
      MIOPEN_THROW miopenStatusBadParm "Channels do not match for the filter"
    else
      let dims : Except Exception (Int × Int × Int) :=
        if self.paddingMode = miopenPaddingSame ∧ self.dilation_h = 1 ∧ self.dilation_w = 1 ∧
            self.mode = miopenConvolution then
          Except.ok (filter_k,
            doubleToPtrdiff (std_ceil ((input_h : ℚ) / (self.u : ℚ))),
            doubleToPtrdiff (std_ceil ((input_w : ℚ) / (self.v : ℚ))))
        else if self.paddingMode = miopenPaddingValid ∧ self.dilation_h = 1 ∧
            self.dilation_w = 1 ∧ self.mode = miopenConvolution then
          Except.ok (filter_k,
            doubleToPtrdiff
              (std_ceil ((toPtrdiff (input_h - filter_h + 1) : ℚ) / (self.u : ℚ))),
            doubleToPtrdiff
              (std_ceil ((toPtrdiff (input_w - filter_w + 1) : ℚ) / (self.v : ℚ))))
        else if self.paddingMode = miopenPaddingDefault ∨ self.paddingMode = miopenPaddingSame ∨
            self.paddingMode = miopenPaddingValid then
          if self.mode = miopenTranspose then
            Except.ok (filter_c,
              max 1 (doubleToPtrdiff ((toPtrdiff (self.u * (input_h - 1) + 1) : ℚ) +
                (self.dilation_h : ℚ) * ((filter_h : ℚ) - 1) - (toInt (2 * self.pad_h) : ℚ))),
              max 1 (doubleToPtrdiff ((toPtrdiff (self.v * (input_w - 1) + 1) : ℚ) +
                (self.dilation_w : ℚ) * ((filter_w : ℚ) - 1) - (toInt (2 * self.pad_w) : ℚ))))
          else
            Except.ok (filter_k,
              max 1 (toPtrdiff (Int.tdiv (toPtrdiff (input_h -
                (1 + self.dilation_h * (filter_h - 1)) + toInt (2 * self.pad_h))) self.u + 1)),
              max 1 (toPtrdiff (Int.tdiv (toPtrdiff (input_w -
                (1 + self.dilation_w * (filter_w - 1)) + toInt (2 * self.pad_w))) self.v + 1)))
        else
          MIOPEN_THROW miopenStatusInvalidValue "Invalid Padding Mode!"
      match dims with
      | Except.error e => Except.error e
      | Except.ok (output_c, output_h, output_w) =>
        Except.ok (toSizeT input_n, toSizeT output_c, toSizeT output_h, toSizeT output_w)

/-- The function `ConvolutionDescriptor::GetBackwardsWeightsDim`.  The count
`groups` is an `int`: in Depthwise mode the channel count narrowed to 32 bits.
All four results are computed in `std::size_t`: the signed values are
converted with `toSizeT` and sums, differences and products are taken modulo
`2 ^ 64`; the product `2 * pad_h` is an `int` product. -/
def ConvolutionDescriptor.GetBackwardsWeightsDim (self : ConvolutionDescriptor)
    (inputTensorDesc outputTensorDesc : TensorDescriptor) :
    Except Exception (Nat × Nat × Nat × Nat) :=
  if inputTensorDesc.GetType ≠ outputTensorDesc.GetType then
    MIOPEN_THROW miopenStatusBadParm "Types do not match for the filter"
  else
    let input_c : Nat := inputTensorDesc.GetLengths.2.1
    let input_h : Nat := inputTensorDesc.GetLengths.2.2.1
    let input_w : Nat := inputTensorDesc.GetLengths.2.2.2
    let output_c : Nat := outputTensorDesc.GetLengths.2.1
    let output_h : Nat := outputTensorDesc.GetLengths.2.2.1
    let output_w : Nat := outputTensorDesc.GetLengths.2.2.2
    let groups : Int :=
      if self.mode = miopenDepthwise then toInt (input_c : Int)
      else if self.mode = miopenGroupConv then self.group_count
      else 1
    Except.ok (output_c,
      input_c / toSizeT groups,
      toSizeT (toInt (2 * self.pad_h) + (input_h : Int) - self.u * ((output_h : Int) - 1)),
      toSizeT (toInt (2 * self.pad_w) + (input_w : Int) - self.v * ((output_w : Int) - 1)))

/-- The function `ConvolutionDescriptor::GetBackwardOutputDim`, computed in
`std::size_t` like `GetBackwardsWeightsDim`, with the `int` product
`2 * pad_h`. -/
def ConvolutionDescriptor.GetBackwardOutputDim (self : ConvolutionDescriptor)
    (outputTensorDesc filterDesc : TensorDescriptor) :
    Except Exception (Nat × Nat × Nat × Nat) :=
  if outputTensorDesc.GetType ≠ filterDesc.GetType then
    MIOPEN_THROW miopenStatusBadParm "Types do not match for the filter"
  else
    let output_n : Nat := outputTensorDesc.GetLengths.1
    let output_c : Nat := outputTensorDesc.GetLengths.2.1
    let output_h : Nat := outputTensorDesc.GetLengths.2.2.1
    let output_w : Nat := outputTensorDesc.GetLengths.2.2.2
    let filter_k : Nat := filterDesc.GetLengths.1
    let filter_c : Nat := filterDesc.GetLengths.2.1
    let filter_h : Nat := filterDesc.GetLengths.2.2.1
    let filter_w : Nat := filterDesc.GetLengths.2.2.2
    let groups : Int :=
      if self.mode = miopenDepthwise ∨ self.mode = miopenGroupConv then self.group_count
      else 1
    if output_c ≠ filter_k then
      MIOPEN_THROW miopenStatusBadParm "Channels do not match for the filter"
    else
      Except.ok (output_n,
        toSizeT ((filter_c : Int) * groups),
        toSizeT (self.u * ((output_h : Int) - 1) - toInt (2 * self.pad_h) + (filter_h : Int)),
        toSizeT (self.v * ((output_w : Int) - 1) - toInt (2 * self.pad_w) + (filter_w : Int)))

/-! ## The divisors that the shape functions evaluate

A division or remainder by zero stops the program; the functions above follow
the values of `Int.tdiv`, `Int.tmod` and `Nat.div` there.  The two functions
below evaluate the same code and return, next to the result, the divisors of
the divisions and remainders evaluated on the way, in the order of
evaluation. -/

/-- The function `ConvolutionDescriptor::GetForwardOutputDim` once more, with
the list of the divisors it evaluates.  In
`input_c % filter_c != 0 || filter_k % (input_c / filter_c) != 0` the right
operand (a division by `filter_c`, then a remainder by the quotient) is
evaluated only when the left one is false, and in
`filter_c != 1 || filter_k % input_c != 0` likewise; after a throw nothing is
evaluated.  In the Same and Valid branches the divisor is the stride converted
to `double`, which is zero exactly when the stride is; the Transposed branch
divides nothing. -/
def ConvolutionDescriptor.GetForwardOutputDim_traced (self : ConvolutionDescriptor)
    (inputTensorDesc filterDesc : TensorDescriptor) :
    Except Exception (Nat × Nat × Nat × Nat) × List Int :=
  if inputTensorDesc.GetType ≠ filterDesc.GetType then
    (MIOPEN_THROW miopenStatusBadParm "Types do not match for the filter", [])
  else
    let input_n : Int := (tienPtrdiff inputTensorDesc).1
    let input_c : Int := (tienPtrdiff inputTensorDesc).2.1
    let input_h : Int := (tienPtrdiff inputTensorDesc).2.2.1
    let input_w : Int := (tienPtrdiff inputTensorDesc).2.2.2
    let filter_k : Int := (tienPtrdiff filterDesc).1
    let filter_c : Int := (tienPtrdiff filterDesc).2.1
    let filter_h : Int := (tienPtrdiff filterDesc).2.2.1
    let filter_w : Int := (tienPtrdiff filterDesc).2.2.2
    -- the channel check of the mode: whether it throws, and its divisors
    let channelCheck : Bool × List Int :=
      if self.mode = miopenConvolution then
        (decide (input_c ≠ filter_c), [])
      else if self.mode = miopenTranspose then
        (decide (input_c ≠ filter_k), [])
      else if self.mode = miopenGroupConv then
        if Int.tmod input_c filter_c ≠ 0 then
          (true, [filter_c])
        else
          (decide (Int.tmod filter_k (Int.tdiv input_c filter_c) ≠ 0),
            [filter_c, filter_c, Int.tdiv input_c filter_c])
      else if self.mode = miopenDepthwise then
        if filter_c ≠ 1 then
          (true, [])
        else
          (decide (Int.tmod filter_k input_c ≠ 0), [input_c])
      else
        (false, [])
    if channelCheck.1 then
      (MIOPEN_THROW miopenStatusBadParm "Channels do not match for the filter", channelCheck.2)
    else
      let dims : Except Exception (Int × Int × Int) × List Int :=
        if self.paddingMode = miopenPaddingSame ∧ self.dilation_h = 1 ∧ self.dilation_w = 1 ∧
            self.mode = miopenConvolution then
          (Except.ok (filter_k,
            doubleToPtrdiff (std_ceil ((input_h : ℚ) / (self.u : ℚ))),
            doubleToPtrdiff (std_ceil ((input_w : ℚ) / (self.v : ℚ)))), [self.u, self.v])
        else if self.paddingMode = miopenPaddingValid ∧ self.dilation_h = 1 ∧
            self.dilation_w = 1 ∧ self.mode = miopenConvolution then
          (Except.ok (filter_k,
            doubleToPtrdiff
              (std_ceil ((toPtrdiff (input_h - filter_h + 1) : ℚ) / (self.u : ℚ))),
            doubleToPtrdiff
              (std_ceil ((toPtrdiff (input_w - filter_w + 1) : ℚ) / (self.v : ℚ)))),
            [self.u, self.v])
        else if self.paddingMode = miopenPaddingDefault ∨ self.paddingMode = miopenPaddingSame ∨
            self.paddingMode = miopenPaddingValid then
          if self.mode = miopenTranspose then
            (Except.ok (filter_c,
              max 1 (doubleToPtrdiff ((toPtrdiff (self.u * (input_h - 1) + 1) : ℚ) +
                (self.dilation_h : ℚ) * ((filter_h : ℚ) - 1) - (toInt (2 * self.pad_h) : ℚ))),
              max 1 (doubleToPtrdiff ((toPtrdiff (self.v * (input_w - 1) + 1) : ℚ) +
                (self.dilation_w : ℚ) * ((filter_w : ℚ) - 1) - (toInt (2 * self.pad_w) : ℚ)))),
              [])
          else
            (Except.ok (filter_k,
              max 1 (toPtrdiff (Int.tdiv (toPtrdiff (input_h -
                (1 + self.dilation_h * (filter_h - 1)) + toInt (2 * self.pad_h))) self.u + 1)),
              max 1 (toPtrdiff (Int.tdiv (toPtrdiff (input_w -
                (1 + self.dilation_w * (filter_w - 1)) + toInt (2 * self.pad_w))) self.v + 1))),
              [self.u, self.v])
        else
          (MIOPEN_THROW miopenStatusInvalidValue "Invalid Padding Mode!", [])
      match dims.1 with
      | Except.error e => (Except.error e, channelCheck.2 ++ dims.2)
      | Except.ok (output_c, output_h, output_w) =>
        (Except.ok (toSizeT input_n, toSizeT output_c, toSizeT output_h, toSizeT output_w),
          channelCheck.2 ++ dims.2)

/-- The function `ConvolutionDescriptor::GetBackwardsWeightsDim` once more,
with the divisor of its one division, `input_c / groups`, which is taken in
`std::size_t`; nothing is divided when the types differ. -/
def ConvolutionDescriptor.GetBackwardsWeightsDim_traced (self : ConvolutionDescriptor)
    (inputTensorDesc outputTensorDesc : TensorDescriptor) :
    Except Exception (Nat × Nat × Nat × Nat) × List Nat :=
  if inputTensorDesc.GetType ≠ outputTensorDesc.GetType then
    (MIOPEN_THROW miopenStatusBadParm "Types do not match for the filter", [])
  else
    let input_c : Nat := inputTensorDesc.GetLengths.2.1
    let input_h : Nat := inputTensorDesc.GetLengths.2.2.1
    let input_w : Nat := inputTensorDesc.GetLengths.2.2.2
    let output_c : Nat := outputTensorDesc.GetLengths.2.1
    let output_h : Nat := outputTensorDesc.GetLengths.2.2.1
    let output_w : Nat := outputTensorDesc.GetLengths.2.2.2
    let groups : Int :=
      if self.mode = miopenDepthwise then toInt (input_c : Int)
      else if self.mode = miopenGroupConv then self.group_count
      else 1
    (Except.ok (output_c,
      input_c / toSizeT groups,
      toSizeT (toInt (2 * self.pad_h) + (input_h : Int) - self.u * ((output_h : Int) - 1)),
      toSizeT (toInt (2 * self.pad_w) + (input_w : Int) - self.v * ((output_w : Int) - 1))),
      [toSizeT groups])

/-! ## The device handle and the build

`Handle` is defined in `src/src/hip/handlehip.cpp` on top of the HIP runtime;
the answers of the runtime are data of the model. -/

/-- The state of a `Handle` as far as `convolution.cpp` consults it: the string
`Handle::GetDeviceName` returns, the outcome of the runtime call
`hipDeviceGetAttribute(&result, hipDeviceAttributeMultiprocessorCount, device)`
(whether its status is `hipSuccess`, and the value written to `result`), the
exception `MIOPEN_THROW_HIP_STATUS(status)` builds from a failing status, and
the value of `Handle::GetMaxMemoryAllocSize`, whose definition is not part of
the sources at hand. -/
structure Handle where
  deviceName : String
  attributeStatusIsSuccess : Bool
  attributeResult : Int
  hipStatusException : Exception
  maxMemoryAllocSize : Nat
  deriving DecidableEq, Repr

/-- The function `Handle::GetDeviceName`. -/
def Handle.GetDeviceName (handle : Handle) : String := handle.deviceName

/-- The function `Handle::GetMaxComputeUnits`: it throws when the status of the
attribute query is not `hipSuccess`, and otherwise returns the `int` result
converted to `std::size_t`. -/
def Handle.GetMaxComputeUnits (handle : Handle) : Except Exception Nat :=
  if handle.attributeStatusIsSuccess = false then
    Except.error handle.hipStatusException
  else
    Except.ok (toSizeT handle.attributeResult)

/-- The function `Handle::GetMaxMemoryAllocSize`. -/
def Handle.GetMaxMemoryAllocSize (handle : Handle) : Nat := handle.maxMemoryAllocSize

/-- A kernel-construction descriptor `solver::KernelInfo`, as far as the solver
test fills it. -/
structure KernelInfo where
  kernel_file : String
  comp_options : String
  deriving DecidableEq, Repr

/-- A solution `solver::ConvSolution`: the member `workspce_sz`, which the
workspace planner reads, and the kernel list `construction_params`; a default
constructed solution has no workspace and no kernel. -/
structure ConvSolution where
  workspce_sz : Nat := 0
  construction_params : List KernelInfo := []
  deriving DecidableEq, Repr

/-- The object `mlo_construct_direct2D construct_params(xDesc, wDesc, yDesc,
*this, direction)` after the three setters of
`ForwardBackwardDataGetWorkSpaceSizeDirect`. -/
structure mlo_construct_direct2D where
  xDesc : TensorDescriptor
  wDesc : TensorDescriptor
  yDesc : TensorDescriptor
  conv : ConvolutionDescriptor
  direction : Int
  doSearch : Bool
  stream : Handle
  workaroundDisableSearchEnforce : Bool

/-- The object `mlo_construct_BwdWrW2D construct_params(xDesc, dwDesc, dyDesc,
*this, 0)` after the three setters of `BackwardWeightsGetWorkSpaceSizeDirect`. -/
structure mlo_construct_BwdWrW2D where
  xDesc : TensorDescriptor
  dwDesc : TensorDescriptor
  dyDesc : TensorDescriptor
  conv : ConvolutionDescriptor
  direction : Int
  doSearch : Bool
  stream : Handle
  workaroundDisableSearchEnforce : Bool

/-- What `convolution.cpp` takes from the build, from the process environment
and from parts of the library outside the sources at hand: the build flag
`MIOPEN_USE_GEMM`, the two debug switches read with `miopen::IsDisabled`, the
function `GetTypeSize`, the solver enumeration `FindAllSolutions` (for the two
classes of construction parameters) and the two workspace functions of the
transform-domain family. -/
structure Environment where
  MIOPEN_USE_GEMM : Bool
  precompiledBinariesDisabled : Bool
  convDirectDisabled : Bool
  GetTypeSize : miopenDataType_t → Nat
  FindAllSolutions : mlo_construct_direct2D → Except Exception (List ConvSolution)
  FindAllSolutionsBwdWrW : mlo_construct_BwdWrW2D → Except Exception (List ConvSolution)
  ForwardGetWorkSpaceSizeFFT :
    ConvolutionDescriptor → TensorDescriptor → TensorDescriptor → TensorDescriptor → Nat
  BackwardGetWorkSpaceSizeFFT :
    ConvolutionDescriptor → TensorDescriptor → TensorDescriptor → TensorDescriptor → Nat

/-- Modelled from the spec: `TensorDescriptor::GetElementSize`, the number of
elements of the tensor (the product of its lengths, in `std::size_t`); its
definition is not part of the sources at hand. -/
def TensorDescriptor.GetElementSize (t : TensorDescriptor) : Nat :=
  (t.GetLengths.1 * t.GetLengths.2.1 * t.GetLengths.2.2.1 * t.GetLengths.2.2.2) % SIZE_MOD

/-- The lengths of a tensor read into four `int` variables, as by
`std::tie(...) = tien<4>(desc.GetLengths())`: each `std::size_t` length is
narrowed to 32 bits. -/
def tienInt (t : TensorDescriptor) : Int × Int × Int × Int :=
  (toInt (t.GetLengths.1 : Int), toInt (t.GetLengths.2.1 : Int),
    toInt (t.GetLengths.2.2.1 : Int), toInt (t.GetLengths.2.2.2 : Int))

/-! ## Workspace of the matrix-multiply family -/

/-- The function `ConvolutionDescriptor::ForwardGetWorkSpaceSizeGEMM`.  The
product of the five `int` values is an `int` (32 bits); it is converted to
`std::size_t` and multiplied by the element size.  The two sibling functions
and the two transpose variants form their products in the same way. -/
def ConvolutionDescriptor.ForwardGetWorkSpaceSizeGEMM (self : ConvolutionDescriptor)
    (env : Environment) (handle : Handle) (wDesc yDesc : TensorDescriptor) : Nat :=
  let out_h : Int := (tienInt yDesc).2.2.1
  let out_w : Int := (tienInt yDesc).2.2.2
  let wei_c : Int := (tienInt wDesc).2.1
  let wei_h : Int := (tienInt wDesc).2.2.1
  let wei_w : Int := (tienInt wDesc).2.2.2
  let workspace_size : Nat :=
    (toSizeT (toInt (wei_c * wei_h * wei_w * out_h * out_w)) * env.GetTypeSize yDesc.GetType) %
      SIZE_MOD
  if wei_h = 1 ∧ wei_w = 1 ∧ self.u = 1 ∧ self.v = 1 ∧ self.pad_h = 0 ∧ self.pad_w = 0 then
    0
  else if workspace_size > handle.GetMaxMemoryAllocSize then
    0
  else
    workspace_size

/-- The function `ConvolutionDescriptor::ForwardGetWorkSpaceSizeGEMMTranspose`. -/
def ConvolutionDescriptor.ForwardGetWorkSpaceSizeGEMMTranspose (_self : ConvolutionDescriptor)
    (env : Environment) (xDesc yDesc : TensorDescriptor) : Nat :=
  let in_n : Int := (tienInt xDesc).1
  let in_c : Int := (tienInt xDesc).2.1
  let out_h : Int := (tienInt yDesc).2.2.1
  let out_w : Int := (tienInt yDesc).2.2.2
  let x_t_size : Nat :=
    (toSizeT (toInt (in_n * in_c * out_h * out_w)) * env.GetTypeSize xDesc.GetType) % SIZE_MOD
  let y_t_size : Nat := (yDesc.GetElementSize * env.GetTypeSize yDesc.GetType) % SIZE_MOD
  (x_t_size + y_t_size) % SIZE_MOD

/-- The function `ConvolutionDescriptor::BackwardDataGetWorkSpaceSizeGEMM`. -/
def ConvolutionDescriptor.BackwardDataGetWorkSpaceSizeGEMM (self : ConvolutionDescriptor)
    (env : Environment) (handle : Handle) (wDesc dyDesc : TensorDescriptor) : Nat :=
  let out_h : Int := (tienInt dyDesc).2.2.1
  let out_w : Int := (tienInt dyDesc).2.2.2
  let wei_c : Int := (tienInt wDesc).2.1
  let wei_h : Int := (tienInt wDesc).2.2.1
  let wei_w : Int := (tienInt wDesc).2.2.2
  let gemm_size : Nat :=
    (toSizeT (toInt (wei_c * wei_h * wei_w * out_h * out_w)) * env.GetTypeSize dyDesc.GetType) %
      SIZE_MOD
  if wei_h = 1 ∧ wei_w = 1 ∧ self.u = 1 ∧ self.v = 1 ∧ self.pad_h = 0 ∧ self.pad_w = 0 then
    0
  else if gemm_size > handle.GetMaxMemoryAllocSize then
    0
  else
    gemm_size

/-- The function `ConvolutionDescriptor::BackwardDataGetWorkSpaceSizeGEMMTranspose`. -/
def ConvolutionDescriptor.BackwardDataGetWorkSpaceSizeGEMMTranspose
    (_self : ConvolutionDescriptor) (env : Environment) (dyDesc dxDesc : TensorDescriptor) :
    Nat :=
  let in_n : Int := (tienInt dxDesc).1
  let in_c : Int := (tienInt dxDesc).2.1
  let out_h : Int := (tienInt dyDesc).2.2.1
  let out_w : Int := (tienInt dyDesc).2.2.2
  let dx_t_size : Nat :=
    (toSizeT (toInt (in_n * in_c * out_h * out_w)) * env.GetTypeSize dxDesc.GetType) % SIZE_MOD
  let dy_t_size : Nat := (dyDesc.GetElementSize * env.GetTypeSize dyDesc.GetType) % SIZE_MOD
  (dx_t_size + dy_t_size) % SIZE_MOD

/-- The function `ConvolutionDescriptor::BackwardWeightsGetWorkSpaceSizeGEMM`. -/
def ConvolutionDescriptor.BackwardWeightsGetWorkSpaceSizeGEMM (self : ConvolutionDescriptor)
    (env : Environment) (handle : Handle) (dyDesc dwDesc : TensorDescriptor) : Nat :=
  let out_h : Int := (tienInt dyDesc).2.2.1
  let out_w : Int := (tienInt dyDesc).2.2.2
  let wei_c : Int := (tienInt dwDesc).2.1
  let wei_h : Int := (tienInt dwDesc).2.2.1
  let wei_w : Int := (tienInt dwDesc).2.2.2
  let gemm_size : Nat :=
    (toSizeT (toInt (wei_c * wei_h * wei_w * out_h * out_w)) * env.GetTypeSize dyDesc.GetType) %
      SIZE_MOD
  if wei_h = 1 ∧ wei_w = 1 ∧ self.u = 1 ∧ self.v = 1 ∧ self.pad_h = 0 ∧ self.pad_w = 0 then
    0
  else if gemm_size > handle.GetMaxMemoryAllocSize then
    0
  else
    gemm_size

/-! ## Eligibility of the fixed-pattern (Winograd 3x3) strategy -/

/-- The test `haystack.find(needle) != std::string::npos`: the needle occurs
in the haystack as a contiguous substring. -/
def stringContains (haystack needle : String) : Bool :=
  decide (needle.toList <:+: haystack.toList)

/-- The function `ConvolutionDescriptor::IsWinograd3x3Supported`.  The calls
`handle.GetDeviceName()` and `handle.GetMaxComputeUnits()` are made after the
test of the mode and before the test of the device name; an exception of
`GetMaxComputeUnits` leaves the function.  The lengths are read into `int`
variables and the four cross-products are `int` products. -/
def ConvolutionDescriptor.IsWinograd3x3Supported (self : ConvolutionDescriptor)
    (env : Environment) (handle : Handle) (direction : Bool)
    (wDesc xDesc : TensorDescriptor) : Except Exception Bool :=
  if env.precompiledBinariesDisabled then
    Except.ok false
  else if self.mode ≠ miopenConvolution then
    Except.ok false
  else
    let device_name : String := handle.GetDeviceName
    match handle.GetMaxComputeUnits with
    | Except.error e => Except.error e
    | Except.ok max_compute_units =>
      if ¬ (device_name = "gfx803" ∨ device_name = "gfx900" ∨ device_name = "gfx906") then
        Except.ok false
      else
        let device_is_gfx8 : Bool := stringContains device_name "gfx8"
        let _batch_sz : Int := (tienInt xDesc).1
        let _n_inputs : Int := (tienInt xDesc).2.1
        let _in_height : Int := (tienInt xDesc).2.2.1
        let _in_width : Int := (tienInt xDesc).2.2.2
        let _n_outputs_w : Int := (tienInt wDesc).1
        let _n_inputs_w : Int := (tienInt wDesc).2.1
        let _kernel_size0 : Int := (tienInt wDesc).2.2.1
        let _kernel_size1 : Int := (tienInt wDesc).2.2.2
        let _n_outputs : Int := if direction then _n_outputs_w else _n_inputs_w
        Except.ok (decide (self.pad_h = 1 ∧ self.pad_w = 1 ∧ _kernel_size0 = 3 ∧
          _kernel_size1 = 3 ∧ self.u = 1 ∧ self.v = 1 ∧ _batch_sz < 2 ^ 16 ∧
          _n_inputs < 2 ^ 16 ∧ _n_outputs < 2 ^ 16 ∧ _in_height < 2 ^ 16 ∧
          _in_width < 2 ^ 16 ∧ max_compute_units < 2 ^ 16 ∧
          toInt (_n_inputs * _in_height * _in_width) ≤ 2 ^ 28 ∧
          toInt (_n_outputs * _in_height * _in_width) ≤ 2 ^ 28 ∧
          toInt (_n_inputs * _kernel_size0 * _kernel_size1) ≤ 2 ^ 28 ∧
          toInt (_n_outputs * _kernel_size0 * _kernel_size1) ≤ 2 ^ 28 ∧
          Int.tmod _n_inputs 2 = 0 ∧
          _n_inputs ≥ (if device_is_gfx8 then 16 else 18) ∧
          env.GetTypeSize wDesc.GetType = 4 ∧ env.GetTypeSize xDesc.GetType = 4))

/-! ## Workspace of the direct family -/

/-- The function `ConvolutionDescriptor::IsDirectSupported`. -/
def ConvolutionDescriptor.IsDirectSupported (self : ConvolutionDescriptor)
    (wDesc : TensorDescriptor) : Bool :=
  if self.mode ≠ miopenConvolution then
    true
  else
    let _kernel_size0 : Int := (tienInt wDesc).2.2.1
    let _kernel_size1 : Int := (tienInt wDesc).2.2.2
    let supported_filters : Bool :=
      decide ((_kernel_size0 = 1 ∧ _kernel_size1 = 1) ∨ (_kernel_size0 = 3 ∧ _kernel_size1 = 3) ∨
        (_kernel_size0 = 5 ∧ _kernel_size1 = 5) ∨ (_kernel_size0 = 7 ∧ _kernel_size1 = 7) ∨
        (_kernel_size0 = 9 ∧ _kernel_size1 = 9) ∨
        (_kernel_size0 = 11 ∧ _kernel_size1 = 11) ∨
        (_kernel_size0 = 5 ∧ _kernel_size1 = 10 ∧ self.u = 2 ∧ self.v = 2 ∧ self.pad_h = 0 ∧
          self.pad_w = 0) ∨
        (_kernel_size0 = 5 ∧ _kernel_size1 = 20 ∧ self.u = 2 ∧ self.v = 2 ∧ self.pad_h = 0 ∧
          self.pad_w = 0))
    let workarounds : Bool :=
      decide ((_kernel_size0 = 3 ∧ _kernel_size1 = 3 ∧ (self.u > 2 ∨ self.v > 2)) ∨
        (_kernel_size0 = 1 ∧ _kernel_size1 = 1 ∧ (self.pad_h > 0 ∨ self.pad_w > 0)) ∨
        (Int.tmod _kernel_size0 2 = 0 ∧ Int.tmod _kernel_size1 2 = 0))
    supported_filters && !workarounds

/-- The loop of the two direct workspace functions over the solutions `ss`:
`sz` starts at 0 and is replaced by every `workspce_sz` that exceeds it. -/
def largestWorkspace (ss : List ConvSolution) : Nat :=
  ss.foldl (fun sz solution => if sz < solution.workspce_sz then solution.workspce_sz else sz) 0

/-- The function `ConvolutionDescriptor::ForwardBackwardDataGetWorkSpaceSizeDirect`;
`direction` is 1 for forward and 0 for backward data.  An exception of
`FindAllSolutions` is caught and gives 0. -/
def ConvolutionDescriptor.ForwardBackwardDataGetWorkSpaceSizeDirect
    (self : ConvolutionDescriptor) (env : Environment) (handle : Handle)
    (xDesc yDesc wDesc : TensorDescriptor) (direction : Int) : Nat :=
  if (!self.IsDirectSupported wDesc) || env.convDirectDisabled then
    0
  else
    let construct_params : mlo_construct_direct2D :=
      { xDesc := xDesc, wDesc := wDesc, yDesc := yDesc, conv := self, direction := direction,
        doSearch := false, stream := handle, workaroundDisableSearchEnforce := true }
    match env.FindAllSolutions construct_params with
    | Except.ok ss => largestWorkspace ss
    | Except.error _ => 0

/-! ## The workspace planner -/

/-- The function `ConvolutionDescriptor::ForwardGetWorkSpaceSize`; the blocks
under `#if MIOPEN_USE_GEMM` are taken when `env.MIOPEN_USE_GEMM` holds. -/
def ConvolutionDescriptor.ForwardGetWorkSpaceSize (self : ConvolutionDescriptor)
    (env : Environment) (handle : Handle) (wDesc xDesc yDesc : TensorDescriptor) :
    Except Exception Nat :=
  if self.mode = miopenTranspose then
    if env.MIOPEN_USE_GEMM then
      Except.ok (self.BackwardDataGetWorkSpaceSizeGEMM env handle wDesc xDesc)
    else
      Except.ok 0
  else
    let wei_h : Int := (tienInt wDesc).2.2.1
    let wei_w : Int := (tienInt wDesc).2.2.2
    let in_c : Int := (tienInt xDesc).2.1
    let in_h : Int := (tienInt xDesc).2.2.1
    let in_w : Int := (tienInt xDesc).2.2.2
    let groups : Int :=
      if self.mode = miopenDepthwise then in_c
      else if self.mode = miopenGroupConv then self.group_count
      else 1
    let direct_workspace : Nat :=
      self.ForwardBackwardDataGetWorkSpaceSizeDirect env handle xDesc yDesc wDesc 1
    if env.MIOPEN_USE_GEMM ∧ (wei_h = 1 ∧ wei_w = 1 ∧ self.pad_h = 0 ∧ self.pad_w = 0) ∧
        ((in_h ≤ 14 ∧ in_w ≤ 14 ∧ self.u = 1 ∧ self.v = 1) ∨ (self.u = 2 ∧ self.v = 2)) then
      Except.ok (max (self.ForwardGetWorkSpaceSizeGEMMTranspose env xDesc yDesc) direct_workspace)
    else if env.MIOPEN_USE_GEMM ∧ (self.dilation_w > 1 ∨ self.dilation_h > 1) then
      Except.ok (max ((toSizeT groups * self.ForwardGetWorkSpaceSizeGEMM env handle wDesc yDesc) %
        SIZE_MOD) direct_workspace)
    else
      match self.IsWinograd3x3Supported env handle true wDesc xDesc with
      | Except.error e => Except.error e
      | Except.ok winograd =>
        if winograd && !(decide (self.mode = miopenGroupConv ∨ self.mode = miopenDepthwise)) then
          Except.ok 0
        else
          let workspace_size_gemm : Nat :=
            if env.MIOPEN_USE_GEMM then
              (toSizeT groups * self.ForwardGetWorkSpaceSizeGEMM env handle wDesc yDesc) % SIZE_MOD
            else 0
          let workspace_size_fft : Nat := env.ForwardGetWorkSpaceSizeFFT self wDesc xDesc yDesc
          Except.ok (max (max workspace_size_fft workspace_size_gemm) direct_workspace)

/-- The function `ConvolutionDescriptor::BackwardDataGetWorkSpaceSize`; the
blocks under `#if MIOPEN_USE_GEMM` are taken when `env.MIOPEN_USE_GEMM`
holds. -/
def ConvolutionDescriptor.BackwardDataGetWorkSpaceSize (self : ConvolutionDescriptor)
    (env : Environment) (handle : Handle) (wDesc dyDesc dxDesc : TensorDescriptor) :
    Except Exception Nat :=
  if self.mode = miopenTranspose then
    if env.MIOPEN_USE_GEMM then
      Except.ok (self.ForwardGetWorkSpaceSizeGEMM env handle wDesc dxDesc)
    else
      Except.ok 0
  else
    let wei_h : Int := (tienInt wDesc).2.2.1
    let wei_w : Int := (tienInt wDesc).2.2.2
    let groups : Int :=
      if self.mode = miopenDepthwise then (tienInt dxDesc).2.1
      else if self.mode = miopenGroupConv then self.group_count
      else 1
    let direct_workspace : Nat :=
      self.ForwardBackwardDataGetWorkSpaceSizeDirect env handle dxDesc dyDesc wDesc 0
    if env.MIOPEN_USE_GEMM ∧ (wei_h = 1 ∧ wei_w = 1 ∧ self.pad_h = 0 ∧ self.pad_w = 0 ∧
        (self.u = 2 ∧ self.v = 2)) then
      let gemm_trans : Nat := self.BackwardDataGetWorkSpaceSizeGEMMTranspose env dyDesc dxDesc
      Except.ok (max gemm_trans direct_workspace)
    else if env.MIOPEN_USE_GEMM ∧ (self.dilation_w > 1 ∨ self.dilation_h > 1) then
      Except.ok (max ((toSizeT groups *
        self.BackwardDataGetWorkSpaceSizeGEMM env handle wDesc dyDesc) % SIZE_MOD)
        direct_workspace)
    else
      match self.IsWinograd3x3Supported env handle false wDesc dyDesc with
      | Except.error e => Except.error e
      | Except.ok winograd =>
        if winograd && !(decide (self.mode = miopenGroupConv ∨ self.mode = miopenDepthwise)) then
          Except.ok 0
        else
          let workspace_size_gemm : Nat :=
            if env.MIOPEN_USE_GEMM then
              (toSizeT groups * self.BackwardDataGetWorkSpaceSizeGEMM env handle wDesc dyDesc) %
                SIZE_MOD
            else 0
          let workspace_size_fft : Nat := env.BackwardGetWorkSpaceSizeFFT self wDesc dyDesc dxDesc
          Except.ok (max (max workspace_size_fft workspace_size_gemm) direct_workspace)

/-! ## Workspace for the backward-weights direction -/

/-- The function `ConvolutionDescriptor::BackwardWeightsGetWorkSpaceSizeDirect`.
An exception of `FindAllSolutions` is caught and gives 0. -/
def ConvolutionDescriptor.BackwardWeightsGetWorkSpaceSizeDirect
    (self : ConvolutionDescriptor) (env : Environment) (handle : Handle)
    (dyDesc xDesc dwDesc : TensorDescriptor) : Nat :=
  let construct_params : mlo_construct_BwdWrW2D :=
    { xDesc := xDesc, dwDesc := dwDesc, dyDesc := dyDesc, conv := self, direction := 0,
      doSearch := false, stream := handle, workaroundDisableSearchEnforce := true }
  match env.FindAllSolutionsBwdWrW construct_params with
  | Except.ok ss => largestWorkspace ss
  | Except.error _ => 0

/-- The function `ConvolutionDescriptor::ConvolutionBackwardWeightsGetWorkSpaceSize`;
the block under `#if MIOPEN_USE_GEMM` is taken when `env.MIOPEN_USE_GEMM`
holds.  In Depthwise mode `int groups = xDesc.GetLengths()[1]` narrows the
channel count to 32 bits. -/
def ConvolutionDescriptor.ConvolutionBackwardWeightsGetWorkSpaceSize
    (self : ConvolutionDescriptor) (env : Environment) (handle : Handle)
    (dyDesc xDesc dwDesc : TensorDescriptor) : Nat :=
  let groups : Int :=
    if self.mode = miopenDepthwise then toInt (xDesc.GetLengths.2.1 : Int)
    else if self.mode = miopenGroupConv then self.group_count
    else 1
  if self.mode = miopenTranspose then
    self.BackwardWeightsGetWorkSpaceSizeGEMM env handle xDesc dwDesc
  else
    let workspace_size_gemm : Nat :=
      if env.MIOPEN_USE_GEMM then
        (toSizeT groups * self.BackwardWeightsGetWorkSpaceSizeGEMM env handle dyDesc dwDesc) %
          SIZE_MOD
      else 0
    max (self.BackwardWeightsGetWorkSpaceSizeDirect env handle dyDesc xDesc dwDesc)
      workspace_size_gemm

/-! ## Concrete devices and environments

Used to evaluate the functions above at concrete inputs. -/

/-- An environment with the matrix-multiply family compiled in, no debug
switch set, element sizes of 2 and 4 bytes, no solution in the direct family
and no workspace for the transform-domain family. -/
def plainEnvironment : Environment :=
  { MIOPEN_USE_GEMM := true
    precompiledBinariesDisabled := false
    convDirectDisabled := false
    GetTypeSize := fun t =>
      match t with
      | miopenDataType_t.miopenHalf => 2
      | miopenDataType_t.miopenFloat => 4
    FindAllSolutions := fun _ => Except.ok []
    FindAllSolutionsBwdWrW := fun _ => Except.ok []
    ForwardGetWorkSpaceSizeFFT := fun _ _ _ _ => 0
    BackwardGetWorkSpaceSizeFFT := fun _ _ _ _ => 0 }

/-- A gfx900 device with 64 compute units whose attribute query succeeds, with
an allocation ceiling of 2^32 bytes. -/
def gfx900Handle : Handle :=
  { deviceName := "gfx900"
    attributeStatusIsSuccess := true
    attributeResult := 64
    hipStatusException :=
      { status := miopenStatus_t.miopenStatusUnknownError, message := "HIP error" }
    maxMemoryAllocSize := 4294967296 }

/-- A gfx900 device whose attribute query `hipDeviceGetAttribute` does not
return `hipSuccess`. -/
def failingHandle : Handle :=
  { deviceName := "gfx900"
    attributeStatusIsSuccess := false
    attributeResult := 0
    hipStatusException :=
      { status := miopenStatus_t.miopenStatusUnknownError, message := "HIP error" }
    maxMemoryAllocSize := 4294967296 }

/-- A gfx900 device that reports 65536 compute units. -/
def manyUnitsHandle : Handle :=
  { deviceName := "gfx900"
    attributeStatusIsSuccess := true
    attributeResult := 65536
    hipStatusException :=
      { status := miopenStatus_t.miopenStatusUnknownError, message := "HIP error" }
    maxMemoryAllocSize := 4294967296 }

/-- An environment like `plainEnvironment` in which the direct family has three
solutions (of 1024, 4096 and 0 bytes) in each direction and the
transform-domain family asks for 8192 bytes. -/
def busyEnvironment : Environment :=
  { MIOPEN_USE_GEMM := true
    precompiledBinariesDisabled := false
    convDirectDisabled := false
    GetTypeSize := fun t =>
      match t with
      | miopenDataType_t.miopenHalf => 2
      | miopenDataType_t.miopenFloat => 4
    FindAllSolutions := fun _ =>
      Except.ok [{ workspce_sz := 1024 }, { workspce_sz := 4096 }, { workspce_sz := 0 }]
    FindAllSolutionsBwdWrW := fun _ =>
      Except.ok [{ workspce_sz := 1024 }, { workspce_sz := 4096 }, { workspce_sz := 0 }]
    ForwardGetWorkSpaceSizeFFT := fun _ _ _ _ => 8192
    BackwardGetWorkSpaceSizeFFT := fun _ _ _ _ => 8192 }

/-- An environment like `plainEnvironment` in which the enumeration of the
solutions of the direct family throws. -/
def throwingEnvironment : Environment :=
  { MIOPEN_USE_GEMM := true
    precompiledBinariesDisabled := false
    convDirectDisabled := false
    GetTypeSize := fun t =>
      match t with
      | miopenDataType_t.miopenHalf => 2
      | miopenDataType_t.miopenFloat => 4
    FindAllSolutions := fun _ =>
      Except.error { status := miopenStatus_t.miopenStatusUnknownError, message := "no solution" }
    FindAllSolutionsBwdWrW := fun _ =>
      Except.error { status := miopenStatus_t.miopenStatusUnknownError, message := "no solution" }
    ForwardGetWorkSpaceSizeFFT := fun _ _ _ _ => 0
    BackwardGetWorkSpaceSizeFFT := fun _ _ _ _ => 0 }

/-! ## The solver test: configurations (`test/solver.cpp`) -/

/-- The class `TestConfig`: a performance configuration that holds one
string. -/
structure TestConfig where
  str : String
  deriving DecidableEq, Repr

/-- The line feed, the delimiter of `std::getline`. -/
def lineFeed : Char := Char.ofNat 10

/-- The call `std::getline(ss, temp)` on a fresh `std::istringstream` over `s`,
followed by the conversion of the stream to `bool`: the characters before the
first line feed are extracted (the line feed itself is read and dropped), and
the stream is in a failed state, `none` here, exactly when no character at all
could be read, which is when `s` is empty. -/
def std_getline (s : String) : Option String :=
  if s.data = [] then none
  else some (String.mk (s.data.takeWhile (fun ch => ch != lineFeed)))

/-- The function `TestConfig::Serialize`, `s << str`: the text of the stream
`s` after the call. -/
def TestConfig.Serialize (self : TestConfig) (s : String) : String :=
  s ++ self.str

/-- The function `TestConfig::Deserialize`: the returned flag and the object
after the call. -/
def TestConfig.Deserialize (self : TestConfig) (s : String) : Bool × TestConfig :=
  match std_getline s with
  | none => (false, self)
  | some temp => (true, { self with str := temp })

/-! ## The solver test: strategies and the search engine

The test solvers are those of `test/solver.cpp`.  The engine that the test
drives (`mlo_construct_direct2D::mloConstruct`, the base class
`solver::Solver`, the performance database) is declared in headers and
defined in sources that are not among the sources at hand. -/

/-- Modelled from the spec: the problem description `ConvolutionContext`, whose
declaration is missing, reduced to the members that the solver test sets or
reads: the height and the width of the input and the request to search. -/
structure ConvolutionContext where
  in_height : Int
  in_width : Int
  do_search : Bool
  deriving DecidableEq, Repr

/-- Modelled from the spec: the problem signature, the key under which the
performance store files a problem; the encoding is missing from the sources,
and the signature is the description without the request to search. -/
structure ProblemSignature where
  in_height : Int
  in_width : Int
  deriving DecidableEq, Repr

/-- Modelled from the spec: the signature of a problem description (the
encoding function is missing). -/
def ConvolutionContext.signature (context : ConvolutionContext) : ProblemSignature :=
  { in_height := context.in_height, in_width := context.in_width }

/-- Modelled from the spec: the strategy interface `solver::Solver` (section
4.3), whose declaration is missing.  `IsFast` defaults to `true` and
`IsSearchable` to `false`; `IsApplicable` defaults to `true`, as the test needs
for `SearchableTestSolver`, which does not override it; the base
`InitPerformanceConfigImpl` and `Search` leave the configuration as it is.
`Search` also takes and returns the counter that the solver keeps in a static
variable. -/
structure Solver where
  SolverId : String
  IsApplicable : ConvolutionContext → Bool := fun _ => true
  IsFast : ConvolutionContext → Bool := fun _ => true
  IsSearchable : Bool := false
  InitPerformanceConfigImpl : ConvolutionContext → TestConfig → TestConfig := fun _ config => config
  Search : ConvolutionContext → TestConfig → Int → TestConfig × Int :=
    fun _ config searches => (config, searches)
  GetSolution : ConvolutionContext → TestConfig → ConvSolution

/-- The class `TrivialSlowTestSolver`. -/
def TrivialSlowTestSolver : Solver :=
  { SolverId := "TrivialSlowTestSolver"
    IsFast := fun context => decide (context.in_height = 1)
    IsApplicable := fun context => decide (context.in_width = 1)
    GetSolution := fun _ _ =>
      { construction_params :=
          [{ kernel_file := "TrivialSlowTestSolver", comp_options := " " }] } }

/-- The class `TrivialTestSolver`. -/
def TrivialTestSolver : Solver :=
  { SolverId := "TrivialTestSolver"
    IsApplicable := fun context => decide (context.in_width = 1)
    GetSolution := fun _ _ =>
      { construction_params := [{ kernel_file := "TrivialTestSolver", comp_options := " " }] } }

/-- The class `SearchableTestSolver`; `Search` increments `_serches_done`. -/
def SearchableTestSolver : Solver :=
  { SolverId := "SearchableTestSolver"
    IsSearchable := true
    InitPerformanceConfigImpl := fun _ config =>
      { config with str := "SearchableTestSolver.NoSearch" }
    Search := fun _ config _serches_done =>
      ({ config with str := "SearchableTestSolver" }, _serches_done + 1)
    GetSolution := fun _ config =>
      { construction_params := [{ kernel_file := config.str, comp_options := " " }] } }

/-- The catalog `TrivialConstruct::SolverStore()`, in registration order. -/
def SolverStore : List Solver :=
  [TrivialSlowTestSolver, TrivialTestSolver, SearchableTestSolver]

/-- Modelled from the spec: the performance store (section 4.4), whose
implementation is missing: records of a serialized configuration under a
(signature, strategy id) key, the newest first. -/
structure PerformanceStore where
  records : List ((ProblemSignature × String) × String)
  deriving DecidableEq, Repr

/-- Modelled from the spec: `Get(signature, strategy_id)` of the performance
store (implementation missing): the newest record under the key,
deserialized into a fresh configuration; a failing deserialization is a
miss. -/
def PerformanceStore.Get (db : PerformanceStore) (signature : ProblemSignature)
    (strategy_id : String) : Option TestConfig :=
  match db.records.lookup (signature, strategy_id) with
  | none => none
  | some text =>
    let r := TestConfig.Deserialize { str := "" } text
    if r.1 then some r.2 else none

/-- Modelled from the spec: `Put(signature, strategy_id, config)` of the
performance store (implementation missing): the serialized configuration
becomes the newest record under the key. -/
def PerformanceStore.Put (db : PerformanceStore) (signature : ProblemSignature)
    (strategy_id : String) (config : TestConfig) : PerformanceStore :=
  { records := ((signature, strategy_id), config.Serialize "") :: db.records }

/-- The state that outlives a request: the performance database at `db_path`
and the static counter `SearchableTestSolver::_serches_done`. -/
structure EngineState where
  db : PerformanceStore
  searches_done : Int
  deriving DecidableEq, Repr

/-- Modelled from the spec: the resolution of the configuration of one
strategy and the realization of its plan (section 4.5; the engine's source is
missing).  A strategy that is not searchable uses its default configuration.
For a searchable one the store is consulted: a hit is used as it is, without
a search; on a miss with search requested, `Search` runs and its result is put
into the store; on a miss without search requested, as the fourth request of
the test needs, the default configuration is used and nothing is stored. -/
def Solver.FindSolution (solver : Solver) (context : ConvolutionContext)
    (state : EngineState) : ConvSolution × EngineState :=
  let config : TestConfig := { str := "" }
  if !solver.IsSearchable then
    (solver.GetSolution context (solver.InitPerformanceConfigImpl context config), state)
  else
    match state.db.Get context.signature solver.SolverId with
    | some stored => (solver.GetSolution context stored, state)
    | none =>
      if context.do_search then
        let r := solver.Search context config state.searches_done
        (solver.GetSolution context r.1,
          { db := state.db.Put context.signature solver.SolverId r.1, searches_done := r.2 })
      else
        (solver.GetSolution context (solver.InitPerformanceConfigImpl context config), state)

/-- Modelled from the spec: the choice among the strategies of a catalog
(section 4.5; the engine's source is missing): only applicable strategies are
candidates, one flagged fast is preferred over one that is not, and otherwise
the registration order decides. -/
def selectSolver (catalog : List Solver) (context : ConvolutionContext) : Option Solver :=
  match catalog.find? (fun solver => solver.IsApplicable context && solver.IsFast context) with
  | some solver => some solver
  | none => catalog.find? (fun solver => solver.IsApplicable context)

/-- Modelled from the spec: one request to the engine, `mloConstruct` (source
missing): the chosen strategy's plan and the state after the request; `none`
when no strategy is applicable. -/
def mloConstruct (catalog : List Solver) (context : ConvolutionContext)
    (state : EngineState) : Option ConvSolution × EngineState :=
  match selectSolver catalog context with
  | none => (none, state)
  | some solver =>
    let r := solver.FindSolution context state
    (some r.1, r.2)

/-- Modelled from the spec: `getKernelFile` (source missing), the kernel source
named by the first kernel descriptor of the plan in use. -/
def getKernelFile (solution : Option ConvSolution) : String :=
  match solution with
  | some { construction_params := kernel :: _, .. } => kernel.kernel_file
  | _ => ""

/-- A sequence of requests against one state, each starting from the state that
the one before left; the kernel files in order and the final state. -/
def runRequests (catalog : List Solver) :
    List ConvolutionContext → EngineState → List String × EngineState
  | [], state => ([], state)
  | context :: rest, state =>
    let r := mloConstruct catalog context state
    let rs := runRequests catalog rest r.2
    (getKernelFile r.1 :: rs.1, rs.2)

/-- Modelled from the spec: the problem description of a freshly constructed
`TrivialConstruct` (the constructor is missing); the test needs only that its
width is not 1 and that no search is requested. -/
def TrivialConstruct : ConvolutionContext :=
  { in_height := 0, in_width := 0, do_search := false }

/-- The effect of `c.setInputDescr("", "", 0, 0, height, width, 0, 0, 0, 0)` on
the members kept here. -/
def ConvolutionContext.setInputDescr (c : ConvolutionContext) (height width : Int) :
    ConvolutionContext :=
  { c with in_height := height, in_width := width }

/-- The effect of `c.doSearch(do_search)`. -/
def ConvolutionContext.doSearch (c : ConvolutionContext) (do_search : Bool) :
    ConvolutionContext :=
  { c with do_search := do_search }

/-- The seven requests of `SolverTest::Run`, in order. -/
def SolverTest_requests : List ConvolutionContext :=
  [ TrivialConstruct.setInputDescr 1 1,
    TrivialConstruct.setInputDescr 0 1,
    (TrivialConstruct.setInputDescr 0 1).doSearch true,
    TrivialConstruct.doSearch false,
    TrivialConstruct.doSearch true,
    TrivialConstruct,
    TrivialConstruct.doSearch true ]

/-- The state at the start of `SolverTest::Run`: an empty database at a fresh
temporary path and a counter of 0. -/
def SolverTest_initial : EngineState :=
  { db := { records := [] }, searches_done := 0 }

/-! ## Auxiliary facts on the machine arithmetic -/

theorem toSizeT_of_nonneg_of_lt (x : Int) (h0 : 0 ≤ x) (h1 : x < 2 ^ 64) :
    ((toSizeT x : Nat) : Int) = x := by
  unfold toSizeT
  rw [Int.emod_eq_of_lt h0 h1]
  exact Int.toNat_of_nonneg h0

theorem toSizeT_natCast (n : Nat) (h : n < SIZE_MOD) : toSizeT (n : Int) = n := by
  have h1 : ((n : Nat) : Int) < 2 ^ 64 := by
    unfold SIZE_MOD at h
    exact_mod_cast h
  have := toSizeT_of_nonneg_of_lt (n : Int) (Int.natCast_nonneg n) h1
  exact_mod_cast this

theorem toSizeT_lt (x : Int) : toSizeT x < SIZE_MOD := by
  unfold toSizeT SIZE_MOD
  have h1 : x % (2 ^ 64 : Int) < 2 ^ 64 := Int.emod_lt_of_pos x (by norm_num)
  have h0 : 0 ≤ x % (2 ^ 64 : Int) := Int.emod_nonneg x (by norm_num)
  omega

theorem toInt_of_range (x : Int) (h0 : -2 ^ 31 ≤ x) (h1 : x < 2 ^ 31) : toInt x = x := by
  unfold toInt
  omega

theorem toPtrdiff_of_range (x : Int) (h0 : -2 ^ 63 ≤ x) (h1 : x < 2 ^ 63) :
    toPtrdiff x = x := by
  unfold toPtrdiff
  omega

theorem sizeToPtrdiff_of_lt (n : Nat) (h : n < 2 ^ 63) : sizeToPtrdiff n = (n : Int) := by
  unfold sizeToPtrdiff toPtrdiff SIZE_MOD
  rw [if_pos (by omega)]
  omega

/-- Two lengths that read as the same `std::ptrdiff_t` value are equal. -/
theorem sizeToPtrdiff_injective (a b : Nat) (h : sizeToPtrdiff a = sizeToPtrdiff b) : a = b := by
  unfold sizeToPtrdiff toPtrdiff SIZE_MOD at h
  split_ifs at h <;> omega

/-- A length read into a `std::ptrdiff_t` and converted back is unchanged. -/
theorem toSizeT_sizeToPtrdiff (n : Nat) (h : n < SIZE_MOD) : toSizeT (sizeToPtrdiff n) = n := by
  unfold sizeToPtrdiff toPtrdiff toSizeT
  unfold SIZE_MOD at h ⊢
  rw [if_pos h]
  omega

theorem mul_range (a b : Int) (ha0 : -2 ^ 31 ≤ a) (ha1 : a ≤ 2 ^ 31) (hb0 : -2 ^ 31 ≤ b)
    (hb1 : b ≤ 2 ^ 31) : -2 ^ 62 ≤ a * b ∧ a * b ≤ 2 ^ 62 := by
  constructor <;> nlinarith

theorem tdiv_range (a b M : Int) (h0 : -M ≤ a) (h1 : a ≤ M) :
    -M ≤ Int.tdiv a b ∧ Int.tdiv a b ≤ M := by
  have h2 : (Int.tdiv a b).natAbs ≤ a.natAbs := by
    rw [Int.natAbs_tdiv]
    exact Nat.div_le_self _ _
  omega

/-! ## Constructors: validation -/

/-- C1: each constructor succeeds exactly when pad >= 0, stride >= 1 and
dilation >= 1 (the 8-argument one also requires the mode and the padding mode
to be enumerators); otherwise it throws a bad-parameter error; on success the
members are the arguments and `group_count = 1`, and different dilations in the
two directions are accepted. -/
theorem C1_constructor_validation :
    (∀ pad_h pad_w u v dilation_h dilation_w : Int,
      ((0 ≤ pad_h ∧ 0 ≤ pad_w ∧ 1 ≤ u ∧ 1 ≤ v ∧ 1 ≤ dilation_h ∧ 1 ≤ dilation_w) →
        ConvolutionDescriptor.ConvolutionDescriptor6 pad_h pad_w u v dilation_h dilation_w =
          Except.ok
            { mode := miopenConvolution, paddingMode := miopenPaddingDefault,
              pad_h := pad_h, pad_w := pad_w, u := u, v := v,
              dilation_h := dilation_h, dilation_w := dilation_w, group_count := 1 }) ∧
      (¬ (0 ≤ pad_h ∧ 0 ≤ pad_w ∧ 1 ≤ u ∧ 1 ≤ v ∧ 1 ≤ dilation_h ∧ 1 ≤ dilation_w) →
        ∃ msg, ConvolutionDescriptor.ConvolutionDescriptor6 pad_h pad_w u v dilation_h
          dilation_w = Except.error { status := miopenStatusBadParm, message := msg })) ∧
    (∀ (mode : miopenConvolutionMode_t) (paddingMode : miopenPaddingMode_t)
        (pad_h pad_w u v dilation_h dilation_w : Int),
      ((0 ≤ pad_h ∧ 0 ≤ pad_w ∧ 1 ≤ u ∧ 1 ≤ v ∧ 1 ≤ dilation_h ∧ 1 ≤ dilation_w ∧
          (mode = miopenConvolution ∨ mode = miopenTranspose ∨ mode = miopenGroupConv ∨
            mode = miopenDepthwise) ∧
          (paddingMode = miopenPaddingDefault ∨ paddingMode = miopenPaddingSame ∨
            paddingMode = miopenPaddingValid)) →
        ConvolutionDescriptor.ConvolutionDescriptor8 mode paddingMode pad_h pad_w u v
            dilation_h dilation_w =
          Except.ok
            { mode := mode, paddingMode := paddingMode,
              pad_h := pad_h, pad_w := pad_w, u := u, v := v,
              dilation_h := dilation_h, dilation_w := dilation_w, group_count := 1 }) ∧
      (¬ (0 ≤ pad_h ∧ 0 ≤ pad_w ∧ 1 ≤ u ∧ 1 ≤ v ∧ 1 ≤ dilation_h ∧ 1 ≤ dilation_w ∧
          (mode = miopenConvolution ∨ mode = miopenTranspose ∨ mode = miopenGroupConv ∨
            mode = miopenDepthwise) ∧
          (paddingMode = miopenPaddingDefault ∨ paddingMode = miopenPaddingSame ∨
            paddingMode = miopenPaddingValid)) →
        ∃ msg, ConvolutionDescriptor.ConvolutionDescriptor8 mode paddingMode pad_h pad_w u v
          dilation_h dilation_w =
            Except.error { status := miopenStatusBadParm, message := msg })) ∧
    (∃ d, ConvolutionDescriptor.ConvolutionDescriptor6 0 0 1 1 1 2 = Except.ok d ∧
      d.dilation_h ≠ d.dilation_w) ∧
    (∃ d, ConvolutionDescriptor.ConvolutionDescriptor8 miopenConvolution miopenPaddingDefault
        0 0 1 1 2 1 = Except.ok d ∧ d.dilation_h ≠ d.dilation_w) := by
  refine ⟨?_, ?_, ?_, ?_⟩
  · intro pad_h pad_w u v dilation_h dilation_w
    constructor
    · rintro ⟨h1, h2, h3, h4, h5, h6⟩
      have hc : ¬ (pad_h < 0 ∨ pad_w < 0 ∨ u ≤ 0 ∨ v ≤ 0 ∨ dilation_h ≤ 0 ∨ dilation_w ≤ 0) := by
        omega
      simp only [ConvolutionDescriptor.ConvolutionDescriptor6, if_neg hc]
    · intro h
      have hc : pad_h < 0 ∨ pad_w < 0 ∨ u ≤ 0 ∨ v ≤ 0 ∨ dilation_h ≤ 0 ∨ dilation_w ≤ 0 := by
        omega
      simp only [ConvolutionDescriptor.ConvolutionDescriptor6, if_pos hc, MIOPEN_THROW]
      exact ⟨_, rfl⟩
  · intro mode paddingMode pad_h pad_w u v dilation_h dilation_w
    constructor
    · rintro ⟨h1, h2, h3, h4, h5, h6, hm, hp⟩
      have hc : ¬ (pad_h < 0 ∨ pad_w < 0 ∨ u ≤ 0 ∨ v ≤ 0 ∨ dilation_h ≤ 0 ∨ dilation_w ≤ 0) := by
        omega
      have hp2 : paddingMode = miopenPaddingSame ∨ paddingMode = miopenPaddingValid ∨
          paddingMode = miopenPaddingDefault := by
        rcases hp with hp | hp | hp <;> simp [hp]
      simp only [ConvolutionDescriptor.ConvolutionDescriptor8, if_neg hc, not_not.mpr hm,
        not_not.mpr hp2, if_false]
    · intro h
      by_cases hc : pad_h < 0 ∨ pad_w < 0 ∨ u ≤ 0 ∨ v ≤ 0 ∨ dilation_h ≤ 0 ∨ dilation_w ≤ 0
      · simp only [ConvolutionDescriptor.ConvolutionDescriptor8, if_pos hc, MIOPEN_THROW]
        exact ⟨_, rfl⟩
      · by_cases hm : mode = miopenConvolution ∨ mode = miopenTranspose ∨
            mode = miopenGroupConv ∨ mode = miopenDepthwise
        · have hp : ¬ (paddingMode = miopenPaddingSame ∨ paddingMode = miopenPaddingValid ∨
              paddingMode = miopenPaddingDefault) := by
            intro hp
            apply h
            refine ⟨by omega, by omega, by omega, by omega, by omega, by omega, hm, ?_⟩
            rcases hp with hp | hp | hp <;> simp [hp]
          simp only [ConvolutionDescriptor.ConvolutionDescriptor8, if_neg hc, not_not.mpr hm,
            if_false, if_pos hp, MIOPEN_THROW]
          exact ⟨_, rfl⟩
        · simp only [ConvolutionDescriptor.ConvolutionDescriptor8, if_neg hc, if_pos hm,
            MIOPEN_THROW]
          exact ⟨_, rfl⟩
  · exact ⟨_, rfl, by decide⟩
  · exact ⟨_, rfl, by decide⟩

theorem floor_ratdiv_of_nonneg (a b : Int) (ha : 0 ≤ a) (hb : 0 ≤ b) :
    Int.floor ((a : ℚ) / (b : ℚ)) = Int.tdiv a b := by
  rw [Int.tdiv_eq_ediv ha hb]
  obtain ⟨n, rfl⟩ := Int.eq_ofNat_of_zero_le hb
  exact Rat.floor_intCast_div_natCast a n

theorem tdiv_nonpos_of_mixed (a b : Int) (h : (a ≤ 0 ∧ 0 ≤ b) ∨ (0 ≤ a ∧ b ≤ 0)) :
    Int.tdiv a b ≤ 0 := by
  rcases h with ⟨ha, hb⟩ | ⟨ha, hb⟩
  · have h1 : 0 ≤ Int.tdiv (-a) b := Int.tdiv_nonneg (by omega) hb
    rw [Int.neg_tdiv] at h1
    omega
  · exact Int.tdiv_nonpos ha hb

theorem floor_ratdiv_nonpos_of_mixed (a b : Int) (h : (a ≤ 0 ∧ 0 ≤ b) ∨ (0 ≤ a ∧ b ≤ 0)) :
    Int.floor ((a : ℚ) / (b : ℚ)) ≤ 0 := by
  have hx : (a : ℚ) / (b : ℚ) ≤ 0 := by
    rcases h with ⟨ha, hb⟩ | ⟨ha, hb⟩
    · exact div_nonpos_of_nonpos_of_nonneg (by exact_mod_cast ha) (by exact_mod_cast hb)
    · exact div_nonpos_of_nonneg_of_nonpos (by exact_mod_cast ha) (by exact_mod_cast hb)
  have h1 : ((Int.floor ((a : ℚ) / (b : ℚ)) : Int) : ℚ) ≤ 0 := le_trans (Int.floor_le _) hx
  exact_mod_cast h1

/-- The clamped truncating quotient agrees with the clamped floor quotient. -/
theorem max_one_tdiv_eq_floor (a b : Int) :
    max 1 (Int.tdiv a b + 1) = max 1 (Int.floor ((a : ℚ) / (b : ℚ)) + 1) := by
  by_cases ha : 0 ≤ a <;> by_cases hb : 0 ≤ b
  · rw [floor_ratdiv_of_nonneg a b ha hb]
  · have h1 := tdiv_nonpos_of_mixed a b (Or.inr ⟨ha, by omega⟩)
    have h2 := floor_ratdiv_nonpos_of_mixed a b (Or.inr ⟨ha, by omega⟩)
    rw [max_eq_left (by omega), max_eq_left (by omega)]
  · have h1 := tdiv_nonpos_of_mixed a b (Or.inl ⟨by omega, hb⟩)
    have h2 := floor_ratdiv_nonpos_of_mixed a b (Or.inl ⟨by omega, hb⟩)
    rw [max_eq_left (by omega), max_eq_left (by omega)]
  · have h3 := floor_ratdiv_of_nonneg (-a) (-b) (by omega) (by omega)
    rw [Int.neg_tdiv_neg] at h3
    have h4 : (((-a : Int) : ℚ)) / (((-b : Int) : ℚ)) = (a : ℚ) / (b : ℚ) := by
      push_cast
      exact neg_div_neg_eq _ _
    rw [h4] at h3
    rw [h3]


theorem doubleToPtrdiff_intCast (z : Int) : doubleToPtrdiff (z : ℚ) = z := by
  unfold doubleToPtrdiff
  split <;> simp

theorem doubleToPtrdiff_std_ceil (x : ℚ) : doubleToPtrdiff (std_ceil x) = Int.ceil x := by
  unfold std_ceil
  exact doubleToPtrdiff_intCast _

theorem natCast_tdiv_natCast (a b : Nat) : Int.tdiv (a : Int) (b : Int) = ((a / b : Nat) : Int) :=
  rfl

theorem natCast_tmod_natCast (a b : Nat) : Int.tmod (a : Int) (b : Int) = ((a % b : Nat) : Int) :=
  rfl

/-! ## GetForwardOutputDim: the general branch -/

/-- The general branch on lengths below `2 ^ 31`, a dilation in the range of
`int` and a padding whose double is: no reduction changes a value. -/
theorem GetForwardOutputDim_general (d : ConvolutionDescriptor) (ty : miopenDataType_t)
    (n c h w k fc fh fw : Nat)
    (hmode : d.mode ≠ miopenTranspose)
    (hbranch : d.paddingMode = miopenPaddingDefault ∨
      ((d.paddingMode = miopenPaddingSame ∨ d.paddingMode = miopenPaddingValid) ∧
        (1 < d.dilation_h ∨ 1 < d.dilation_w ∨ d.mode ≠ miopenConvolution)))
    (hconv : d.mode = miopenConvolution → c = fc)
    (hgroup : d.mode = miopenGroupConv → c % fc = 0 ∧ k % (c / fc) = 0)
    (hdepth : d.mode = miopenDepthwise → fc = 1 ∧ k % c = 0)
    (hlens : n < 2 ^ 31 ∧ c < 2 ^ 31 ∧ h < 2 ^ 31 ∧ w < 2 ^ 31 ∧ k < 2 ^ 31 ∧ fc < 2 ^ 31 ∧
      fh < 2 ^ 31 ∧ fw < 2 ^ 31)
    (hdil : -2 ^ 31 ≤ d.dilation_h ∧ d.dilation_h < 2 ^ 31 ∧ -2 ^ 31 ≤ d.dilation_w ∧
      d.dilation_w < 2 ^ 31)
    (hpadr : -2 ^ 30 ≤ d.pad_h ∧ d.pad_h < 2 ^ 30 ∧ -2 ^ 30 ≤ d.pad_w ∧ d.pad_w < 2 ^ 30) :
    d.GetForwardOutputDim { type := ty, lens := (n, c, h, w) }
        { type := ty, lens := (k, fc, fh, fw) } =
      Except.ok (n, k,
        toSizeT (max 1 (Int.tdiv ((h : Int) - (1 + d.dilation_h * ((fh : Int) - 1)) +
          2 * d.pad_h) d.u + 1)),
        toSizeT (max 1 (Int.tdiv ((w : Int) - (1 + d.dilation_w * ((fw : Int) - 1)) +
          2 * d.pad_w) d.v + 1))) ∧
    max 1 (Int.tdiv ((h : Int) - (1 + d.dilation_h * ((fh : Int) - 1)) + 2 * d.pad_h) d.u + 1) <
      2 ^ 63 ∧
    max 1 (Int.tdiv ((w : Int) - (1 + d.dilation_w * ((fw : Int) - 1)) + 2 * d.pad_w) d.v + 1) <
      2 ^ 63 := by
  obtain ⟨mode, pm, pad_h, pad_w, u, v, dilation_h, dilation_w, group_count⟩ := d
  simp only at hmode hbranch hconv hgroup hdepth hdil hpadr ⊢
  obtain ⟨hn, hc, hh, hw, hk, hfc, hfh, hfw⟩ := hlens
  obtain ⟨hd1, hd2, hd3, hd4⟩ := hdil
  obtain ⟨hp1, hp2, hp3, hp4⟩ := hpadr
  have en := sizeToPtrdiff_of_lt n (by omega)
  have ec := sizeToPtrdiff_of_lt c (by omega)
  have eh := sizeToPtrdiff_of_lt h (by omega)
  have ew := sizeToPtrdiff_of_lt w (by omega)
  have ek := sizeToPtrdiff_of_lt k (by omega)
  have efc := sizeToPtrdiff_of_lt fc (by omega)
  have efh := sizeToPtrdiff_of_lt fh (by omega)
  have efw := sizeToPtrdiff_of_lt fw (by omega)
  have eph := toInt_of_range (2 * pad_h) (by omega) (by omega)
  have epw := toInt_of_range (2 * pad_w) (by omega) (by omega)
  have mh := mul_range dilation_h ((fh : Int) - 1) hd1 (by omega) (by omega) (by omega)
  have mw := mul_range dilation_w ((fw : Int) - 1) hd3 (by omega) (by omega) (by omega)
  have eAh := toPtrdiff_of_range ((h : Int) - (1 + dilation_h * ((fh : Int) - 1)) + 2 * pad_h)
    (by omega) (by omega)
  have eAw := toPtrdiff_of_range ((w : Int) - (1 + dilation_w * ((fw : Int) - 1)) + 2 * pad_w)
    (by omega) (by omega)
  have qh := tdiv_range ((h : Int) - (1 + dilation_h * ((fh : Int) - 1)) + 2 * pad_h) u
    (2 ^ 62 + 2 ^ 32) (by omega) (by omega)
  have qw := tdiv_range ((w : Int) - (1 + dilation_w * ((fw : Int) - 1)) + 2 * pad_w) v
    (2 ^ 62 + 2 ^ 32) (by omega) (by omega)
  have eQh := toPtrdiff_of_range
    (Int.tdiv ((h : Int) - (1 + dilation_h * ((fh : Int) - 1)) + 2 * pad_h) u + 1)
    (by omega) (by omega)
  have eQw := toPtrdiff_of_range
    (Int.tdiv ((w : Int) - (1 + dilation_w * ((fw : Int) - 1)) + 2 * pad_w) v + 1)
    (by omega) (by omega)
  have sn := toSizeT_natCast n (by unfold SIZE_MOD; omega)
  have sk := toSizeT_natCast k (by unfold SIZE_MOD; omega)
  refine ⟨?_, by omega, by omega⟩
  simp only [ConvolutionDescriptor.GetForwardOutputDim, TensorDescriptor.GetType,
    TensorDescriptor.GetLengths, tienPtrdiff, en, ec, eh, ew, ek, efc, efh, efw, eph, epw, eAh,
    eAw, eQh, eQw, sn, sk, natCast_tdiv_natCast, natCast_tmod_natCast]
  clear en ec eh ew ek efc efh efw eph epw eAh eAw eQh eQw mh mw qh qw
  cases mode <;> rcases hbranch with hb | ⟨hb | hb, hb2⟩ <;> subst hb <;>
    simp_all <;> rw [if_neg (by omega)] <;> simp only [sk]

/-- C2: in a mode other than Transposed, when the general branch is taken and
the type and channel checks pass, with all lengths at least 1, the returned
`H_out` is
`max(1, floor((input_h - (1 + dilation_h*(filter_h - 1)) + 2*pad_h) / u) + 1)`
with the mathematical floor of the rational quotient, also for a negative
numerator; the same for `W_out`.  The lengths are below `2 ^ 31`, the dilations
are `int` values, `2*pad` is an `int` value and the strides are not 0, so that
no operation of the code overflows or divides by zero. -/
theorem C2_general_branch_floor (d : ConvolutionDescriptor) (ty : miopenDataType_t)
    (n c h w k fc fh fw : Nat)
    (hmode : d.mode ≠ miopenTranspose)
    (hbranch : d.paddingMode = miopenPaddingDefault ∨
      ((d.paddingMode = miopenPaddingSame ∨ d.paddingMode = miopenPaddingValid) ∧
        (1 < d.dilation_h ∨ 1 < d.dilation_w ∨ d.mode ≠ miopenConvolution)))
    (hconv : d.mode = miopenConvolution → c = fc)
    (hgroup : d.mode = miopenGroupConv → c % fc = 0 ∧ k % (c / fc) = 0)
    (hdepth : d.mode = miopenDepthwise → fc = 1 ∧ k % c = 0)
    (_hdims : 1 ≤ n ∧ 1 ≤ c ∧ 1 ≤ h ∧ 1 ≤ w ∧ 1 ≤ k ∧ 1 ≤ fc ∧ 1 ≤ fh ∧ 1 ≤ fw)
    (hlens : n < 2 ^ 31 ∧ c < 2 ^ 31 ∧ h < 2 ^ 31 ∧ w < 2 ^ 31 ∧ k < 2 ^ 31 ∧ fc < 2 ^ 31 ∧
      fh < 2 ^ 31 ∧ fw < 2 ^ 31)
    (hdil : -2 ^ 31 ≤ d.dilation_h ∧ d.dilation_h < 2 ^ 31 ∧ -2 ^ 31 ≤ d.dilation_w ∧
      d.dilation_w < 2 ^ 31)
    (hpadr : -2 ^ 30 ≤ d.pad_h ∧ d.pad_h < 2 ^ 30 ∧ -2 ^ 30 ≤ d.pad_w ∧ d.pad_w < 2 ^ 30)
    (_hu : d.u ≠ 0) (_hv : d.v ≠ 0) :
    ∃ H W : Nat,
      d.GetForwardOutputDim { type := ty, lens := (n, c, h, w) }
          { type := ty, lens := (k, fc, fh, fw) } = Except.ok (n, k, H, W) ∧
      (H : Int) = max 1 (Int.floor ((((h : Int) - (1 + d.dilation_h * ((fh : Int) - 1)) +
        2 * d.pad_h : Int) : ℚ) / (d.u : ℚ)) + 1) ∧
      (W : Int) = max 1 (Int.floor ((((w : Int) - (1 + d.dilation_w * ((fw : Int) - 1)) +
        2 * d.pad_w : Int) : ℚ) / (d.v : ℚ)) + 1) := by
  obtain ⟨e, bh, bw⟩ := GetForwardOutputDim_general d ty n c h w k fc fh fw hmode hbranch hconv
    hgroup hdepth hlens hdil hpadr
  refine ⟨_, _, e, ?_, ?_⟩
  · rw [toSizeT_of_nonneg_of_lt _ (le_trans (by norm_num) (le_max_left _ _))
      (lt_trans bh (by norm_num))]
    exact max_one_tdiv_eq_floor _ _
  · rw [toSizeT_of_nonneg_of_lt _ (le_trans (by norm_num) (le_max_left _ _))
      (lt_trans bw (by norm_num))]
    exact max_one_tdiv_eq_floor _ _

/-- C2, at a concrete input with a negative numerator: a 1x1 input, a 4x4
filter, stride 2 and no padding give the numerator -3, and the output extent
is 1 in both directions. -/
theorem C2_general_branch_floor_witness :
    ConvolutionDescriptor.GetForwardOutputDim
        { mode := miopenConvolution, paddingMode := miopenPaddingDefault, pad_h := 0,
          pad_w := 0, u := 2, v := 2, dilation_h := 1, dilation_w := 1, group_count := 1 }
        { type := miopenDataType_t.miopenFloat, lens := (1, 1, 1, 1) }
        { type := miopenDataType_t.miopenFloat, lens := (1, 1, 4, 4) } =
      Except.ok (1, 1, 1, 1) := by
  obtain ⟨H, W, h1, h2, h3⟩ :=
    C2_general_branch_floor
      { mode := miopenConvolution, paddingMode := miopenPaddingDefault, pad_h := 0,
        pad_w := 0, u := 2, v := 2, dilation_h := 1, dilation_w := 1, group_count := 1 }
      miopenDataType_t.miopenFloat 1 1 1 1 1 1 4 4 (by decide) (Or.inl rfl) (fun _ => rfl)
      (fun _ => by decide) (fun _ => by decide) (by decide) (by decide) (by decide) (by decide)
      (by decide) (by decide)
  have hH : (H : Int) = 1 := by rw [h2]; decide!
  have hW : (W : Int) = 1 := by rw [h3]; decide!
  have hH2 : H = 1 := by exact_mod_cast hH
  have hW2 : W = 1 := by exact_mod_cast hW
  rw [h1, hH2, hW2]

/-! ## GetForwardOutputDim: Transposed mode -/

theorem doubleToPtrdiff_transpose (u ih dil fh pad : Int) :
    doubleToPtrdiff (((u * (ih - 1) + 1 : Int) : ℚ) + (dil : ℚ) * ((fh : ℚ) - 1) -
      ((2 * pad : Int) : ℚ)) = u * (ih - 1) + 1 + dil * (fh - 1) - 2 * pad := by
  have h : ((u * (ih - 1) + 1 : Int) : ℚ) + (dil : ℚ) * ((fh : ℚ) - 1) - ((2 * pad : Int) : ℚ) =
      ((u * (ih - 1) + 1 + dil * (fh - 1) - 2 * pad : Int) : ℚ) := by
    push_cast
    ring
  rw [h]
  exact doubleToPtrdiff_intCast _

/-- C3: in Transposed mode, for each of the padding policies Default, Same and
Valid, with matching types, `input_c = filter_k` and all lengths at least 1,
the returned extents are
`max(1, u*(input_h - 1) + 1 + dilation_h*(filter_h - 1) - 2*pad_h)` and
`max(1, v*(input_w - 1) + 1 + dilation_w*(filter_w - 1) - 2*pad_w)`.  The
lengths are below `2 ^ 52`, the terms `u*(input_h - 1) + 1` and
`dilation_h*(filter_h - 1)` are below `2 ^ 51` in magnitude and `2*pad` is an
`int` value, so that the `double` arithmetic of this branch is exact. -/
theorem C3_transposed_formula (d : ConvolutionDescriptor) (ty : miopenDataType_t)
    (n c h w k fc fh fw : Nat)
    (hmode : d.mode = miopenTranspose)
    (hpad : d.paddingMode = miopenPaddingDefault ∨ d.paddingMode = miopenPaddingSame ∨
      d.paddingMode = miopenPaddingValid)
    (hchan : c = k)
    (_hdims : 1 ≤ n ∧ 1 ≤ c ∧ 1 ≤ h ∧ 1 ≤ w ∧ 1 ≤ k ∧ 1 ≤ fc ∧ 1 ≤ fh ∧ 1 ≤ fw)
    (hlens : n < 2 ^ 52 ∧ c < 2 ^ 52 ∧ h < 2 ^ 52 ∧ w < 2 ^ 52 ∧ k < 2 ^ 52 ∧ fc < 2 ^ 52 ∧
      fh < 2 ^ 52 ∧ fw < 2 ^ 52)
    (hexact_h : -2 ^ 51 < d.u * ((h : Int) - 1) + 1 ∧ d.u * ((h : Int) - 1) + 1 < 2 ^ 51 ∧
      -2 ^ 51 < d.dilation_h * ((fh : Int) - 1) ∧ d.dilation_h * ((fh : Int) - 1) < 2 ^ 51)
    (hexact_w : -2 ^ 51 < d.v * ((w : Int) - 1) + 1 ∧ d.v * ((w : Int) - 1) + 1 < 2 ^ 51 ∧
      -2 ^ 51 < d.dilation_w * ((fw : Int) - 1) ∧ d.dilation_w * ((fw : Int) - 1) < 2 ^ 51)
    (hpadr : -2 ^ 30 ≤ d.pad_h ∧ d.pad_h < 2 ^ 30 ∧ -2 ^ 30 ≤ d.pad_w ∧ d.pad_w < 2 ^ 30) :
    ∃ H W : Nat,
      d.GetForwardOutputDim { type := ty, lens := (n, c, h, w) }
          { type := ty, lens := (k, fc, fh, fw) } = Except.ok (n, fc, H, W) ∧
      (H : Int) = max 1 (d.u * ((h : Int) - 1) + 1 + d.dilation_h * ((fh : Int) - 1) -
        2 * d.pad_h) ∧
      (W : Int) = max 1 (d.v * ((w : Int) - 1) + 1 + d.dilation_w * ((fw : Int) - 1) -
        2 * d.pad_w) := by
  obtain ⟨mode, pm, pad_h, pad_w, u, v, dilation_h, dilation_w, group_count⟩ := d
  simp only at hmode hpad hexact_h hexact_w hpadr ⊢
  subst hmode hchan
  obtain ⟨hn, hc, hh, hw, -, hfc, hfh, hfw⟩ := hlens
  obtain ⟨hp1, hp2, hp3, hp4⟩ := hpadr
  have en := sizeToPtrdiff_of_lt n (by omega)
  have ec := sizeToPtrdiff_of_lt c (by omega)
  have eh := sizeToPtrdiff_of_lt h (by omega)
  have ew := sizeToPtrdiff_of_lt w (by omega)
  have efc := sizeToPtrdiff_of_lt fc (by omega)
  have efh := sizeToPtrdiff_of_lt fh (by omega)
  have efw := sizeToPtrdiff_of_lt fw (by omega)
  have eph := toInt_of_range (2 * pad_h) (by omega) (by omega)
  have epw := toInt_of_range (2 * pad_w) (by omega) (by omega)
  have eAh := toPtrdiff_of_range (u * ((h : Int) - 1) + 1) (by omega) (by omega)
  have eAw := toPtrdiff_of_range (v * ((w : Int) - 1) + 1) (by omega) (by omega)
  have sn := toSizeT_natCast n (by unfold SIZE_MOD; omega)
  have sfc := toSizeT_natCast fc (by unfold SIZE_MOD; omega)
  refine ⟨toSizeT (max 1 (u * ((h : Int) - 1) + 1 + dilation_h * ((fh : Int) - 1) - 2 * pad_h)),
    toSizeT (max 1 (v * ((w : Int) - 1) + 1 + dilation_w * ((fw : Int) - 1) - 2 * pad_w)),
    ?_, ?_, ?_⟩
  · simp only [ConvolutionDescriptor.GetForwardOutputDim, TensorDescriptor.GetType,
      TensorDescriptor.GetLengths, tienPtrdiff, en, ec, eh, ew, efc, efh, efw, eph, epw, eAh,
      eAw, doubleToPtrdiff_transpose]
    rcases hpad with hb | hb | hb <;> subst hb <;> simp [sn, sfc]
  · exact toSizeT_of_nonneg_of_lt _ (le_trans (by norm_num) (le_max_left _ _))
      (max_lt (by norm_num) (by omega))
  · exact toSizeT_of_nonneg_of_lt _ (le_trans (by norm_num) (le_max_left _ _))
      (max_lt (by norm_num) (by omega))

/-- C3, at a concrete input: a 2x2 input, a 3x3 filter, stride 2, dilation 1 and
padding 1 in Transposed mode under the Same policy give a 3x3 output. -/
theorem C3_transposed_formula_witness :
    ConvolutionDescriptor.GetForwardOutputDim
        { mode := miopenTranspose, paddingMode := miopenPaddingSame, pad_h := 1,
          pad_w := 1, u := 2, v := 2, dilation_h := 1, dilation_w := 1, group_count := 1 }
        { type := miopenDataType_t.miopenFloat, lens := (1, 4, 2, 2) }
        { type := miopenDataType_t.miopenFloat, lens := (4, 8, 3, 3) } =
      Except.ok (1, 8, 3, 3) := by
  obtain ⟨H, W, h1, h2, h3⟩ :=
    C3_transposed_formula
      { mode := miopenTranspose, paddingMode := miopenPaddingSame, pad_h := 1,
        pad_w := 1, u := 2, v := 2, dilation_h := 1, dilation_w := 1, group_count := 1 }
      miopenDataType_t.miopenFloat 1 4 2 2 4 8 3 3 rfl (Or.inr (Or.inl rfl)) rfl (by decide)
      (by decide) (by decide) (by decide) (by decide)
  have hH : (H : Int) = 3 := by rw [h2]; decide
  have hW : (W : Int) = 3 := by rw [h3]; decide
  have hH2 : H = 3 := by exact_mod_cast hH
  have hW2 : W = 3 := by exact_mod_cast hW
  rw [h1, hH2, hW2]

/-! ## GetForwardOutputDim: the Same and Valid policies -/


/-- The ceiling of a rational quotient with a positive divisor is the least
integer whose product with the divisor reaches the dividend. -/
theorem ceil_ratdiv_spec (a u : Int) (hu : 1 ≤ u) :
    u * (Int.ceil ((a : ℚ) / (u : ℚ)) - 1) < a ∧ a ≤ u * Int.ceil ((a : ℚ) / (u : ℚ)) := by
  have hu0 : (0 : ℚ) < (u : ℚ) := by exact_mod_cast (by omega : 0 < u)
  constructor
  · have h1 : ((Int.ceil ((a : ℚ) / (u : ℚ)) - 1 : Int) : ℚ) < (a : ℚ) / (u : ℚ) := by
      rw [← Int.lt_ceil]
      omega
    rw [lt_div_iff₀ hu0] at h1
    have h2 : (((Int.ceil ((a : ℚ) / (u : ℚ)) - 1) * u : Int) : ℚ) < (a : ℚ) := by
      push_cast
      push_cast at h1
      exact h1
    have h3 : (Int.ceil ((a : ℚ) / (u : ℚ)) - 1) * u < a := by exact_mod_cast h2
    rw [mul_comm]
    exact h3
  · have h1 : (a : ℚ) / (u : ℚ) ≤ ((Int.ceil ((a : ℚ) / (u : ℚ)) : Int) : ℚ) := Int.le_ceil _
    rw [div_le_iff₀ hu0] at h1
    have h2 : (a : ℚ) ≤ ((Int.ceil ((a : ℚ) / (u : ℚ)) * u : Int) : ℚ) := by
      push_cast
      exact h1
    have h3 : a ≤ Int.ceil ((a : ℚ) / (u : ℚ)) * u := by exact_mod_cast h2
    rw [mul_comm]
    exact h3

theorem ceil_ratdiv_bounds (a u : Int) (ha : 0 ≤ a) (hu : 1 ≤ u) :
    0 ≤ Int.ceil ((a : ℚ) / (u : ℚ)) ∧ Int.ceil ((a : ℚ) / (u : ℚ)) ≤ a := by
  obtain ⟨h1, h2⟩ := ceil_ratdiv_spec a u hu
  constructor
  · apply Int.ceil_nonneg
    apply div_nonneg
    · exact_mod_cast ha
    · exact_mod_cast (by omega : 0 ≤ u)
  · by_contra hc
    push_neg at hc
    have h3 : a ≤ Int.ceil ((a : ℚ) / (u : ℚ)) - 1 := by omega
    have h4 : 1 * (Int.ceil ((a : ℚ) / (u : ℚ)) - 1) ≤ u * (Int.ceil ((a : ℚ) / (u : ℚ)) - 1) :=
      Int.mul_le_mul_of_nonneg_right hu (by omega)
    omega

theorem toSizeT_cast (x : Int) : ((toSizeT x : Nat) : Int) = x % 2 ^ 64 := by
  unfold toSizeT
  exact Int.toNat_of_nonneg (Int.emod_nonneg x (by norm_num))

/-- C4: under the Same policy with dilation 1 in both directions in Standard
mode, with matching types and channels, the returned extents are
`ceil(input_h / u)` and `ceil(input_w / v)`, whatever the padding and the
spatial size of the filter are.  The strides are at least 1 and `int` values
and the lengths are below `2 ^ 52`, so that the `double` quotient is exact
enough for its ceiling. -/
theorem C4_same_policy_ceil (d : ConvolutionDescriptor) (ty : miopenDataType_t)
    (n c h w k fc fh fw : Nat)
    (hpad : d.paddingMode = miopenPaddingSame) (hdh : d.dilation_h = 1)
    (hdw : d.dilation_w = 1) (hmode : d.mode = miopenConvolution) (hchan : c = fc)
    (hu : 1 ≤ d.u) (hv : 1 ≤ d.v) (_hstride : d.u < 2 ^ 31 ∧ d.v < 2 ^ 31)
    (hlens : n < 2 ^ 52 ∧ k < 2 ^ 52 ∧ h < 2 ^ 52 ∧ w < 2 ^ 52) :
    (∃ H W : Nat,
      d.GetForwardOutputDim { type := ty, lens := (n, c, h, w) }
          { type := ty, lens := (k, fc, fh, fw) } = Except.ok (n, k, H, W) ∧
      (H : Int) = Int.ceil ((h : ℚ) / (d.u : ℚ)) ∧
      (W : Int) = Int.ceil ((w : ℚ) / (d.v : ℚ))) ∧
    (∀ (pad_h' pad_w' : Int) (fh' fw' : Nat),
      ConvolutionDescriptor.GetForwardOutputDim { d with pad_h := pad_h', pad_w := pad_w' }
          { type := ty, lens := (n, c, h, w) } { type := ty, lens := (k, fc, fh', fw') } =
        d.GetForwardOutputDim { type := ty, lens := (n, c, h, w) }
          { type := ty, lens := (k, fc, fh, fw) }) := by
  obtain ⟨mode, pm, pad_h, pad_w, u, v, dilation_h, dilation_w, group_count⟩ := d
  simp only at hpad hdh hdw hmode hu hv ⊢
  subst hpad hdh hdw hmode hchan
  obtain ⟨hn, hk, hh, hw⟩ := hlens
  have en := sizeToPtrdiff_of_lt n (by omega)
  have ek := sizeToPtrdiff_of_lt k (by omega)
  have eh := sizeToPtrdiff_of_lt h (by omega)
  have ew := sizeToPtrdiff_of_lt w (by omega)
  have sn := toSizeT_natCast n (by unfold SIZE_MOD; omega)
  have sk := toSizeT_natCast k (by unfold SIZE_MOD; omega)
  have key : ∀ (pad_h' pad_w' : Int) (fh' fw' : Nat),
      ConvolutionDescriptor.GetForwardOutputDim
          { mode := miopenConvolution, paddingMode := miopenPaddingSame, pad_h := pad_h',
            pad_w := pad_w', u := u, v := v, dilation_h := 1, dilation_w := 1,
            group_count := group_count }
          { type := ty, lens := (n, c, h, w) } { type := ty, lens := (k, c, fh', fw') } =
        Except.ok (n, k, toSizeT (Int.ceil ((h : ℚ) / (u : ℚ))),
          toSizeT (Int.ceil ((w : ℚ) / (v : ℚ)))) := by
    intro pad_h' pad_w' fh' fw'
    simp [ConvolutionDescriptor.GetForwardOutputDim, TensorDescriptor.GetType,
      TensorDescriptor.GetLengths, tienPtrdiff, doubleToPtrdiff_std_ceil, en, ek, eh, ew, sn, sk]
  refine ⟨⟨_, _, key _ _ _ _, ?_, ?_⟩, ?_⟩
  · have hb := ceil_ratdiv_bounds (h : Int) u (Int.natCast_nonneg h) hu
    rw [Int.cast_natCast] at hb
    exact toSizeT_of_nonneg_of_lt _ hb.1 (by omega)
  · have hb := ceil_ratdiv_bounds (w : Int) v (Int.natCast_nonneg w) hv
    rw [Int.cast_natCast] at hb
    exact toSizeT_of_nonneg_of_lt _ hb.1 (by omega)
  · intro pad_h' pad_w' fh' fw'
    rw [key, key]

/-- C4, at a concrete input: a 5x7 input with strides 2 and 3 gives a 3x3
output under the Same policy, with padding 4 and a 3x3 filter. -/
theorem C4_same_policy_ceil_witness :
    ConvolutionDescriptor.GetForwardOutputDim
        { mode := miopenConvolution, paddingMode := miopenPaddingSame, pad_h := 4,
          pad_w := 4, u := 2, v := 3, dilation_h := 1, dilation_w := 1, group_count := 1 }
        { type := miopenDataType_t.miopenFloat, lens := (1, 2, 5, 7) }
        { type := miopenDataType_t.miopenFloat, lens := (6, 2, 3, 3) } =
      Except.ok (1, 6, 3, 3) := by
  obtain ⟨H, W, h1, h2, h3⟩ := (C4_same_policy_ceil
    { mode := miopenConvolution, paddingMode := miopenPaddingSame, pad_h := 4,
      pad_w := 4, u := 2, v := 3, dilation_h := 1, dilation_w := 1, group_count := 1 }
    miopenDataType_t.miopenFloat 1 2 5 7 6 2 3 3 rfl rfl rfl rfl rfl (by decide) (by decide)
    (by decide) (by decide)).1
  have hH : (H : Int) = 3 := by rw [h2]; decide!
  have hW : (W : Int) = 3 := by rw [h3]; decide!
  have hH2 : H = 3 := by exact_mod_cast hH
  have hW2 : W = 3 := by exact_mod_cast hW
  rw [h1, hH2, hW2]

/-- C5: under the Valid policy with dilation 1 in both directions in Standard
mode, with matching types and channels, the returned extents are
`ceil((input_h - filter_h + 1) / u)` and `ceil((input_w - filter_w + 1) / v)`
taken modulo `2 ^ 64`, without any clamping to 1.  The strides are at least 1
and `int` values and the lengths are below `2 ^ 52`, so that the `double`
quotient is exact enough for its ceiling. -/
theorem C5_valid_policy_ceil (d : ConvolutionDescriptor) (ty : miopenDataType_t)
    (n c h w k fc fh fw : Nat)
    (hpad : d.paddingMode = miopenPaddingValid) (hdh : d.dilation_h = 1)
    (hdw : d.dilation_w = 1) (hmode : d.mode = miopenConvolution) (hchan : c = fc)
    (_hstride : 1 ≤ d.u ∧ d.u < 2 ^ 31 ∧ 1 ≤ d.v ∧ d.v < 2 ^ 31)
    (hlens : n < 2 ^ 52 ∧ k < 2 ^ 52 ∧ h < 2 ^ 52 ∧ w < 2 ^ 52 ∧ fh < 2 ^ 52 ∧ fw < 2 ^ 52) :
    ∃ H W : Nat,
      d.GetForwardOutputDim { type := ty, lens := (n, c, h, w) }
          { type := ty, lens := (k, fc, fh, fw) } = Except.ok (n, k, H, W) ∧
      (H : Int) = Int.ceil ((((h : Int) - (fh : Int) + 1 : Int) : ℚ) / (d.u : ℚ)) % 2 ^ 64 ∧
      (W : Int) = Int.ceil ((((w : Int) - (fw : Int) + 1 : Int) : ℚ) / (d.v : ℚ)) % 2 ^ 64 := by
  obtain ⟨mode, pm, pad_h, pad_w, u, v, dilation_h, dilation_w, group_count⟩ := d
  simp only at hpad hdh hdw hmode ⊢
  subst hpad hdh hdw hmode hchan
  obtain ⟨hn, hk, hh, hw, hfh, hfw⟩ := hlens
  have en := sizeToPtrdiff_of_lt n (by omega)
  have ek := sizeToPtrdiff_of_lt k (by omega)
  have eh := sizeToPtrdiff_of_lt h (by omega)
  have ew := sizeToPtrdiff_of_lt w (by omega)
  have efh := sizeToPtrdiff_of_lt fh (by omega)
  have efw := sizeToPtrdiff_of_lt fw (by omega)
  have eAh := toPtrdiff_of_range ((h : Int) - (fh : Int) + 1) (by omega) (by omega)
  have eAw := toPtrdiff_of_range ((w : Int) - (fw : Int) + 1) (by omega) (by omega)
  have sn := toSizeT_natCast n (by unfold SIZE_MOD; omega)
  have sk := toSizeT_natCast k (by unfold SIZE_MOD; omega)
  refine ⟨_, _, ?_, toSizeT_cast _, toSizeT_cast _⟩
  simp [ConvolutionDescriptor.GetForwardOutputDim, TensorDescriptor.GetType,
    TensorDescriptor.GetLengths, tienPtrdiff, doubleToPtrdiff_std_ceil, en, ek, eh, ew, efh, efw,
    eAh, eAw, sn, sk]

/-- C5, at a concrete input where nothing is clamped: a 1x2 input and a 3x3
filter with strides 1 and 2 give the height -1 modulo `2 ^ 64` and the
width 0. -/
theorem C5_valid_policy_ceil_witness :
    ConvolutionDescriptor.GetForwardOutputDim
        { mode := miopenConvolution, paddingMode := miopenPaddingValid, pad_h := 0,
          pad_w := 0, u := 1, v := 2, dilation_h := 1, dilation_w := 1, group_count := 1 }
        { type := miopenDataType_t.miopenFloat, lens := (1, 2, 1, 2) }
        { type := miopenDataType_t.miopenFloat, lens := (6, 2, 3, 3) } =
      Except.ok (1, 6, 18446744073709551615, 0) := by
  obtain ⟨H, W, h1, h2, h3⟩ :=
    C5_valid_policy_ceil
      { mode := miopenConvolution, paddingMode := miopenPaddingValid, pad_h := 0,
        pad_w := 0, u := 1, v := 2, dilation_h := 1, dilation_w := 1, group_count := 1 }
      miopenDataType_t.miopenFloat 1 2 1 2 6 2 3 3 rfl rfl rfl rfl rfl (by decide) (by decide)
  have eH : Int.ceil (((((1 : Nat) : Int) - ((3 : Nat) : Int) + 1 : Int) : ℚ) /
      ((1 : Int) : ℚ)) % 2 ^ 64 = 18446744073709551615 := by decide!
  have eW : Int.ceil (((((2 : Nat) : Int) - ((3 : Nat) : Int) + 1 : Int) : ℚ) /
      ((2 : Int) : ℚ)) % 2 ^ 64 = 0 := by decide!
  have hH : (H : Int) = 18446744073709551615 := by rw [h2]; exact eH
  have hW : (W : Int) = 0 := by rw [h3]; exact eW
  have hH2 : H = 18446744073709551615 := by exact_mod_cast hH
  have hW2 : W = 0 := by exact_mod_cast hW
  rw [h1, hH2, hW2]

/-! ## GetForwardOutputDim: batch and channel results -/

/-- C6: every successful call returns the batch size of the input as `N`, and
as `C_out` the count `filter_k` in Standard, Grouped and Depthwise mode and the
count `filter_c` in Transposed mode (the lengths being `std::size_t` values). -/
theorem C6_batch_and_channels (d : ConvolutionDescriptor) (tx tw : miopenDataType_t)
    (n c h w k fc fh fw N C H W : Nat)
    (hn : n < SIZE_MOD) (hk : k < SIZE_MOD) (hfc : fc < SIZE_MOD)
    (hok : d.GetForwardOutputDim { type := tx, lens := (n, c, h, w) }
      { type := tw, lens := (k, fc, fh, fw) } = Except.ok (N, C, H, W)) :
    N = n ∧
    ((d.mode = miopenConvolution ∨ d.mode = miopenGroupConv ∨ d.mode = miopenDepthwise) →
      C = k) ∧
    (d.mode = miopenTranspose → C = fc) := by
  obtain ⟨mode, pm, pad_h, pad_w, u, v, dilation_h, dilation_w, group_count⟩ := d
  have hn2 := toSizeT_sizeToPtrdiff n hn
  have hk2 := toSizeT_sizeToPtrdiff k hk
  have hfc2 := toSizeT_sizeToPtrdiff fc hfc
  simp only [ConvolutionDescriptor.GetForwardOutputDim, TensorDescriptor.GetType,
    TensorDescriptor.GetLengths, tienPtrdiff, MIOPEN_THROW] at hok
  cases mode <;> cases pm <;> simp at hok <;> split_ifs at hok <;> simp_all

/-- C6, at a concrete successful call in Transposed mode: the input
(2, 4, 2, 2) and the filter (4, 8, 3, 3) give the batch size 2 and
`filter_c = 8` output channels. -/
theorem C6_batch_and_channels_witness :
    ConvolutionDescriptor.GetForwardOutputDim
        { mode := miopenTranspose, paddingMode := miopenPaddingDefault, pad_h := 0,
          pad_w := 0, u := 2, v := 2, dilation_h := 1, dilation_w := 1, group_count := 1 }
        { type := miopenDataType_t.miopenFloat, lens := (2, 4, 2, 2) }
        { type := miopenDataType_t.miopenFloat, lens := (4, 8, 3, 3) } =
      Except.ok (2, 8, 5, 5) ∧
    ((2 : Nat) = 2 ∧
      ((miopenTranspose = miopenConvolution ∨ miopenTranspose = miopenGroupConv ∨
        miopenTranspose = miopenDepthwise) → (8 : Nat) = 4) ∧
      (miopenTranspose = miopenTranspose → (8 : Nat) = 8)) :=
  ⟨by decide!,
    C6_batch_and_channels
      { mode := miopenTranspose, paddingMode := miopenPaddingDefault, pad_h := 0,
        pad_w := 0, u := 2, v := 2, dilation_h := 1, dilation_w := 1, group_count := 1 }
      miopenDataType_t.miopenFloat miopenDataType_t.miopenFloat 2 4 2 2 4 8 3 3 2 8 5 5
      (by decide) (by decide) (by decide) (by decide!)⟩

/-! ## Type and channel checks -/

/-- C7: when the element types of the two tensors differ, each of
`GetForwardOutputDim`, `GetBackwardsWeightsDim` and `GetBackwardOutputDim`
throws the bad-parameter error "Types do not match for the filter", for every
descriptor and all lengths. -/
theorem C7_type_mismatch (d : ConvolutionDescriptor) (t1 t2 : miopenDataType_t)
    (l1 l2 : Nat × Nat × Nat × Nat) (hne : t1 ≠ t2) :
    d.GetForwardOutputDim { type := t1, lens := l1 } { type := t2, lens := l2 } =
      Except.error
        { status := miopenStatusBadParm, message := "Types do not match for the filter" } ∧
    d.GetBackwardsWeightsDim { type := t1, lens := l1 } { type := t2, lens := l2 } =
      Except.error
        { status := miopenStatusBadParm, message := "Types do not match for the filter" } ∧
    d.GetBackwardOutputDim { type := t1, lens := l1 } { type := t2, lens := l2 } =
      Except.error
        { status := miopenStatusBadParm, message := "Types do not match for the filter" } := by
  refine ⟨?_, ?_, ?_⟩
  · simp [ConvolutionDescriptor.GetForwardOutputDim, TensorDescriptor.GetType, MIOPEN_THROW, hne]
  · simp [ConvolutionDescriptor.GetBackwardsWeightsDim, TensorDescriptor.GetType, MIOPEN_THROW,
      hne]
  · simp [ConvolutionDescriptor.GetBackwardOutputDim, TensorDescriptor.GetType, MIOPEN_THROW, hne]

/-- C7, at a concrete input: a half-precision tensor against a single-precision
one, with lengths that would otherwise be accepted. -/
theorem C7_type_mismatch_witness :
    ConvolutionDescriptor.GetForwardOutputDim
        { mode := miopenConvolution, paddingMode := miopenPaddingDefault, pad_h := 0,
          pad_w := 0, u := 1, v := 1, dilation_h := 1, dilation_w := 1, group_count := 1 }
        { type := miopenDataType_t.miopenHalf, lens := (1, 3, 8, 8) }
        { type := miopenDataType_t.miopenFloat, lens := (4, 3, 3, 3) } =
      Except.error
        { status := miopenStatusBadParm, message := "Types do not match for the filter" } :=
  (C7_type_mismatch
    { mode := miopenConvolution, paddingMode := miopenPaddingDefault, pad_h := 0,
      pad_w := 0, u := 1, v := 1, dilation_h := 1, dilation_w := 1, group_count := 1 }
    miopenDataType_t.miopenHalf miopenDataType_t.miopenFloat (1, 3, 8, 8) (4, 3, 3, 3)
    (by decide)).1

/-- C8: with matching element types, in Standard mode the call throws the
channel-mismatch error exactly when `input_c ≠ filter_c`, and in Transposed
mode exactly when `input_c ≠ filter_k`; the filter lengths are (k, c, h, w). -/
theorem C8_channel_mismatch_iff (d : ConvolutionDescriptor) (ty : miopenDataType_t)
    (n c h w k fc fh fw : Nat) :
    (ConvolutionDescriptor.GetForwardOutputDim { d with mode := miopenConvolution }
        { type := ty, lens := (n, c, h, w) } { type := ty, lens := (k, fc, fh, fw) } =
      Except.error
        { status := miopenStatusBadParm, message := "Channels do not match for the filter" } ↔
      c ≠ fc) ∧
    (ConvolutionDescriptor.GetForwardOutputDim { d with mode := miopenTranspose }
        { type := ty, lens := (n, c, h, w) } { type := ty, lens := (k, fc, fh, fw) } =
      Except.error
        { status := miopenStatusBadParm, message := "Channels do not match for the filter" } ↔
      c ≠ k) := by
  obtain ⟨mode, pm, pad_h, pad_w, u, v, dilation_h, dilation_w, group_count⟩ := d
  constructor
  · by_cases hc : c = fc
    · subst hc
      cases pm <;>
        simp [ConvolutionDescriptor.GetForwardOutputDim, TensorDescriptor.GetType,
          TensorDescriptor.GetLengths, tienPtrdiff, MIOPEN_THROW] <;>
        split_ifs <;> simp
    · have hne : ¬ (sizeToPtrdiff c = sizeToPtrdiff fc) :=
        fun he => hc (sizeToPtrdiff_injective c fc he)
      simp [ConvolutionDescriptor.GetForwardOutputDim, TensorDescriptor.GetType,
        TensorDescriptor.GetLengths, tienPtrdiff, MIOPEN_THROW, hc, hne]
  · by_cases hc : c = k
    · subst hc
      cases pm <;>
        simp [ConvolutionDescriptor.GetForwardOutputDim, TensorDescriptor.GetType,
          TensorDescriptor.GetLengths, tienPtrdiff, MIOPEN_THROW]
    · have hne : ¬ (sizeToPtrdiff c = sizeToPtrdiff k) :=
        fun he => hc (sizeToPtrdiff_injective c k he)
      simp [ConvolutionDescriptor.GetForwardOutputDim, TensorDescriptor.GetType,
        TensorDescriptor.GetLengths, tienPtrdiff, MIOPEN_THROW, hc, hne]

/-- C9: in Grouped mode, with matching element types, positive channel counts
(below `2 ^ 63`, so that they are read unchanged), strides at least 1 and one
of the padding policies Default, Same, Valid, the call succeeds exactly when
`filter_c` divides `input_c` and `input_c / filter_c` divides `filter_k`;
otherwise it throws the channel-mismatch error. -/
theorem C9_grouped_channel_rule (d : ConvolutionDescriptor) (ty : miopenDataType_t)
    (n c h w k fc fh fw : Nat)
    (hmode : d.mode = miopenGroupConv)
    (hpad : d.paddingMode = miopenPaddingDefault ∨ d.paddingMode = miopenPaddingSame ∨
      d.paddingMode = miopenPaddingValid)
    (_hc : 1 ≤ c) (_hfc : 1 ≤ fc) (_hk : 1 ≤ k)
    (hlt : c < 2 ^ 63 ∧ fc < 2 ^ 63 ∧ k < 2 ^ 63) (_hu : 1 ≤ d.u) (_hv : 1 ≤ d.v) :
    ((∃ r, d.GetForwardOutputDim { type := ty, lens := (n, c, h, w) }
        { type := ty, lens := (k, fc, fh, fw) } = Except.ok r) ↔
      (c % fc = 0 ∧ k % (c / fc) = 0)) ∧
    (¬ (c % fc = 0 ∧ k % (c / fc) = 0) →
      d.GetForwardOutputDim { type := ty, lens := (n, c, h, w) }
          { type := ty, lens := (k, fc, fh, fw) } =
        Except.error
          { status := miopenStatusBadParm,
            message := "Channels do not match for the filter" }) := by
  obtain ⟨mode, pm, pad_h, pad_w, u, v, dilation_h, dilation_w, group_count⟩ := d
  simp only at hmode hpad ⊢
  subst hmode
  have ec := sizeToPtrdiff_of_lt c hlt.1
  have efc := sizeToPtrdiff_of_lt fc hlt.2.1
  have ek := sizeToPtrdiff_of_lt k hlt.2.2
  by_cases hr : c % fc = 0 ∧ k % (c / fc) = 0
  · refine ⟨⟨fun _ => hr, fun _ => ?_⟩, fun hn => absurd hr hn⟩
    obtain ⟨hr1, hr2⟩ := hr
    simp only [ConvolutionDescriptor.GetForwardOutputDim, TensorDescriptor.GetType,
      TensorDescriptor.GetLengths, tienPtrdiff, MIOPEN_THROW, ec, efc, ek, natCast_tdiv_natCast,
      natCast_tmod_natCast, hr1, hr2]
    rcases hpad with hb | hb | hb <;> subst hb <;> simp
  · have he : ConvolutionDescriptor.GetForwardOutputDim
          { mode := miopenGroupConv, paddingMode := pm, pad_h := pad_h, pad_w := pad_w, u := u,
            v := v, dilation_h := dilation_h, dilation_w := dilation_w,
            group_count := group_count }
          { type := ty, lens := (n, c, h, w) } { type := ty, lens := (k, fc, fh, fw) } =
        Except.error
          { status := miopenStatusBadParm,
            message := "Channels do not match for the filter" } := by
      have hb : (decide (((c % fc : Nat) : Int) ≠ 0) ||
          decide (((k % (c / fc) : Nat) : Int) ≠ 0)) = true := by
        by_cases h1 : c % fc = 0
        · have h2 : k % (c / fc) ≠ 0 := fun h2 => hr ⟨h1, h2⟩
          have h3 : ((k % (c / fc) : Nat) : Int) ≠ 0 := by exact_mod_cast h2
          rw [Bool.or_eq_true]
          exact Or.inr (decide_eq_true h3)
        · have h3 : ((c % fc : Nat) : Int) ≠ 0 := by exact_mod_cast h1
          rw [Bool.or_eq_true]
          exact Or.inl (decide_eq_true h3)
      simp only [ConvolutionDescriptor.GetForwardOutputDim, TensorDescriptor.GetType,
        TensorDescriptor.GetLengths, tienPtrdiff, MIOPEN_THROW, ec, efc, ek,
        natCast_tdiv_natCast, natCast_tmod_natCast, hb]
      simp
    refine ⟨⟨fun hex => ?_, fun hh => absurd hh hr⟩, fun _ => he⟩
    obtain ⟨r, hr3⟩ := hex
    rw [he] at hr3
    cases hr3

/-- C9, at the inputs named by the specification: with 8 input channels the
filter (16, 4, 3, 3) is accepted and the filter (16, 3, 3, 3) is rejected with
the channel-mismatch error. -/
theorem C9_grouped_channel_rule_witness :
    (∃ r, ConvolutionDescriptor.GetForwardOutputDim
        { mode := miopenGroupConv, paddingMode := miopenPaddingDefault, pad_h := 1,
          pad_w := 1, u := 1, v := 1, dilation_h := 1, dilation_w := 1, group_count := 2 }
        { type := miopenDataType_t.miopenFloat, lens := (1, 8, 5, 5) }
        { type := miopenDataType_t.miopenFloat, lens := (16, 4, 3, 3) } = Except.ok r) ∧
    ConvolutionDescriptor.GetForwardOutputDim
        { mode := miopenGroupConv, paddingMode := miopenPaddingDefault, pad_h := 1,
          pad_w := 1, u := 1, v := 1, dilation_h := 1, dilation_w := 1, group_count := 2 }
        { type := miopenDataType_t.miopenFloat, lens := (1, 8, 5, 5) }
        { type := miopenDataType_t.miopenFloat, lens := (16, 3, 3, 3) } =
      Except.error
        { status := miopenStatusBadParm, message := "Channels do not match for the filter" } :=
  ⟨(C9_grouped_channel_rule
      { mode := miopenGroupConv, paddingMode := miopenPaddingDefault, pad_h := 1,
        pad_w := 1, u := 1, v := 1, dilation_h := 1, dilation_w := 1, group_count := 2 }
      miopenDataType_t.miopenFloat 1 8 5 5 16 4 3 3 rfl (Or.inl rfl) (by decide) (by decide)
      (by decide) (by decide) (by decide) (by decide)).1.mpr (by decide),
    (C9_grouped_channel_rule
      { mode := miopenGroupConv, paddingMode := miopenPaddingDefault, pad_h := 1,
        pad_w := 1, u := 1, v := 1, dilation_h := 1, dilation_w := 1, group_count := 2 }
      miopenDataType_t.miopenFloat 1 8 5 5 16 3 3 3 rfl (Or.inl rfl) (by decide) (by decide)
      (by decide) (by decide) (by decide) (by decide)).2 (by decide)⟩

/-- C10: in Depthwise mode, with matching element types, `input_c >= 1`
(the channel counts below `2 ^ 63`, so that they are read unchanged), strides
at least 1 and one of the padding policies Default, Same, Valid, the call
succeeds exactly when `filter_c = 1` and `input_c` divides `filter_k`;
otherwise it throws the channel-mismatch error. -/
theorem C10_depthwise_channel_rule (d : ConvolutionDescriptor) (ty : miopenDataType_t)
    (n c h w k fc fh fw : Nat)
    (hmode : d.mode = miopenDepthwise)
    (hpad : d.paddingMode = miopenPaddingDefault ∨ d.paddingMode = miopenPaddingSame ∨
      d.paddingMode = miopenPaddingValid)
    (_hc : 1 ≤ c) (hlt : c < 2 ^ 63 ∧ fc < 2 ^ 63 ∧ k < 2 ^ 63) (_hu : 1 ≤ d.u)
    (_hv : 1 ≤ d.v) :
    ((∃ r, d.GetForwardOutputDim { type := ty, lens := (n, c, h, w) }
        { type := ty, lens := (k, fc, fh, fw) } = Except.ok r) ↔
      (fc = 1 ∧ k % c = 0)) ∧
    (¬ (fc = 1 ∧ k % c = 0) →
      d.GetForwardOutputDim { type := ty, lens := (n, c, h, w) }
          { type := ty, lens := (k, fc, fh, fw) } =
        Except.error
          { status := miopenStatusBadParm,
            message := "Channels do not match for the filter" }) := by
  obtain ⟨mode, pm, pad_h, pad_w, u, v, dilation_h, dilation_w, group_count⟩ := d
  simp only at hmode hpad ⊢
  subst hmode
  have ec := sizeToPtrdiff_of_lt c hlt.1
  have efc := sizeToPtrdiff_of_lt fc hlt.2.1
  have ek := sizeToPtrdiff_of_lt k hlt.2.2
  by_cases hr : fc = 1 ∧ k % c = 0
  · refine ⟨⟨fun _ => hr, fun _ => ?_⟩, fun hn => absurd hr hn⟩
    obtain ⟨hr1, hr2⟩ := hr
    subst hr1
    simp only [ConvolutionDescriptor.GetForwardOutputDim, TensorDescriptor.GetType,
      TensorDescriptor.GetLengths, tienPtrdiff, MIOPEN_THROW, ec, efc, ek, natCast_tdiv_natCast,
      natCast_tmod_natCast, hr2]
    rcases hpad with hb | hb | hb <;> subst hb <;> simp
  · have he : ConvolutionDescriptor.GetForwardOutputDim
          { mode := miopenDepthwise, paddingMode := pm, pad_h := pad_h, pad_w := pad_w, u := u,
            v := v, dilation_h := dilation_h, dilation_w := dilation_w,
            group_count := group_count }
          { type := ty, lens := (n, c, h, w) } { type := ty, lens := (k, fc, fh, fw) } =
        Except.error
          { status := miopenStatusBadParm,
            message := "Channels do not match for the filter" } := by
      have hb : (decide (((fc : Nat) : Int) ≠ 1) ||
          decide (((k % c : Nat) : Int) ≠ 0)) = true := by
        by_cases h1 : fc = 1
        · have h2 : k % c ≠ 0 := fun h2 => hr ⟨h1, h2⟩
          have h3 : ((k % c : Nat) : Int) ≠ 0 := by exact_mod_cast h2
          rw [Bool.or_eq_true]
          exact Or.inr (decide_eq_true h3)
        · have h3 : ((fc : Nat) : Int) ≠ 1 := by exact_mod_cast h1
          rw [Bool.or_eq_true]
          exact Or.inl (decide_eq_true h3)
      simp only [ConvolutionDescriptor.GetForwardOutputDim, TensorDescriptor.GetType,
        TensorDescriptor.GetLengths, tienPtrdiff, MIOPEN_THROW, ec, efc, ek,
        natCast_tdiv_natCast, natCast_tmod_natCast, hb]
      simp
    refine ⟨⟨fun hex => ?_, fun hh => absurd hh hr⟩, fun _ => he⟩
    obtain ⟨r, hr3⟩ := hex
    rw [he] at hr3
    cases hr3

/-- C10, at concrete inputs: with 4 input channels the filter (8, 1, 3, 3) is
accepted and the filter (8, 2, 3, 3) is rejected with the channel-mismatch
error. -/
theorem C10_depthwise_channel_rule_witness :
    (∃ r, ConvolutionDescriptor.GetForwardOutputDim
        { mode := miopenDepthwise, paddingMode := miopenPaddingDefault, pad_h := 1,
          pad_w := 1, u := 1, v := 1, dilation_h := 1, dilation_w := 1, group_count := 1 }
        { type := miopenDataType_t.miopenFloat, lens := (1, 4, 5, 5) }
        { type := miopenDataType_t.miopenFloat, lens := (8, 1, 3, 3) } = Except.ok r) ∧
    ConvolutionDescriptor.GetForwardOutputDim
        { mode := miopenDepthwise, paddingMode := miopenPaddingDefault, pad_h := 1,
          pad_w := 1, u := 1, v := 1, dilation_h := 1, dilation_w := 1, group_count := 1 }
        { type := miopenDataType_t.miopenFloat, lens := (1, 4, 5, 5) }
        { type := miopenDataType_t.miopenFloat, lens := (8, 2, 3, 3) } =
      Except.error
        { status := miopenStatusBadParm, message := "Channels do not match for the filter" } :=
  ⟨(C10_depthwise_channel_rule
      { mode := miopenDepthwise, paddingMode := miopenPaddingDefault, pad_h := 1,
        pad_w := 1, u := 1, v := 1, dilation_h := 1, dilation_w := 1, group_count := 1 }
      miopenDataType_t.miopenFloat 1 4 5 5 8 1 3 3 rfl (Or.inl rfl) (by decide) (by decide)
      (by decide) (by decide)).1.mpr (by decide),
    (C10_depthwise_channel_rule
      { mode := miopenDepthwise, paddingMode := miopenPaddingDefault, pad_h := 1,
        pad_w := 1, u := 1, v := 1, dilation_h := 1, dilation_w := 1, group_count := 1 }
      miopenDataType_t.miopenFloat 1 4 5 5 8 2 3 3 rfl (Or.inl rfl) (by decide) (by decide)
      (by decide) (by decide)).2 (by decide)⟩

/-! ## GetForwardOutputDim: padding modes outside the enumeration -/

/-- C11: for a descriptor whose padding mode is none of Default, Same and
Valid, with matching element types and the channel check of the mode passed,
`GetForwardOutputDim` throws the invalid-value error "Invalid Padding Mode!".
In Grouped and Depthwise mode `input_c` is at least 1 and the channel counts
are below `2 ^ 63`, so that the channel check reads them unchanged and divides
by no zero. -/
theorem C11_invalid_padding_mode (d : ConvolutionDescriptor) (ty : miopenDataType_t)
    (n c h w k fc fh fw : Nat)
    (hpad : d.paddingMode ≠ miopenPaddingDefault ∧ d.paddingMode ≠ miopenPaddingSame ∧
      d.paddingMode ≠ miopenPaddingValid)
    (hconv : d.mode = miopenConvolution → c = fc)
    (htrans : d.mode = miopenTranspose → c = k)
    (hgroup : d.mode = miopenGroupConv → c % fc = 0 ∧ k % (c / fc) = 0)
    (hdepth : d.mode = miopenDepthwise → fc = 1 ∧ k % c = 0)
    (hrange : d.mode = miopenGroupConv ∨ d.mode = miopenDepthwise →
      1 ≤ c ∧ c < 2 ^ 63 ∧ fc < 2 ^ 63 ∧ k < 2 ^ 63) :
    d.GetForwardOutputDim { type := ty, lens := (n, c, h, w) }
        { type := ty, lens := (k, fc, fh, fw) } =
      Except.error
        { status := miopenStatusInvalidValue, message := "Invalid Padding Mode!" } := by
  obtain ⟨mode, pm, pad_h, pad_w, u, v, dilation_h, dilation_w, group_count⟩ := d
  simp only at hpad hconv htrans hgroup hdepth hrange ⊢
  obtain ⟨hp1, hp2, hp3⟩ := hpad
  by_cases hgd : mode = miopenGroupConv ∨ mode = miopenDepthwise
  · obtain ⟨-, hc, hfc, hk⟩ := hrange hgd
    have ec := sizeToPtrdiff_of_lt c hc
    have efc := sizeToPtrdiff_of_lt fc hfc
    have ek := sizeToPtrdiff_of_lt k hk
    simp only [ConvolutionDescriptor.GetForwardOutputDim, TensorDescriptor.GetType,
      TensorDescriptor.GetLengths, tienPtrdiff, MIOPEN_THROW, ec, efc, ek, natCast_tdiv_natCast,
      natCast_tmod_natCast]
    clear hrange ec efc ek
    rcases hgd with hm | hm <;> subst hm <;> simp_all
  · simp only [ConvolutionDescriptor.GetForwardOutputDim, TensorDescriptor.GetType,
      TensorDescriptor.GetLengths, tienPtrdiff, MIOPEN_THROW]
    clear hrange
    cases mode <;> simp_all

/-- C11, at a concrete input: a Grouped-mode descriptor whose padding mode is
out of the enumeration, with matching types, 8 input channels and a filter of
4 channels per group and 16 outputs. -/
theorem C11_invalid_padding_mode_witness :
    ConvolutionDescriptor.GetForwardOutputDim
        { mode := miopenGroupConv, paddingMode := miopenPaddingMode_t.outOfRange, pad_h := 0,
          pad_w := 0, u := 1, v := 1, dilation_h := 1, dilation_w := 1, group_count := 2 }
        { type := miopenDataType_t.miopenFloat, lens := (1, 8, 5, 5) }
        { type := miopenDataType_t.miopenFloat, lens := (16, 4, 3, 3) } =
      Except.error
        { status := miopenStatusInvalidValue, message := "Invalid Padding Mode!" } :=
  C11_invalid_padding_mode
    { mode := miopenGroupConv, paddingMode := miopenPaddingMode_t.outOfRange, pad_h := 0,
      pad_w := 0, u := 1, v := 1, dilation_h := 1, dilation_w := 1, group_count := 2 }
    miopenDataType_t.miopenFloat 1 8 5 5 16 4 3 3 (by decide) (fun h => by cases h)
    (fun h => by cases h) (fun _ => by decide) (fun h => by cases h) (fun _ => by decide)

/-! ## GetBackwardsWeightsDim -/

/-- The traced function returns what `GetForwardOutputDim` returns. -/
theorem GetForwardOutputDim_traced_fst (d : ConvolutionDescriptor)
    (inputTensorDesc filterDesc : TensorDescriptor) :
    (d.GetForwardOutputDim_traced inputTensorDesc filterDesc).1 =
      d.GetForwardOutputDim inputTensorDesc filterDesc := by
  obtain ⟨mode, pm, pad_h, pad_w, u, v, dilation_h, dilation_w, group_count⟩ := d
  by_cases ht : inputTensorDesc.GetType ≠ filterDesc.GetType
  · simp only [ConvolutionDescriptor.GetForwardOutputDim_traced,
      ConvolutionDescriptor.GetForwardOutputDim, if_pos ht]
  · simp only [ConvolutionDescriptor.GetForwardOutputDim_traced,
      ConvolutionDescriptor.GetForwardOutputDim, if_neg ht, MIOPEN_THROW]
    cases mode <;> cases pm <;> simp <;> split_ifs <;> simp_all

/-- The traced function returns what `GetBackwardsWeightsDim` returns. -/
theorem GetBackwardsWeightsDim_traced_fst (d : ConvolutionDescriptor)
    (inputTensorDesc outputTensorDesc : TensorDescriptor) :
    (d.GetBackwardsWeightsDim_traced inputTensorDesc outputTensorDesc).1 =
      d.GetBackwardsWeightsDim inputTensorDesc outputTensorDesc := by
  unfold ConvolutionDescriptor.GetBackwardsWeightsDim_traced
    ConvolutionDescriptor.GetBackwardsWeightsDim
  split_ifs <;> rfl

/-- C12 as stated fails on three inputs of a Depthwise-mode or Grouped-mode
descriptor with padding 1 and stride 1 and the output tensor (1, 4, 5, 5).
In Depthwise mode with `input_c = 0` the divisor of `input_c / groups` is 0.
In Depthwise mode with `input_c = 2 ^ 32 + 3` the `int` variable `groups`
holds 3 and the second result is `(2 ^ 32 + 3) / 3 = 1431655766`, not
`input_c / input_c = 1`.  In Grouped mode with `group_count = 0` the divisor
is 0 again. -/
theorem C12_counterexample :
    (ConvolutionDescriptor.GetBackwardsWeightsDim_traced
        { mode := miopenDepthwise, paddingMode := miopenPaddingDefault, pad_h := 1,
          pad_w := 1, u := 1, v := 1, dilation_h := 1, dilation_w := 1, group_count := 1 }
        { type := miopenDataType_t.miopenFloat, lens := (1, 0, 5, 5) }
        { type := miopenDataType_t.miopenFloat, lens := (1, 4, 5, 5) }).2 = [0] ∧
    (ConvolutionDescriptor.GetBackwardsWeightsDim
        { mode := miopenDepthwise, paddingMode := miopenPaddingDefault, pad_h := 1,
          pad_w := 1, u := 1, v := 1, dilation_h := 1, dilation_w := 1, group_count := 1 }
        { type := miopenDataType_t.miopenFloat, lens := (1, 4294967299, 5, 5) }
        { type := miopenDataType_t.miopenFloat, lens := (1, 4, 5, 5) } =
      Except.ok (4, 1431655766, 3, 3) ∧ 4294967299 / 4294967299 = 1) ∧
    (ConvolutionDescriptor.GetBackwardsWeightsDim_traced
        { mode := miopenGroupConv, paddingMode := miopenPaddingDefault, pad_h := 1,
          pad_w := 1, u := 1, v := 1, dilation_h := 1, dilation_w := 1, group_count := 0 }
        { type := miopenDataType_t.miopenFloat, lens := (1, 8, 5, 5) }
        { type := miopenDataType_t.miopenFloat, lens := (1, 4, 5, 5) }).2 = [0] := by
  refine ⟨?_, ⟨?_, ?_⟩, ?_⟩ <;> decide

/-- C12 (amended): with matching element types, with `1 <= input_c < 2 ^ 31`
in Depthwise mode, a `group_count` other than 0 in Grouped mode and `2*pad_h`,
`2*pad_w` within `int`, `GetBackwardsWeightsDim` divides by no zero and returns
`(output_c, input_c / groups, 2*pad_h + input_h - u*(output_h - 1),
2*pad_w + input_w - v*(output_w - 1))`, the two extents being taken modulo
`2 ^ 64` (and equal to the integer value when it is non-negative and below
`2 ^ 64`), with `groups = input_c` in Depthwise mode, `group_count` converted
to `std::size_t` in Grouped mode and 1 otherwise; nothing is checked on the
channels or on the sign. -/
theorem C12_backward_weights_dims (d : ConvolutionDescriptor) (ty : miopenDataType_t)
    (n c h w yn yc yh yw : Nat)
    (hdepth : d.mode = miopenDepthwise → 1 ≤ c ∧ c < 2 ^ 31)
    (hgroup : d.mode = miopenGroupConv →
      d.group_count ≠ 0 ∧ -2 ^ 31 ≤ d.group_count ∧ d.group_count < 2 ^ 31)
    (hpadr : -2 ^ 30 ≤ d.pad_h ∧ d.pad_h < 2 ^ 30 ∧ -2 ^ 30 ≤ d.pad_w ∧ d.pad_w < 2 ^ 30) :
    ∃ C H W : Nat,
      d.GetBackwardsWeightsDim { type := ty, lens := (n, c, h, w) }
          { type := ty, lens := (yn, yc, yh, yw) } = Except.ok (yc, C, H, W) ∧
      (∀ z ∈ (d.GetBackwardsWeightsDim_traced { type := ty, lens := (n, c, h, w) }
          { type := ty, lens := (yn, yc, yh, yw) }).2, z ≠ 0) ∧
      (H : Int) = (2 * d.pad_h + (h : Int) - d.u * ((yh : Int) - 1)) % 2 ^ 64 ∧
      (W : Int) = (2 * d.pad_w + (w : Int) - d.v * ((yw : Int) - 1)) % 2 ^ 64 ∧
      (d.u * ((yh : Int) - 1) ≤ 2 * d.pad_h + (h : Int) →
        2 * d.pad_h + (h : Int) - d.u * ((yh : Int) - 1) < 2 ^ 64 →
        (H : Int) = 2 * d.pad_h + (h : Int) - d.u * ((yh : Int) - 1)) ∧
      (d.v * ((yw : Int) - 1) ≤ 2 * d.pad_w + (w : Int) →
        2 * d.pad_w + (w : Int) - d.v * ((yw : Int) - 1) < 2 ^ 64 →
        (W : Int) = 2 * d.pad_w + (w : Int) - d.v * ((yw : Int) - 1)) ∧
      (d.mode = miopenDepthwise → C = c / c) ∧
      (d.mode = miopenGroupConv → C = c / toSizeT d.group_count) ∧
      (d.mode = miopenGroupConv → 0 < d.group_count → C = c / d.group_count.toNat) ∧
      (d.mode ≠ miopenDepthwise → d.mode ≠ miopenGroupConv → C = c) := by
  obtain ⟨hp1, hp2, hp3, hp4⟩ := hpadr
  have eph := toInt_of_range (2 * d.pad_h) (by omega) (by omega)
  have epw := toInt_of_range (2 * d.pad_w) (by omega) (by omega)
  have hne : ¬ (miopenGroupConv = miopenDepthwise) := by decide
  refine ⟨c / toSizeT (if d.mode = miopenDepthwise then toInt (c : Int)
      else if d.mode = miopenGroupConv then d.group_count else 1),
    toSizeT (2 * d.pad_h + (h : Int) - d.u * ((yh : Int) - 1)),
    toSizeT (2 * d.pad_w + (w : Int) - d.v * ((yw : Int) - 1)), ?_, ?_,
    toSizeT_cast _, toSizeT_cast _, ?_, ?_, ?_, ?_, ?_, ?_⟩
  · simp only [ConvolutionDescriptor.GetBackwardsWeightsDim, TensorDescriptor.GetType,
      TensorDescriptor.GetLengths, ne_eq, not_true_eq_false, if_false, eph, epw]
  · intro z hz
    simp only [ConvolutionDescriptor.GetBackwardsWeightsDim_traced, TensorDescriptor.GetType,
      TensorDescriptor.GetLengths, ne_eq, not_true_eq_false, if_false, List.mem_singleton] at hz
    subst hz
    by_cases hm : d.mode = miopenDepthwise
    · obtain ⟨hc1, hc2⟩ := hdepth hm
      rw [if_pos hm, toInt_of_range _ (by omega) (by omega),
        toSizeT_natCast c (by unfold SIZE_MOD; omega)]
      omega
    · by_cases hg : d.mode = miopenGroupConv
      · obtain ⟨hg0, hg1, hg2⟩ := hgroup hg
        rw [if_neg hm, if_pos hg]
        unfold toSizeT
        omega
      · rw [if_neg hm, if_neg hg]
        decide
  · intro h1 h2
    exact toSizeT_of_nonneg_of_lt _ (by omega) h2
  · intro h1 h2
    exact toSizeT_of_nonneg_of_lt _ (by omega) h2
  · intro hm
    obtain ⟨hc1, hc2⟩ := hdepth hm
    rw [if_pos hm, toInt_of_range _ (by omega) (by omega),
      toSizeT_natCast c (by unfold SIZE_MOD; omega)]
  · intro hm
    simp only [hm, if_neg hne, if_true]
  · intro hm h0
    obtain ⟨-, -, hg2⟩ := hgroup hm
    simp only [hm, if_neg hne, if_true]
    have h2 := toSizeT_of_nonneg_of_lt d.group_count (by omega) (by omega)
    have h3 : toSizeT d.group_count = d.group_count.toNat := by omega
    rw [h3]
  · intro h1 h2
    simp only [if_neg h1, if_neg h2]
    have h3 : toSizeT 1 = 1 := by decide
    rw [h3, Nat.div_one]

/-- C12 (amended), at a concrete input: in Depthwise mode with 8 input
channels, padding 1 and stride 2, the input (1, 8, 9, 9) and the output
(1, 16, 5, 5) give `(16, 1, 3, 3)`. -/
theorem C12_backward_weights_dims_witness :
    ConvolutionDescriptor.GetBackwardsWeightsDim
        { mode := miopenDepthwise, paddingMode := miopenPaddingDefault, pad_h := 1,
          pad_w := 1, u := 2, v := 2, dilation_h := 1, dilation_w := 1, group_count := 1 }
        { type := miopenDataType_t.miopenFloat, lens := (1, 8, 9, 9) }
        { type := miopenDataType_t.miopenFloat, lens := (1, 16, 5, 5) } =
      Except.ok (16, 1, 3, 3) := by
  obtain ⟨C, H, W, h1, -, -, -, h4, h5, h6, -, -, -⟩ :=
    C12_backward_weights_dims
      { mode := miopenDepthwise, paddingMode := miopenPaddingDefault, pad_h := 1,
        pad_w := 1, u := 2, v := 2, dilation_h := 1, dilation_w := 1, group_count := 1 }
      miopenDataType_t.miopenFloat 1 8 9 9 1 16 5 5 (fun _ => by decide)
      (fun h => by cases h) (by decide)
  have hH : (H : Int) = 3 := (h4 (by decide) (by decide)).trans (by decide)
  have hW : (W : Int) = 3 := (h5 (by decide) (by decide)).trans (by decide)
  have hC : C = 1 := (h6 rfl).trans (by decide)
  have hH2 : H = 3 := by exact_mod_cast hH
  have hW2 : W = 3 := by exact_mod_cast hW
  rw [h1, hC, hH2, hW2]

/-! ## Round trips between the forward and the backward shapes -/

theorem GetForwardOutputDim_standard_default (pad_h pad_w u v dilation_h dilation_w
    group_count : Int) (ty : miopenDataType_t) (n c h w k fh fw : Nat)
    (hlens : n < 2 ^ 31 ∧ c < 2 ^ 31 ∧ h < 2 ^ 31 ∧ w < 2 ^ 31 ∧ k < 2 ^ 31 ∧ c < 2 ^ 31 ∧
      fh < 2 ^ 31 ∧ fw < 2 ^ 31)
    (hdil : -2 ^ 31 ≤ dilation_h ∧ dilation_h < 2 ^ 31 ∧ -2 ^ 31 ≤ dilation_w ∧
      dilation_w < 2 ^ 31)
    (hpadr : -2 ^ 30 ≤ pad_h ∧ pad_h < 2 ^ 30 ∧ -2 ^ 30 ≤ pad_w ∧ pad_w < 2 ^ 30) :
    ConvolutionDescriptor.GetForwardOutputDim
        { mode := miopenConvolution, paddingMode := miopenPaddingDefault, pad_h := pad_h,
          pad_w := pad_w, u := u, v := v, dilation_h := dilation_h, dilation_w := dilation_w,
          group_count := group_count }
        { type := ty, lens := (n, c, h, w) } { type := ty, lens := (k, c, fh, fw) } =
      Except.ok (n, k,
        toSizeT (max 1 (Int.tdiv ((h : Int) - (1 + dilation_h * ((fh : Int) - 1)) + 2 * pad_h) u
          + 1)),
        toSizeT (max 1 (Int.tdiv ((w : Int) - (1 + dilation_w * ((fw : Int) - 1)) + 2 * pad_w) v
          + 1))) :=
  (GetForwardOutputDim_general
    { mode := miopenConvolution, paddingMode := miopenPaddingDefault, pad_h := pad_h,
      pad_w := pad_w, u := u, v := v, dilation_h := dilation_h, dilation_w := dilation_w,
      group_count := group_count }
    ty n c h w k c fh fw (fun hm => by cases hm) (Or.inl rfl) (fun _ => rfl)
    (fun hm => by cases hm)
    (fun hm => by cases hm) hlens hdil hpadr).1

theorem GetBackwardsWeightsDim_standard (paddingMode : miopenPaddingMode_t)
    (pad_h pad_w u v dilation_h dilation_w group_count : Int) (ty : miopenDataType_t)
    (n c h w yn yc yh yw : Nat)
    (hpadr : -2 ^ 30 ≤ pad_h ∧ pad_h < 2 ^ 30 ∧ -2 ^ 30 ≤ pad_w ∧ pad_w < 2 ^ 30) :
    ConvolutionDescriptor.GetBackwardsWeightsDim
        { mode := miopenConvolution, paddingMode := paddingMode, pad_h := pad_h,
          pad_w := pad_w, u := u, v := v, dilation_h := dilation_h, dilation_w := dilation_w,
          group_count := group_count }
        { type := ty, lens := (n, c, h, w) } { type := ty, lens := (yn, yc, yh, yw) } =
      Except.ok (yc, c,
        toSizeT (2 * pad_h + (h : Int) - u * ((yh : Int) - 1)),
        toSizeT (2 * pad_w + (w : Int) - v * ((yw : Int) - 1))) := by
  have h1 : toSizeT 1 = 1 := by decide
  have eph := toInt_of_range (2 * pad_h) (by omega) (by omega)
  have epw := toInt_of_range (2 * pad_w) (by omega) (by omega)
  simp [ConvolutionDescriptor.GetBackwardsWeightsDim, TensorDescriptor.GetType,
    TensorDescriptor.GetLengths, h1, eph, epw]

/-- The forward extent with dilation 1 when the padded input covers the
filter: it is `(input + 2*pad - filter) / stride + 1`, below `2 ^ 64`. -/
theorem forward_extent_of_fit (h fh : Nat) (p u : Int) (hu : 1 ≤ u) (hfh : 1 ≤ fh)
    (hfit : (fh : Int) ≤ (h : Int) + 2 * p) (hr : (h : Int) + 2 * p < 2 ^ 64) :
    ((toSizeT (max 1 (Int.tdiv ((h : Int) - (1 + 1 * ((fh : Int) - 1)) + 2 * p) u + 1)) : Nat) :
        Int) = ((h : Int) + 2 * p - (fh : Int)) / u + 1 := by
  have e : (h : Int) - (1 + 1 * ((fh : Int) - 1)) + 2 * p = (h : Int) + 2 * p - (fh : Int) := by
    ring
  rw [e, Int.tdiv_eq_ediv (by omega) (by omega)]
  have hq0 : 0 ≤ ((h : Int) + 2 * p - (fh : Int)) / u := Int.ediv_nonneg (by omega) (by omega)
  have hq1 : ((h : Int) + 2 * p - (fh : Int)) / u ≤ (h : Int) + 2 * p - (fh : Int) :=
    Int.ediv_le_self _ (by omega)
  rw [max_eq_right (by omega)]
  have hfh2 : (1 : Int) ≤ (fh : Int) := by exact_mod_cast hfh
  exact toSizeT_of_nonneg_of_lt _ (by omega) (by omega)

/-- The filter extent recovered from the forward extent with dilation 1: it is
the true extent plus the remainder of `input + 2*pad - filter` by the
stride. -/
theorem recovered_extent_of_fit (h fh : Nat) (p u : Int) (hu : 1 ≤ u) (hfh : 1 ≤ fh)
    (hfit : (fh : Int) ≤ (h : Int) + 2 * p) (hr : (h : Int) + 2 * p < 2 ^ 64) :
    ((toSizeT (2 * p + (h : Int) - u * (((toSizeT (max 1 (Int.tdiv
        ((h : Int) - (1 + 1 * ((fh : Int) - 1)) + 2 * p) u + 1)) : Nat) : Int) - 1)) : Nat) : Int) =
      (fh : Int) + ((h : Int) + 2 * p - (fh : Int)) % u := by
  rw [forward_extent_of_fit h fh p u hu hfh hfit hr]
  have hm := Int.emod_add_ediv ((h : Int) + 2 * p - (fh : Int)) u
  have hm0 : 0 ≤ ((h : Int) + 2 * p - (fh : Int)) % u := Int.emod_nonneg _ (by omega)
  have hm1 : ((h : Int) + 2 * p - (fh : Int)) % u < u := Int.emod_lt_of_pos _ (by omega)
  have hq0 : 0 ≤ ((h : Int) + 2 * p - (fh : Int)) / u := Int.ediv_nonneg (by omega) (by omega)
  have hmul : 0 ≤ u * (((h : Int) + 2 * p - (fh : Int)) / u) := Int.mul_nonneg (by omega) hq0
  have e : 2 * p + (h : Int) - u * ((((h : Int) + 2 * p - (fh : Int)) / u + 1) - 1) =
      (fh : Int) + ((h : Int) + 2 * p - (fh : Int)) % u := by
    have : ((h : Int) + 2 * p - (fh : Int)) / u + 1 - 1 = ((h : Int) + 2 * p - (fh : Int)) / u := by
      ring
    rw [this]
    omega
  rw [e]
  have hfh2 : (0 : Int) ≤ (fh : Int) := Int.natCast_nonneg fh
  exact toSizeT_of_nonneg_of_lt _ (by omega) (by omega)

/-- C13: in Standard mode with Default padding and dilation 1 (stride >= 1),
matching types and channels, all lengths >= 1 and `input + 2*pad >= filter` in
both directions (the lengths below `2 ^ 31` and `2*pad` within `int`, so that
nothing overflows), feeding the forward output `y` back to
`GetBackwardsWeightsDim(input, y)` gives `(filter_k, filter_c, h', w')` with
`filter_h <= h' <= filter_h + u - 1`, `filter_w <= w' <= filter_w + v - 1`,
and `h' = filter_h` exactly when `u` divides `input_h + 2*pad_h - filter_h`
(always for stride 1); likewise for `w'`. -/
theorem C13_forward_backward_weights_round_trip (d : ConvolutionDescriptor)
    (ty : miopenDataType_t) (n c h w k fc fh fw : Nat)
    (hmode : d.mode = miopenConvolution) (hpad : d.paddingMode = miopenPaddingDefault)
    (hdh : d.dilation_h = 1) (hdw : d.dilation_w = 1) (hchan : c = fc)
    (hdims : 1 ≤ n ∧ 1 ≤ c ∧ 1 ≤ h ∧ 1 ≤ w ∧ 1 ≤ k ∧ 1 ≤ fc ∧ 1 ≤ fh ∧ 1 ≤ fw)
    (hfit_h : (fh : Int) ≤ (h : Int) + 2 * d.pad_h)
    (hfit_w : (fw : Int) ≤ (w : Int) + 2 * d.pad_w)
    (hu : 1 ≤ d.u) (hv : 1 ≤ d.v)
    (hlens : n < 2 ^ 31 ∧ c < 2 ^ 31 ∧ h < 2 ^ 31 ∧ w < 2 ^ 31 ∧ k < 2 ^ 31 ∧ fc < 2 ^ 31 ∧
      fh < 2 ^ 31 ∧ fw < 2 ^ 31)
    (hpadr : -2 ^ 30 ≤ d.pad_h ∧ d.pad_h < 2 ^ 30 ∧ -2 ^ 30 ≤ d.pad_w ∧ d.pad_w < 2 ^ 30) :
    ∃ N C H W h' w' : Nat,
      d.GetForwardOutputDim { type := ty, lens := (n, c, h, w) }
          { type := ty, lens := (k, fc, fh, fw) } = Except.ok (N, C, H, W) ∧
      d.GetBackwardsWeightsDim { type := ty, lens := (n, c, h, w) }
          { type := ty, lens := (N, C, H, W) } = Except.ok (k, fc, h', w') ∧
      fh ≤ h' ∧ (h' : Int) ≤ (fh : Int) + d.u - 1 ∧
      fw ≤ w' ∧ (w' : Int) ≤ (fw : Int) + d.v - 1 ∧
      (h' = fh ↔ d.u ∣ ((h : Int) + 2 * d.pad_h - (fh : Int))) ∧
      (w' = fw ↔ d.v ∣ ((w : Int) + 2 * d.pad_w - (fw : Int))) ∧
      (d.u = 1 → h' = fh) ∧ (d.v = 1 → w' = fw) := by
  obtain ⟨mode, pm, pad_h, pad_w, u, v, dilation_h, dilation_w, group_count⟩ := d
  simp only at hmode hpad hdh hdw hfit_h hfit_w hu hv hpadr ⊢
  subst hmode hpad hdh hdw hchan
  obtain ⟨-, -, -, -, -, -, hfh, hfw⟩ := hdims
  have hrh : (h : Int) + 2 * pad_h < 2 ^ 64 := by omega
  have hrw : (w : Int) + 2 * pad_w < 2 ^ 64 := by omega
  have eh := recovered_extent_of_fit h fh pad_h u hu hfh hfit_h hrh
  have ew := recovered_extent_of_fit w fw pad_w v hv hfw hfit_w hrw
  have mh0 : 0 ≤ ((h : Int) + 2 * pad_h - (fh : Int)) % u := Int.emod_nonneg _ (by omega)
  have mh1 : ((h : Int) + 2 * pad_h - (fh : Int)) % u < u := Int.emod_lt_of_pos _ (by omega)
  have mw0 : 0 ≤ ((w : Int) + 2 * pad_w - (fw : Int)) % v := Int.emod_nonneg _ (by omega)
  have mw1 : ((w : Int) + 2 * pad_w - (fw : Int)) % v < v := Int.emod_lt_of_pos _ (by omega)
  have hb := GetBackwardsWeightsDim_standard miopenPaddingDefault pad_h pad_w u v 1 1
    group_count ty n c h w n k
    (toSizeT (max 1 (Int.tdiv ((h : Int) - (1 + 1 * ((fh : Int) - 1)) + 2 * pad_h) u + 1)))
    (toSizeT (max 1 (Int.tdiv ((w : Int) - (1 + 1 * ((fw : Int) - 1)) + 2 * pad_w) v + 1)))
    hpadr
  refine ⟨_, _, _, _, _, _,
    GetForwardOutputDim_standard_default _ _ _ _ _ _ _ _ _ _ _ _ _ _ _ hlens (by decide) hpadr,
    hb, ?_, ?_, ?_, ?_, ?_, ?_, ?_, ?_⟩
  · omega
  · omega
  · omega
  · omega
  · rw [Int.dvd_iff_emod_eq_zero]
    omega
  · rw [Int.dvd_iff_emod_eq_zero]
    omega
  · intro h1
    have h2 : ((h : Int) + 2 * pad_h - (fh : Int)) % u = 0 := by omega
    omega
  · intro h1
    have h2 : ((w : Int) + 2 * pad_w - (fw : Int)) % v = 0 := by omega
    omega

/-- C13, at a concrete input where the stride does not divide: a 8x8 input,
a 3x3 filter, stride 2 and padding 0 give a 3x3 output, from which
`GetBackwardsWeightsDim` recovers the extent 4 = 3 + (8 - 3) mod 2. -/
theorem C13_forward_backward_weights_round_trip_witness :
    ∃ N C H W h' w' : Nat,
      ConvolutionDescriptor.GetForwardOutputDim
          { mode := miopenConvolution, paddingMode := miopenPaddingDefault, pad_h := 0,
            pad_w := 0, u := 2, v := 2, dilation_h := 1, dilation_w := 1, group_count := 1 }
          { type := miopenDataType_t.miopenFloat, lens := (1, 3, 8, 8) }
          { type := miopenDataType_t.miopenFloat, lens := (4, 3, 3, 3) } =
        Except.ok (N, C, H, W) ∧
      ConvolutionDescriptor.GetBackwardsWeightsDim
          { mode := miopenConvolution, paddingMode := miopenPaddingDefault, pad_h := 0,
            pad_w := 0, u := 2, v := 2, dilation_h := 1, dilation_w := 1, group_count := 1 }
          { type := miopenDataType_t.miopenFloat, lens := (1, 3, 8, 8) }
          { type := miopenDataType_t.miopenFloat, lens := (N, C, H, W) } =
        Except.ok (4, 3, h', w') ∧
      3 ≤ h' ∧ (h' : Int) ≤ 3 + 2 - 1 ∧ ¬ (h' = 3) := by
  obtain ⟨N, C, H, W, h', w', h1, h2, h3, h4, -, -, h5, -, -, -⟩ :=
    C13_forward_backward_weights_round_trip
      { mode := miopenConvolution, paddingMode := miopenPaddingDefault, pad_h := 0,
        pad_w := 0, u := 2, v := 2, dilation_h := 1, dilation_w := 1, group_count := 1 }
      miopenDataType_t.miopenFloat 1 3 8 8 4 3 3 3 rfl rfl rfl rfl rfl (by decide) (by decide)
      (by decide) (by decide) (by decide) (by decide) (by decide)
  refine ⟨N, C, H, W, h', w', h1, h2, h3, h4, ?_⟩
  intro h6
  have h7 := h5.mp h6
  revert h7
  decide

/-- C14: the code at a Standard-mode, Default-padding descriptor with padding 0,
stride 1 and dilation 2 (accepted by the constructor), the output tensor
(1, 1, 5, 5) and the filter (1, 1, 3, 3): `GetBackwardOutputDim` returns
(1, 1, 7, 7), the value of the formula without dilation, and
`GetForwardOutputDim` of that tensor returns (1, 1, 3, 3), not (1, 1, 5, 5). -/
theorem C14_backward_data_ignores_dilation :
    ConvolutionDescriptor.ConvolutionDescriptor6 0 0 1 1 2 2 =
      Except.ok
        { mode := miopenConvolution, paddingMode := miopenPaddingDefault, pad_h := 0,
          pad_w := 0, u := 1, v := 1, dilation_h := 2, dilation_w := 2, group_count := 1 } ∧
    ConvolutionDescriptor.GetBackwardOutputDim
        { mode := miopenConvolution, paddingMode := miopenPaddingDefault, pad_h := 0,
          pad_w := 0, u := 1, v := 1, dilation_h := 2, dilation_w := 2, group_count := 1 }
        { type := miopenDataType_t.miopenFloat, lens := (1, 1, 5, 5) }
        { type := miopenDataType_t.miopenFloat, lens := (1, 1, 3, 3) } =
      Except.ok (1, 1, 7, 7) ∧
    ConvolutionDescriptor.GetForwardOutputDim
        { mode := miopenConvolution, paddingMode := miopenPaddingDefault, pad_h := 0,
          pad_w := 0, u := 1, v := 1, dilation_h := 2, dilation_w := 2, group_count := 1 }
        { type := miopenDataType_t.miopenFloat, lens := (1, 1, 7, 7) }
        { type := miopenDataType_t.miopenFloat, lens := (1, 1, 3, 3) } =
      Except.ok (1, 1, 3, 3) := by
  refine ⟨rfl, ?_, ?_⟩ <;> decide

theorem GetBackwardOutputDim_standard (paddingMode : miopenPaddingMode_t)
    (pad_h pad_w u v dilation_h dilation_w group_count : Int) (ty : miopenDataType_t)
    (yn yc yh yw k fc fh fw : Nat)
    (hpadr : -2 ^ 30 ≤ pad_h ∧ pad_h < 2 ^ 30 ∧ -2 ^ 30 ≤ pad_w ∧ pad_w < 2 ^ 30) :
    ConvolutionDescriptor.GetBackwardOutputDim
        { mode := miopenConvolution, paddingMode := paddingMode, pad_h := pad_h,
          pad_w := pad_w, u := u, v := v, dilation_h := dilation_h, dilation_w := dilation_w,
          group_count := group_count }
        { type := ty, lens := (yn, yc, yh, yw) } { type := ty, lens := (k, fc, fh, fw) } =
      if yc ≠ k then
        Except.error
          { status := miopenStatusBadParm, message := "Channels do not match for the filter" }
      else
        Except.ok (yn, toSizeT (fc : Int),
          toSizeT (u * ((yh : Int) - 1) - 2 * pad_h + (fh : Int)),
          toSizeT (v * ((yw : Int) - 1) - 2 * pad_w + (fw : Int))) := by
  have eph := toInt_of_range (2 * pad_h) (by omega) (by omega)
  have epw := toInt_of_range (2 * pad_w) (by omega) (by omega)
  simp [ConvolutionDescriptor.GetBackwardOutputDim, TensorDescriptor.GetType,
    TensorDescriptor.GetLengths, MIOPEN_THROW, eph, epw]

/-- C15 as stated fails for an output tensor of height 0: with stride 1 and
padding 0, the output (1, 1, 0, 1) and the filter (1, 1, 5, 1) give the input
(1, 1, 4, 1), whose spatial values are >= 1, and the forward shape of that
input is (1, 1, 1, 1), because the forward formula never returns less
than 1. -/
theorem C15_counterexample_zero_height :
    ConvolutionDescriptor.GetBackwardOutputDim
        { mode := miopenConvolution, paddingMode := miopenPaddingDefault, pad_h := 0,
          pad_w := 0, u := 1, v := 1, dilation_h := 1, dilation_w := 1, group_count := 1 }
        { type := miopenDataType_t.miopenFloat, lens := (1, 1, 0, 1) }
        { type := miopenDataType_t.miopenFloat, lens := (1, 1, 5, 1) } =
      Except.ok (1, 1, 4, 1) ∧
    ((1 : Int) * ((0 : Int) - 1) - 2 * 0 + 5 ≥ 1 ∧ (1 : Int) * ((1 : Int) - 1) - 2 * 0 + 1 ≥ 1) ∧
    ConvolutionDescriptor.GetForwardOutputDim
        { mode := miopenConvolution, paddingMode := miopenPaddingDefault, pad_h := 0,
          pad_w := 0, u := 1, v := 1, dilation_h := 1, dilation_w := 1, group_count := 1 }
        { type := miopenDataType_t.miopenFloat, lens := (1, 1, 4, 1) }
        { type := miopenDataType_t.miopenFloat, lens := (1, 1, 5, 1) } =
      Except.ok (1, 1, 1, 1) ∧
    (Except.ok (1, 1, 1, 1) : Except Exception (Nat × Nat × Nat × Nat)) ≠
      Except.ok (1, 1, 0, 1) := by
  refine ⟨?_, ?_, ?_, ?_⟩ <;> decide

theorem forward_extent_of_backward (yh fh : Nat) (p u : Int) (x : Nat) (hu : 1 ≤ u)
    (hyh : 1 ≤ yh) (hy : yh < SIZE_MOD)
    (hx : (x : Int) = u * ((yh : Int) - 1) - 2 * p + (fh : Int)) :
    toSizeT (max 1 (Int.tdiv ((x : Int) - (1 + 1 * ((fh : Int) - 1)) + 2 * p) u + 1)) = yh := by
  have e : (x : Int) - (1 + 1 * ((fh : Int) - 1)) + 2 * p = u * ((yh : Int) - 1) := by
    rw [hx]
    ring
  rw [e, Int.mul_tdiv_cancel_left _ (by omega : u ≠ 0)]
  have hyh2 : (1 : Int) ≤ (yh : Int) := by exact_mod_cast hyh
  have e2 : max 1 ((yh : Int) - 1 + 1) = (yh : Int) := by
    rw [max_eq_right (by omega)]
    ring
  rw [e2]
  exact toSizeT_natCast yh hy

/-- C15 (amended): in Standard mode with Default padding and dilation 1
(stride >= 1, `2*pad` within `int`), with matching types,
`GetBackwardOutputDim(y, w)` throws the channel-mismatch error exactly when
`y_c ≠ filter_k`, and otherwise returns
`(y_n, filter_c, u*(y_h-1) - 2*pad_h + filter_h, v*(y_w-1) - 2*pad_w + filter_w)`
modulo `2 ^ 64`; when `y_h >= 1`, `y_w >= 1`, these two spatial values are
>= 1 and they, the batch size, the channel counts and the filter extents are
below `2 ^ 31`, `GetForwardOutputDim` of that result and `w` returns exactly
`(y_n, y_c, y_h, y_w)`. -/
theorem C15_backward_data_then_forward (d : ConvolutionDescriptor) (ty : miopenDataType_t)
    (yn yc yh yw k fc fh fw : Nat)
    (hmode : d.mode = miopenConvolution) (hpad : d.paddingMode = miopenPaddingDefault)
    (hdh : d.dilation_h = 1) (hdw : d.dilation_w = 1) (hu : 1 ≤ d.u) (hv : 1 ≤ d.v)
    (hyh : 1 ≤ yh) (hyw : 1 ≤ yw)
    (hsize : yn < 2 ^ 31 ∧ yc < 2 ^ 31 ∧ yh < SIZE_MOD ∧ yw < SIZE_MOD ∧ fc < 2 ^ 31 ∧
      fh < 2 ^ 31 ∧ fw < 2 ^ 31)
    (hpadr : -2 ^ 30 ≤ d.pad_h ∧ d.pad_h < 2 ^ 30 ∧ -2 ^ 30 ≤ d.pad_w ∧ d.pad_w < 2 ^ 30) :
    (d.GetBackwardOutputDim { type := ty, lens := (yn, yc, yh, yw) }
        { type := ty, lens := (k, fc, fh, fw) } =
      Except.error
        { status := miopenStatusBadParm, message := "Channels do not match for the filter" } ↔
      yc ≠ k) ∧
    (yc = k →
      ∃ xh xw : Nat,
        d.GetBackwardOutputDim { type := ty, lens := (yn, yc, yh, yw) }
            { type := ty, lens := (k, fc, fh, fw) } = Except.ok (yn, fc, xh, xw) ∧
        (xh : Int) = (d.u * ((yh : Int) - 1) - 2 * d.pad_h + (fh : Int)) % 2 ^ 64 ∧
        (xw : Int) = (d.v * ((yw : Int) - 1) - 2 * d.pad_w + (fw : Int)) % 2 ^ 64 ∧
        (1 ≤ d.u * ((yh : Int) - 1) - 2 * d.pad_h + (fh : Int) →
          d.u * ((yh : Int) - 1) - 2 * d.pad_h + (fh : Int) < 2 ^ 31 →
          1 ≤ d.v * ((yw : Int) - 1) - 2 * d.pad_w + (fw : Int) →
          d.v * ((yw : Int) - 1) - 2 * d.pad_w + (fw : Int) < 2 ^ 31 →
          (xh : Int) = d.u * ((yh : Int) - 1) - 2 * d.pad_h + (fh : Int) ∧
          (xw : Int) = d.v * ((yw : Int) - 1) - 2 * d.pad_w + (fw : Int) ∧
          d.GetForwardOutputDim { type := ty, lens := (yn, fc, xh, xw) }
              { type := ty, lens := (k, fc, fh, fw) } = Except.ok (yn, yc, yh, yw))) := by
  obtain ⟨mode, pm, pad_h, pad_w, u, v, dilation_h, dilation_w, group_count⟩ := d
  simp only at hmode hpad hdh hdw hu hv hpadr ⊢
  subst hmode hpad hdh hdw
  obtain ⟨hs1, hs2, hs3, hs4, hs5, hs6, hs7⟩ := hsize
  rw [GetBackwardOutputDim_standard _ _ _ _ _ _ _ _ _ _ _ _ _ _ _ _ _ hpadr]
  constructor
  · by_cases hc : yc = k
    · simp [hc]
    · simp [hc]
  · intro hc
    subst hc
    refine ⟨toSizeT (u * ((yh : Int) - 1) - 2 * pad_h + (fh : Int)),
      toSizeT (v * ((yw : Int) - 1) - 2 * pad_w + (fw : Int)), ?_, toSizeT_cast _,
      toSizeT_cast _, ?_⟩
    · simp [toSizeT_natCast fc (by unfold SIZE_MOD; omega)]
    · intro h1 h2 h3 h4
      have ex := toSizeT_of_nonneg_of_lt _ (by omega : (0 : Int) ≤ _)
        (lt_trans h2 (by norm_num))
      have ey := toSizeT_of_nonneg_of_lt _ (by omega : (0 : Int) ≤ _)
        (lt_trans h4 (by norm_num))
      refine ⟨ex, ey, ?_⟩
      rw [GetForwardOutputDim_standard_default _ _ _ _ _ _ _ _ _ _ _ _ _ _ _
          ⟨hs1, hs5, by omega, by omega, hs2, hs5, hs6, hs7⟩ (by decide) hpadr,
        forward_extent_of_backward yh fh pad_h u _ hu hyh hs3 ex,
        forward_extent_of_backward yw fw pad_w v _ hv hyw hs4 ey]

/-- C15 (amended), at a concrete input: the output (2, 4, 3, 3), the filter
(4, 6, 3, 3), stride 2 and padding 1 give the input (2, 6, 5, 5), whose forward
shape is (2, 4, 3, 3) again. -/
theorem C15_backward_data_then_forward_witness :
    ConvolutionDescriptor.GetBackwardOutputDim
        { mode := miopenConvolution, paddingMode := miopenPaddingDefault, pad_h := 1,
          pad_w := 1, u := 2, v := 2, dilation_h := 1, dilation_w := 1, group_count := 1 }
        { type := miopenDataType_t.miopenFloat, lens := (2, 4, 3, 3) }
        { type := miopenDataType_t.miopenFloat, lens := (4, 6, 3, 3) } =
      Except.ok (2, 6, 5, 5) ∧
    ConvolutionDescriptor.GetForwardOutputDim
        { mode := miopenConvolution, paddingMode := miopenPaddingDefault, pad_h := 1,
          pad_w := 1, u := 2, v := 2, dilation_h := 1, dilation_w := 1, group_count := 1 }
        { type := miopenDataType_t.miopenFloat, lens := (2, 6, 5, 5) }
        { type := miopenDataType_t.miopenFloat, lens := (4, 6, 3, 3) } =
      Except.ok (2, 4, 3, 3) := by
  obtain ⟨xh, xw, h1, -, -, h2⟩ :=
    (C15_backward_data_then_forward
      { mode := miopenConvolution, paddingMode := miopenPaddingDefault, pad_h := 1,
        pad_w := 1, u := 2, v := 2, dilation_h := 1, dilation_w := 1, group_count := 1 }
      miopenDataType_t.miopenFloat 2 4 3 3 4 6 3 3 rfl rfl rfl rfl (by decide) (by decide)
      (by decide) (by decide) (by decide) (by decide)).2 rfl
  obtain ⟨h3, h4, h5⟩ := h2 (by decide) (by decide) (by decide) (by decide)
  have e3 : xh = 5 := by
    have : (xh : Int) = 5 := by rw [h3]; decide
    exact_mod_cast this
  have e4 : xw = 5 := by
    have : (xw : Int) = 5 := by rw [h4]; decide
    exact_mod_cast this
  subst e3 e4
  exact ⟨h1, h5⟩

/-! ## Workspace of the matrix-multiply family -/

theorem gemm_size_of_no_overflow (c fh fw yh yw sz : Nat)
    (hI : c * fh * fw * yh * yw < 2 ^ 31)
    (hP : c * fh * fw * yh * yw * sz < SIZE_MOD) :
    (toSizeT (toInt ((c : Int) * (fh : Int) * (fw : Int) * (yh : Int) * (yw : Int))) * sz) %
        SIZE_MOD = c * fh * fw * yh * yw * sz := by
  have e1 : (c : Int) * (fh : Int) * (fw : Int) * (yh : Int) * (yw : Int) =
      ((c * fh * fw * yh * yw : Nat) : Int) := by push_cast; ring
  have e2 : toInt ((c * fh * fw * yh * yw : Nat) : Int) = ((c * fh * fw * yh * yw : Nat) : Int) :=
    toInt_of_range _ (by omega) (by omega)
  rw [e1, e2, toSizeT_natCast _ (by unfold SIZE_MOD; omega), Nat.mod_eq_of_lt hP]

/-- C16: for a 1x1 filter and a descriptor with stride 1 and padding 0 in both
directions, each of the three `...GetWorkSpaceSizeGEMM` functions returns 0,
whatever the channel counts, the output shape, the element types, the element
sizes and the allocation ceiling of the device are. -/
theorem C16_gemm_trivial_size (d : ConvolutionDescriptor) (env : Environment) (handle : Handle)
    (tw ty : miopenDataType_t) (k c : Nat) (yl : Nat × Nat × Nat × Nat)
    (hu : d.u = 1) (hv : d.v = 1) (hph : d.pad_h = 0) (hpw : d.pad_w = 0) :
    d.ForwardGetWorkSpaceSizeGEMM env handle { type := tw, lens := (k, c, 1, 1) }
        { type := ty, lens := yl } = 0 ∧
    d.BackwardDataGetWorkSpaceSizeGEMM env handle { type := tw, lens := (k, c, 1, 1) }
        { type := ty, lens := yl } = 0 ∧
    d.BackwardWeightsGetWorkSpaceSizeGEMM env handle { type := ty, lens := yl }
        { type := tw, lens := (k, c, 1, 1) } = 0 := by
  have e1 : toInt 1 = 1 := by decide
  refine ⟨?_, ?_, ?_⟩
  · simp [ConvolutionDescriptor.ForwardGetWorkSpaceSizeGEMM, tienInt,
      TensorDescriptor.GetLengths, hu, hv, hph, hpw, e1]
  · simp [ConvolutionDescriptor.BackwardDataGetWorkSpaceSizeGEMM, tienInt,
      TensorDescriptor.GetLengths, hu, hv, hph, hpw, e1]
  · simp [ConvolutionDescriptor.BackwardWeightsGetWorkSpaceSizeGEMM, tienInt,
      TensorDescriptor.GetLengths, hu, hv, hph, hpw, e1]

/-- C16, at a concrete input: a 1x1 filter with 64 input channels and a
56x56 output, stride 1 and padding 0. -/
theorem C16_gemm_trivial_size_witness :
    ConvolutionDescriptor.ForwardGetWorkSpaceSizeGEMM
        { mode := miopenConvolution, paddingMode := miopenPaddingDefault, pad_h := 0,
          pad_w := 0, u := 1, v := 1, dilation_h := 1, dilation_w := 1, group_count := 1 }
        plainEnvironment gfx900Handle
        { type := miopenDataType_t.miopenFloat, lens := (128, 64, 1, 1) }
        { type := miopenDataType_t.miopenFloat, lens := (1, 128, 56, 56) } = 0 :=
  (C16_gemm_trivial_size
    { mode := miopenConvolution, paddingMode := miopenPaddingDefault, pad_h := 0,
      pad_w := 0, u := 1, v := 1, dilation_h := 1, dilation_w := 1, group_count := 1 }
    plainEnvironment gfx900Handle miopenDataType_t.miopenFloat miopenDataType_t.miopenFloat
    128 64 (1, 128, 56, 56) rfl rfl rfl rfl).1

/-- C17: outside the 1x1 / stride-1 / padding-0 case, when the product
`P = wei_c*wei_h*wei_w*out_h*out_w*sizeof(element)` does not overflow (the five
lengths and their product are `int` values, below `2 ^ 31`, and `P` is below
`2 ^ 64`), each of the three `...GetWorkSpaceSizeGEMM` functions returns `P` if
`P <= M` and 0 if `P > M`, where `M` is the allocation ceiling of the device;
the functions are total (nothing is thrown) and the returned size never
exceeds `M`. -/
theorem C17_gemm_allocation_ceiling (d : ConvolutionDescriptor) (env : Environment)
    (handle : Handle) (tw ty : miopenDataType_t) (k c fh fw yn yc yh yw : Nat)
    (hnot : ¬ (fh = 1 ∧ fw = 1 ∧ d.u = 1 ∧ d.v = 1 ∧ d.pad_h = 0 ∧ d.pad_w = 0))
    (hlens : c < 2 ^ 31 ∧ fh < 2 ^ 31 ∧ fw < 2 ^ 31 ∧ yh < 2 ^ 31 ∧ yw < 2 ^ 31)
    (hI : c * fh * fw * yh * yw < 2 ^ 31)
    (hP : c * fh * fw * yh * yw * env.GetTypeSize ty < SIZE_MOD) :
    d.ForwardGetWorkSpaceSizeGEMM env handle { type := tw, lens := (k, c, fh, fw) }
        { type := ty, lens := (yn, yc, yh, yw) } =
      (if c * fh * fw * yh * yw * env.GetTypeSize ty ≤ handle.GetMaxMemoryAllocSize then
        c * fh * fw * yh * yw * env.GetTypeSize ty else 0) ∧
    d.BackwardDataGetWorkSpaceSizeGEMM env handle { type := tw, lens := (k, c, fh, fw) }
        { type := ty, lens := (yn, yc, yh, yw) } =
      (if c * fh * fw * yh * yw * env.GetTypeSize ty ≤ handle.GetMaxMemoryAllocSize then
        c * fh * fw * yh * yw * env.GetTypeSize ty else 0) ∧
    d.BackwardWeightsGetWorkSpaceSizeGEMM env handle { type := ty, lens := (yn, yc, yh, yw) }
        { type := tw, lens := (k, c, fh, fw) } =
      (if c * fh * fw * yh * yw * env.GetTypeSize ty ≤ handle.GetMaxMemoryAllocSize then
        c * fh * fw * yh * yw * env.GetTypeSize ty else 0) ∧
    d.ForwardGetWorkSpaceSizeGEMM env handle { type := tw, lens := (k, c, fh, fw) }
        { type := ty, lens := (yn, yc, yh, yw) } ≤ handle.GetMaxMemoryAllocSize ∧
    d.BackwardDataGetWorkSpaceSizeGEMM env handle { type := tw, lens := (k, c, fh, fw) }
        { type := ty, lens := (yn, yc, yh, yw) } ≤ handle.GetMaxMemoryAllocSize ∧
    d.BackwardWeightsGetWorkSpaceSizeGEMM env handle { type := ty, lens := (yn, yc, yh, yw) }
        { type := tw, lens := (k, c, fh, fw) } ≤ handle.GetMaxMemoryAllocSize := by
  have hnot2 : ¬ ((fh : Int) = 1 ∧ (fw : Int) = 1 ∧ d.u = 1 ∧ d.v = 1 ∧ d.pad_h = 0 ∧
      d.pad_w = 0) := by
    intro ⟨h1, h2, h3⟩
    exact hnot ⟨by exact_mod_cast h1, by exact_mod_cast h2, h3⟩
  have hsz := gemm_size_of_no_overflow c fh fw yh yw (env.GetTypeSize ty) hI hP
  obtain ⟨hc, hfh, hfw, hyh, hyw⟩ := hlens
  have ec := toInt_of_range (c : Int) (by omega) (by omega)
  have efh := toInt_of_range (fh : Int) (by omega) (by omega)
  have efw := toInt_of_range (fw : Int) (by omega) (by omega)
  have eyh := toInt_of_range (yh : Int) (by omega) (by omega)
  have eyw := toInt_of_range (yw : Int) (by omega) (by omega)
  have e1 : d.ForwardGetWorkSpaceSizeGEMM env handle { type := tw, lens := (k, c, fh, fw) }
        { type := ty, lens := (yn, yc, yh, yw) } =
      (if c * fh * fw * yh * yw * env.GetTypeSize ty ≤ handle.GetMaxMemoryAllocSize then
        c * fh * fw * yh * yw * env.GetTypeSize ty else 0) := by
    simp only [ConvolutionDescriptor.ForwardGetWorkSpaceSizeGEMM, tienInt,
      TensorDescriptor.GetLengths, TensorDescriptor.GetType, ec, efh, efw, eyh, eyw,
      if_neg hnot2, hsz]
    by_cases hle : c * fh * fw * yh * yw * env.GetTypeSize ty ≤ handle.GetMaxMemoryAllocSize
    · rw [if_neg (by omega), if_pos hle]
    · rw [if_pos (by omega), if_neg hle]
  have e2 : d.BackwardDataGetWorkSpaceSizeGEMM env handle { type := tw, lens := (k, c, fh, fw) }
        { type := ty, lens := (yn, yc, yh, yw) } =
      (if c * fh * fw * yh * yw * env.GetTypeSize ty ≤ handle.GetMaxMemoryAllocSize then
        c * fh * fw * yh * yw * env.GetTypeSize ty else 0) := by
    simp only [ConvolutionDescriptor.BackwardDataGetWorkSpaceSizeGEMM, tienInt,
      TensorDescriptor.GetLengths, TensorDescriptor.GetType, ec, efh, efw, eyh, eyw,
      if_neg hnot2, hsz]
    by_cases hle : c * fh * fw * yh * yw * env.GetTypeSize ty ≤ handle.GetMaxMemoryAllocSize
    · rw [if_neg (by omega), if_pos hle]
    · rw [if_pos (by omega), if_neg hle]
  have e3 : d.BackwardWeightsGetWorkSpaceSizeGEMM env handle
        { type := ty, lens := (yn, yc, yh, yw) } { type := tw, lens := (k, c, fh, fw) } =
      (if c * fh * fw * yh * yw * env.GetTypeSize ty ≤ handle.GetMaxMemoryAllocSize then
        c * fh * fw * yh * yw * env.GetTypeSize ty else 0) := by
    simp only [ConvolutionDescriptor.BackwardWeightsGetWorkSpaceSizeGEMM, tienInt,
      TensorDescriptor.GetLengths, TensorDescriptor.GetType, ec, efh, efw, eyh, eyw,
      if_neg hnot2, hsz]
    by_cases hle : c * fh * fw * yh * yw * env.GetTypeSize ty ≤ handle.GetMaxMemoryAllocSize
    · rw [if_neg (by omega), if_pos hle]
    · rw [if_pos (by omega), if_neg hle]
  refine ⟨e1, e2, e3, ?_, ?_, ?_⟩
  · rw [e1]; split <;> omega
  · rw [e2]; split <;> omega
  · rw [e3]; split <;> omega

/-- C17, at concrete inputs with a 3x3 filter of 64 input channels, 4-byte
elements and the ceiling 2^32: a 56x56 output needs 7225344 bytes, which are
returned; a 1500x1500 output needs 5184000000 bytes, more than the ceiling,
and 0 is returned. -/
theorem C17_gemm_allocation_ceiling_witness :
    ConvolutionDescriptor.ForwardGetWorkSpaceSizeGEMM
        { mode := miopenConvolution, paddingMode := miopenPaddingDefault, pad_h := 1,
          pad_w := 1, u := 1, v := 1, dilation_h := 1, dilation_w := 1, group_count := 1 }
        plainEnvironment gfx900Handle
        { type := miopenDataType_t.miopenFloat, lens := (128, 64, 3, 3) }
        { type := miopenDataType_t.miopenFloat, lens := (1, 128, 56, 56) } = 7225344 ∧
    ConvolutionDescriptor.ForwardGetWorkSpaceSizeGEMM
        { mode := miopenConvolution, paddingMode := miopenPaddingDefault, pad_h := 1,
          pad_w := 1, u := 1, v := 1, dilation_h := 1, dilation_w := 1, group_count := 1 }
        plainEnvironment gfx900Handle
        { type := miopenDataType_t.miopenFloat, lens := (128, 64, 3, 3) }
        { type := miopenDataType_t.miopenFloat, lens := (1, 128, 1500, 1500) } = 0 := by
  constructor
  · rw [(C17_gemm_allocation_ceiling
      { mode := miopenConvolution, paddingMode := miopenPaddingDefault, pad_h := 1,
        pad_w := 1, u := 1, v := 1, dilation_h := 1, dilation_w := 1, group_count := 1 }
      plainEnvironment gfx900Handle miopenDataType_t.miopenFloat miopenDataType_t.miopenFloat
      128 64 3 3 1 128 56 56 (by decide) (by decide) (by decide) (by decide)).1]
    decide
  · rw [(C17_gemm_allocation_ceiling
      { mode := miopenConvolution, paddingMode := miopenPaddingDefault, pad_h := 1,
        pad_w := 1, u := 1, v := 1, dilation_h := 1, dilation_w := 1, group_count := 1 }
      plainEnvironment gfx900Handle miopenDataType_t.miopenFloat miopenDataType_t.miopenFloat
      128 64 3 3 1 128 1500 1500 (by decide) (by decide) (by decide) (by decide)).1]
    decide

/-! ## Eligibility of the fixed-pattern strategy -/

theorem stringContains_gfx8 (name : String)
    (hname : name = "gfx803" ∨ name = "gfx900" ∨ name = "gfx906") :
    stringContains name "gfx8" = decide (name = "gfx803") := by
  rcases hname with h | h | h <;> subst h <;> decide

theorem GetMaxComputeUnits_eq_ok_iff (handle : Handle) (cu : Nat) :
    handle.GetMaxComputeUnits = Except.ok cu ↔
      handle.attributeStatusIsSuccess = true ∧ cu = toSizeT handle.attributeResult := by
  unfold Handle.GetMaxComputeUnits
  cases hs : handle.attributeStatusIsSuccess
  · simp
  · simp [eq_comm]

/-- The exact condition under which `IsWinograd3x3Supported` returns `true`,
on the `int` values read from the two tensors. -/
theorem IsWinograd3x3Supported_eq_true_iff (d : ConvolutionDescriptor) (env : Environment)
    (handle : Handle) (direction : Bool) (wDesc xDesc : TensorDescriptor) :
    d.IsWinograd3x3Supported env handle direction wDesc xDesc = Except.ok true ↔
      (env.precompiledBinariesDisabled = false ∧ d.mode = miopenConvolution ∧
        handle.attributeStatusIsSuccess = true ∧
        (handle.GetDeviceName = "gfx803" ∨ handle.GetDeviceName = "gfx900" ∨
          handle.GetDeviceName = "gfx906") ∧
        d.pad_h = 1 ∧ d.pad_w = 1 ∧ (tienInt wDesc).2.2.1 = 3 ∧ (tienInt wDesc).2.2.2 = 3 ∧
        d.u = 1 ∧ d.v = 1 ∧
        (tienInt xDesc).1 < 2 ^ 16 ∧ (tienInt xDesc).2.1 < 2 ^ 16 ∧
        (if direction then (tienInt wDesc).1 else (tienInt wDesc).2.1) < 2 ^ 16 ∧
        (tienInt xDesc).2.2.1 < 2 ^ 16 ∧ (tienInt xDesc).2.2.2 < 2 ^ 16 ∧
        toSizeT handle.attributeResult < 2 ^ 16 ∧
        toInt ((tienInt xDesc).2.1 * (tienInt xDesc).2.2.1 * (tienInt xDesc).2.2.2) ≤ 2 ^ 28 ∧
        toInt ((if direction then (tienInt wDesc).1 else (tienInt wDesc).2.1) *
          (tienInt xDesc).2.2.1 * (tienInt xDesc).2.2.2) ≤ 2 ^ 28 ∧
        toInt ((tienInt xDesc).2.1 * (tienInt wDesc).2.2.1 * (tienInt wDesc).2.2.2) ≤ 2 ^ 28 ∧
        toInt ((if direction then (tienInt wDesc).1 else (tienInt wDesc).2.1) *
          (tienInt wDesc).2.2.1 * (tienInt wDesc).2.2.2) ≤ 2 ^ 28 ∧
        Int.tmod (tienInt xDesc).2.1 2 = 0 ∧
        (if handle.GetDeviceName = "gfx803" then 16 else 18) ≤ (tienInt xDesc).2.1 ∧
        env.GetTypeSize wDesc.GetType = 4 ∧ env.GetTypeSize xDesc.GetType = 4) := by
  unfold ConvolutionDescriptor.IsWinograd3x3Supported
  cases hdis : env.precompiledBinariesDisabled
  · by_cases hmode : d.mode = miopenConvolution
    · cases hs : handle.attributeStatusIsSuccess
      · simp [Handle.GetMaxComputeUnits, hs, hmode]
      · by_cases hname : handle.GetDeviceName = "gfx803" ∨ handle.GetDeviceName = "gfx900" ∨
            handle.GetDeviceName = "gfx906"
        · generalize (tienInt xDesc).1 = bn
          generalize (tienInt xDesc).2.1 = ci
          generalize (tienInt xDesc).2.2.1 = ih
          generalize (tienInt xDesc).2.2.2 = iw
          generalize (tienInt wDesc).1 = wk
          generalize (tienInt wDesc).2.1 = wc
          generalize (tienInt wDesc).2.2.1 = k0
          generalize (tienInt wDesc).2.2.2 = k1
          simp only [Handle.GetMaxComputeUnits, hs, hmode, stringContains_gfx8 _ hname]
          cases direction <;> simp [hname]
        · simp [Handle.GetMaxComputeUnits, hs, hmode, hname]
    · simp [hmode]
  · simp

theorem toInt_mul_nine (x : Nat) (hx : x < 2 ^ 16) :
    toInt ((x : Int) * ((3 : Nat) : Int) * ((3 : Nat) : Int)) = ((x * 3 * 3 : Nat) : Int) := by
  unfold toInt
  push_cast
  omega

/-- The condition of `IsWinograd3x3Supported` on the lengths themselves, when
they are below `2 ^ 31` and the two products with the input extents are too. -/
theorem IsWinograd3x3Supported_eq_true_iff_of_range (d : ConvolutionDescriptor)
    (env : Environment) (handle : Handle) (direction : Bool) (tw tx : miopenDataType_t)
    (k c fh fw n ci h w : Nat)
    (hlens : k < 2 ^ 31 ∧ c < 2 ^ 31 ∧ fh < 2 ^ 31 ∧ fw < 2 ^ 31 ∧ n < 2 ^ 31 ∧ ci < 2 ^ 31 ∧
      h < 2 ^ 31 ∧ w < 2 ^ 31)
    (hprod : ci * h * w < 2 ^ 31 ∧ (if direction then k else c) * h * w < 2 ^ 31) :
    d.IsWinograd3x3Supported env handle direction { type := tw, lens := (k, c, fh, fw) }
        { type := tx, lens := (n, ci, h, w) } = Except.ok true ↔
      (env.precompiledBinariesDisabled = false ∧ d.mode = miopenConvolution ∧
        handle.attributeStatusIsSuccess = true ∧
        (handle.GetDeviceName = "gfx803" ∨ handle.GetDeviceName = "gfx900" ∨
          handle.GetDeviceName = "gfx906") ∧
        d.pad_h = 1 ∧ d.pad_w = 1 ∧ fh = 3 ∧ fw = 3 ∧ d.u = 1 ∧ d.v = 1 ∧
        n < 2 ^ 16 ∧ ci < 2 ^ 16 ∧ (if direction then k else c) < 2 ^ 16 ∧ h < 2 ^ 16 ∧
        w < 2 ^ 16 ∧ toSizeT handle.attributeResult < 2 ^ 16 ∧
        ci * h * w ≤ 2 ^ 28 ∧ (if direction then k else c) * h * w ≤ 2 ^ 28 ∧
        ci * fh * fw ≤ 2 ^ 28 ∧ (if direction then k else c) * fh * fw ≤ 2 ^ 28 ∧
        ci % 2 = 0 ∧ (if handle.GetDeviceName = "gfx803" then 16 else 18) ≤ ci ∧
        env.GetTypeSize tw = 4 ∧ env.GetTypeSize tx = 4) := by
  obtain ⟨hk, hc, hfh, hfw, hn, hci, hh, hw⟩ := hlens
  obtain ⟨hp1, hp2⟩ := hprod
  have ek := toInt_of_range (k : Int) (by omega) (by omega)
  have ec := toInt_of_range (c : Int) (by omega) (by omega)
  have efh := toInt_of_range (fh : Int) (by omega) (by omega)
  have efw := toInt_of_range (fw : Int) (by omega) (by omega)
  have en := toInt_of_range (n : Int) (by omega) (by omega)
  have eci := toInt_of_range (ci : Int) (by omega) (by omega)
  have eh := toInt_of_range (h : Int) (by omega) (by omega)
  have ew := toInt_of_range (w : Int) (by omega) (by omega)
  have hout : (if direction then (k : Int) else (c : Int)) =
      (((if direction then k else c) : Nat) : Int) := by
    cases direction <;> rfl
  have hdev : (if handle.GetDeviceName = "gfx803" then (16 : Int) else 18) =
      (((if handle.GetDeviceName = "gfx803" then 16 else 18) : Nat) : Int) := by
    split_ifs <;> rfl
  have hmod : Int.tmod (ci : Int) 2 = ((ci % 2 : Nat) : Int) := natCast_tmod_natCast ci 2
  rw [IsWinograd3x3Supported_eq_true_iff]
  simp only [tienInt, TensorDescriptor.GetLengths, TensorDescriptor.GetType, ek, ec, efh, efw,
    en, eci, eh, ew, hout, hdev, hmod]
  generalize (if direction then k else c) = nout at hp2 ⊢
  generalize (if handle.GetDeviceName = "gfx803" then 16 else 18) = lo
  have q1 : toInt ((ci : Int) * (h : Int) * (w : Int)) = ((ci * h * w : Nat) : Int) := by
    have e : (ci : Int) * (h : Int) * (w : Int) = ((ci * h * w : Nat) : Int) := by push_cast; ring
    rw [e]
    exact toInt_of_range _ (by omega) (by omega)
  have q2 : toInt ((nout : Int) * (h : Int) * (w : Int)) = ((nout * h * w : Nat) : Int) := by
    have e : (nout : Int) * (h : Int) * (w : Int) = ((nout * h * w : Nat) : Int) := by
      push_cast; ring
    rw [e]
    exact toInt_of_range _ (by omega) (by omega)
  rw [q1, q2]
  clear ek ec efh efw en eci eh ew hout hdev hmod q1 q2 hk hc hfh hfw hn hci hh hw hp1 hp2
  constructor
  · rintro ⟨h1, h2, h3, h4, h5, h6, h7, h8, h9, h10, h11, h12, h13, h14, h15, h16, h17, h18, h19,
      h20, h21, h22, h23, h24⟩
    have g7 : fh = 3 := by exact_mod_cast h7
    have g8 : fw = 3 := by exact_mod_cast h8
    have g12 : ci < 2 ^ 16 := by exact_mod_cast h12
    have g13 : nout < 2 ^ 16 := by exact_mod_cast h13
    subst g7 g8
    rw [toInt_mul_nine ci g12] at h19
    rw [toInt_mul_nine nout g13] at h20
    exact ⟨h1, h2, h3, h4, h5, h6, rfl, rfl, h9, h10, by exact_mod_cast h11, g12, g13,
      by exact_mod_cast h14, by exact_mod_cast h15, h16, by exact_mod_cast h17,
      by exact_mod_cast h18, by exact_mod_cast h19, by exact_mod_cast h20,
      by exact_mod_cast h21, by exact_mod_cast h22, h23, h24⟩
  · rintro ⟨h1, h2, h3, h4, h5, h6, h7, h8, h9, h10, h11, h12, h13, h14, h15, h16, h17, h18, h19,
      h20, h21, h22, h23, h24⟩
    subst h7 h8
    rw [toInt_mul_nine ci h12, toInt_mul_nine nout h13]
    exact ⟨h1, h2, h3, h4, h5, h6, rfl, rfl, h9, h10, by exact_mod_cast h11,
      by exact_mod_cast h12, by exact_mod_cast h13, by exact_mod_cast h14,
      by exact_mod_cast h15, h16, by exact_mod_cast h17, by exact_mod_cast h18,
      by exact_mod_cast h19, by exact_mod_cast h20, by exact_mod_cast h21,
      by exact_mod_cast h22, h23, h24⟩

theorem IsWinograd3x3Supported_eq_error_iff (d : ConvolutionDescriptor) (env : Environment)
    (handle : Handle) (direction : Bool) (wDesc xDesc : TensorDescriptor) (e : Exception) :
    d.IsWinograd3x3Supported env handle direction wDesc xDesc = Except.error e ↔
      (env.precompiledBinariesDisabled = false ∧ d.mode = miopenConvolution ∧
        handle.attributeStatusIsSuccess = false ∧ e = handle.hipStatusException) := by
  unfold ConvolutionDescriptor.IsWinograd3x3Supported
  cases hdis : env.precompiledBinariesDisabled
  · by_cases hmode : d.mode = miopenConvolution
    · cases hs : handle.attributeStatusIsSuccess
      · simp [Handle.GetMaxComputeUnits, hs, hmode, eq_comm]
      · simp only [Handle.GetMaxComputeUnits, hs, hmode]
        split_ifs <;> simp
    · simp [hmode]
  · simp

/-- C19 as stated fails in four ways, on a Standard-mode descriptor with
padding 1 and stride 1, a 3x3 filter with 64 channels and 4-byte elements on
gfx900.  With a 2048x2048 input the product `n_inputs*H*W` is exactly `2 ^ 28`,
not below it, and the function returns `true`.  With an 8192x8192 input the
product is `2 ^ 32`, which the `int` product reduces to 0, and the function
returns `true`.  With a 56x56 input, where every condition of the claim holds,
a device reporting 65536 compute units gives `false`, and a device whose
attribute query fails gives an exception. -/
theorem C19_counterexample :
    (ConvolutionDescriptor.IsWinograd3x3Supported
        { mode := miopenConvolution, paddingMode := miopenPaddingDefault, pad_h := 1,
          pad_w := 1, u := 1, v := 1, dilation_h := 1, dilation_w := 1, group_count := 1 }
        plainEnvironment gfx900Handle true
        { type := miopenDataType_t.miopenFloat, lens := (64, 64, 3, 3) }
        { type := miopenDataType_t.miopenFloat, lens := (1, 64, 2048, 2048) } =
      Except.ok true ∧ ¬ (64 * 2048 * 2048 < 2 ^ 28)) ∧
    (ConvolutionDescriptor.IsWinograd3x3Supported
        { mode := miopenConvolution, paddingMode := miopenPaddingDefault, pad_h := 1,
          pad_w := 1, u := 1, v := 1, dilation_h := 1, dilation_w := 1, group_count := 1 }
        plainEnvironment gfx900Handle true
        { type := miopenDataType_t.miopenFloat, lens := (64, 64, 3, 3) }
        { type := miopenDataType_t.miopenFloat, lens := (1, 64, 8192, 8192) } =
      Except.ok true ∧ ¬ (64 * 8192 * 8192 ≤ 2 ^ 28)) ∧
    ConvolutionDescriptor.IsWinograd3x3Supported
        { mode := miopenConvolution, paddingMode := miopenPaddingDefault, pad_h := 1,
          pad_w := 1, u := 1, v := 1, dilation_h := 1, dilation_w := 1, group_count := 1 }
        plainEnvironment manyUnitsHandle true
        { type := miopenDataType_t.miopenFloat, lens := (64, 64, 3, 3) }
        { type := miopenDataType_t.miopenFloat, lens := (1, 64, 56, 56) } =
      Except.ok false ∧
    ConvolutionDescriptor.IsWinograd3x3Supported
        { mode := miopenConvolution, paddingMode := miopenPaddingDefault, pad_h := 1,
          pad_w := 1, u := 1, v := 1, dilation_h := 1, dilation_w := 1, group_count := 1 }
        plainEnvironment failingHandle true
        { type := miopenDataType_t.miopenFloat, lens := (64, 64, 3, 3) }
        { type := miopenDataType_t.miopenFloat, lens := (1, 64, 56, 56) } =
      Except.error
        { status := miopenStatus_t.miopenStatusUnknownError, message := "HIP error" } := by
  refine ⟨⟨?_, ?_⟩, ⟨?_, ?_⟩, ?_, ?_⟩ <;> decide

/-- C19 (amended): with precompiled binaries not disabled, all lengths below
`2 ^ 31` and the products `n_inputs*H*W` and `n_outputs*H*W` below `2 ^ 31`
(so that the `int` variables and products hold them unchanged),
`IsWinograd3x3Supported` returns `true` exactly when the mode is Standard,
`pad_h = pad_w = 1`, the filter is 3x3, `u = v = 1`, the device name is one of
gfx803, gfx900, gfx906, the batch size, the input channels, the output channels
(`filter_k` forward, `filter_c` backward), the input height and width are each
below `2 ^ 16`, the compute-unit query of the handle succeeds with a count
below `2 ^ 16`, each of the products `n_inputs*H*W`, `n_outputs*H*W`,
`n_inputs*3*3`, `n_outputs*3*3` is at most `2 ^ 28`, the input channel count is
even and at least 16 on gfx803 and 18 on the other devices, and the element
size of both tensors is 4 bytes. -/
theorem C19_winograd_eligibility (d : ConvolutionDescriptor) (env : Environment)
    (handle : Handle) (direction : Bool) (tw tx : miopenDataType_t)
    (k c fh fw n ci h w : Nat) (hdis : env.precompiledBinariesDisabled = false)
    (hlens : k < 2 ^ 31 ∧ c < 2 ^ 31 ∧ fh < 2 ^ 31 ∧ fw < 2 ^ 31 ∧ n < 2 ^ 31 ∧ ci < 2 ^ 31 ∧
      h < 2 ^ 31 ∧ w < 2 ^ 31)
    (hprod : ci * h * w < 2 ^ 31 ∧ (if direction then k else c) * h * w < 2 ^ 31) :
    d.IsWinograd3x3Supported env handle direction { type := tw, lens := (k, c, fh, fw) }
        { type := tx, lens := (n, ci, h, w) } = Except.ok true ↔
      (d.mode = miopenConvolution ∧ d.pad_h = 1 ∧ d.pad_w = 1 ∧ fh = 3 ∧ fw = 3 ∧
        d.u = 1 ∧ d.v = 1 ∧
        (handle.GetDeviceName = "gfx803" ∨ handle.GetDeviceName = "gfx900" ∨
          handle.GetDeviceName = "gfx906") ∧
        n < 2 ^ 16 ∧ ci < 2 ^ 16 ∧ (if direction then k else c) < 2 ^ 16 ∧ h < 2 ^ 16 ∧
        w < 2 ^ 16 ∧
        (∃ cu, handle.GetMaxComputeUnits = Except.ok cu ∧ cu < 2 ^ 16) ∧
        ci * h * w ≤ 2 ^ 28 ∧ (if direction then k else c) * h * w ≤ 2 ^ 28 ∧
        ci * 3 * 3 ≤ 2 ^ 28 ∧ (if direction then k else c) * 3 * 3 ≤ 2 ^ 28 ∧
        ci % 2 = 0 ∧ (if handle.GetDeviceName = "gfx803" then 16 else 18) ≤ ci ∧
        env.GetTypeSize tw = 4 ∧ env.GetTypeSize tx = 4) := by
  rw [IsWinograd3x3Supported_eq_true_iff_of_range d env handle direction tw tx k c fh fw n ci h w
    hlens hprod]
  constructor
  · rintro ⟨-, h2, h3, h4, h5, h6, h7, h8, h9, h10, h11, h12, h13, h14, h15, h16, h17, h18, h19,
      h20, h21, h22, h23, h24⟩
    subst h7 h8
    exact ⟨h2, h5, h6, rfl, rfl, h9, h10, h4, h11, h12, h13, h14, h15,
      ⟨_, (GetMaxComputeUnits_eq_ok_iff handle _).mpr ⟨h3, rfl⟩, h16⟩, h17, h18, h19, h20, h21,
      h22, h23, h24⟩
  · rintro ⟨h2, h5, h6, h7, h8, h9, h10, h4, h11, h12, h13, h14, h15, ⟨cu, hcu, h16⟩, h17, h18,
      h19, h20, h21, h22, h23, h24⟩
    subst h7 h8
    obtain ⟨h3, hcu2⟩ := (GetMaxComputeUnits_eq_ok_iff handle cu).mp hcu
    subst hcu2
    exact ⟨hdis, h2, h3, h4, h5, h6, rfl, rfl, h9, h10, h11, h12, h13, h14, h15, h16, h17, h18,
      h19, h20, h21, h22, h23, h24⟩

/-- C19 (amended), at a concrete input: a 3x3 filter with 64 channels and a
56x56 input on gfx900 with 64 compute units is eligible. -/
theorem C19_winograd_eligibility_witness :
    ConvolutionDescriptor.IsWinograd3x3Supported
        { mode := miopenConvolution, paddingMode := miopenPaddingDefault, pad_h := 1,
          pad_w := 1, u := 1, v := 1, dilation_h := 1, dilation_w := 1, group_count := 1 }
        plainEnvironment gfx900Handle true
        { type := miopenDataType_t.miopenFloat, lens := (64, 64, 3, 3) }
        { type := miopenDataType_t.miopenFloat, lens := (1, 64, 56, 56) } = Except.ok true :=
  (C19_winograd_eligibility
    { mode := miopenConvolution, paddingMode := miopenPaddingDefault, pad_h := 1,
      pad_w := 1, u := 1, v := 1, dilation_h := 1, dilation_w := 1, group_count := 1 }
    plainEnvironment gfx900Handle true miopenDataType_t.miopenFloat miopenDataType_t.miopenFloat
    64 64 3 3 1 64 56 56 rfl (by decide) (by decide)).mpr
    ⟨rfl, rfl, rfl, rfl, rfl, rfl, rfl, Or.inr (Or.inl rfl), by decide, by decide, by decide,
      by decide, by decide, ⟨64, by decide, by decide⟩, by decide, by decide, by decide,
      by decide, by decide, by decide, rfl, rfl⟩

theorem GetMaxComputeUnits_error_iff (handle : Handle) :
    (∃ e, handle.GetMaxComputeUnits = Except.error e) ↔
      handle.attributeStatusIsSuccess = false := by
  unfold Handle.GetMaxComputeUnits
  cases hs : handle.attributeStatusIsSuccess <;> simp

/-- What a `true` result of `IsWinograd3x3Supported` says about lengths below
`2 ^ 31`, apart from the products. -/
theorem IsWinograd3x3Supported_true_of_range (d : ConvolutionDescriptor) (env : Environment)
    (handle : Handle) (direction : Bool) (tw tx : miopenDataType_t)
    (k c fh fw n ci h w : Nat)
    (hlens : k < 2 ^ 31 ∧ c < 2 ^ 31 ∧ fh < 2 ^ 31 ∧ fw < 2 ^ 31 ∧ n < 2 ^ 31 ∧ ci < 2 ^ 31 ∧
      h < 2 ^ 31 ∧ w < 2 ^ 31)
    (hres : d.IsWinograd3x3Supported env handle direction { type := tw, lens := (k, c, fh, fw) }
        { type := tx, lens := (n, ci, h, w) } = Except.ok true) :
    d.mode = miopenConvolution ∧
      (handle.GetDeviceName = "gfx803" ∨ handle.GetDeviceName = "gfx900" ∨
        handle.GetDeviceName = "gfx906") ∧
      d.pad_h = 1 ∧ d.pad_w = 1 ∧ fh = 3 ∧ fw = 3 ∧ d.u = 1 ∧ d.v = 1 ∧
      n < 2 ^ 16 ∧ ci < 2 ^ 16 ∧ (if direction then k else c) < 2 ^ 16 ∧ h < 2 ^ 16 ∧
      w < 2 ^ 16 ∧ ci % 2 = 0 ∧ 16 ≤ ci ∧ env.GetTypeSize tw = 4 ∧ env.GetTypeSize tx = 4 := by
  obtain ⟨hk, hc, hfh, hfw, hn, hci, hh, hw⟩ := hlens
  have ek := toInt_of_range (k : Int) (by omega) (by omega)
  have ec := toInt_of_range (c : Int) (by omega) (by omega)
  have efh := toInt_of_range (fh : Int) (by omega) (by omega)
  have efw := toInt_of_range (fw : Int) (by omega) (by omega)
  have en := toInt_of_range (n : Int) (by omega) (by omega)
  have eci := toInt_of_range (ci : Int) (by omega) (by omega)
  have eh := toInt_of_range (h : Int) (by omega) (by omega)
  have ew := toInt_of_range (w : Int) (by omega) (by omega)
  have hout : (if direction then (k : Int) else (c : Int)) =
      (((if direction then k else c) : Nat) : Int) := by
    cases direction <;> rfl
  have hmod : Int.tmod (ci : Int) 2 = ((ci % 2 : Nat) : Int) := natCast_tmod_natCast ci 2
  have hc2 := (IsWinograd3x3Supported_eq_true_iff _ _ _ _ _ _).mp hres
  simp only [tienInt, TensorDescriptor.GetLengths, TensorDescriptor.GetType, ek, ec, efh, efw,
    en, eci, eh, ew, hout, hmod] at hc2
  obtain ⟨-, h2, -, h4, h5, h6, h7, h8, h9, h10, h11, h12, h13, h14, h15, -, -, -, -, -, h21,
    h22, h23, h24⟩ := hc2
  clear ek ec efh efw en eci eh ew hout hmod hres
  have h22b : (16 : Int) ≤ (ci : Int) := by
    split_ifs at h22 <;> omega
  exact ⟨h2, h4, h5, h6, by exact_mod_cast h7, by exact_mod_cast h8, h9, h10,
    by exact_mod_cast h11, by exact_mod_cast h12, by exact_mod_cast h13, by exact_mod_cast h14,
    by exact_mod_cast h15, by exact_mod_cast h21, by exact_mod_cast h22b, h23, h24⟩

/-- C20 as stated fails in two ways.  On a device whose attribute query does
not return `hipSuccess`, for a Standard-mode descriptor with stride 2 (a
violation named by the claim) the call leaves with the exception of
`GetMaxComputeUnits` instead of returning `false`.  And for the batch size
`2 ^ 32` (a violation named by the claim) the `int` variable holds 0 and the
call returns `true`. -/
theorem C20_counterexample :
    ConvolutionDescriptor.IsWinograd3x3Supported
        { mode := miopenConvolution, paddingMode := miopenPaddingDefault, pad_h := 1,
          pad_w := 1, u := 2, v := 2, dilation_h := 1, dilation_w := 1, group_count := 1 }
        plainEnvironment failingHandle true
        { type := miopenDataType_t.miopenFloat, lens := (64, 64, 3, 3) }
        { type := miopenDataType_t.miopenFloat, lens := (1, 64, 56, 56) } =
      Except.error
        { status := miopenStatus_t.miopenStatusUnknownError, message := "HIP error" } ∧
    ConvolutionDescriptor.IsWinograd3x3Supported
        { mode := miopenConvolution, paddingMode := miopenPaddingDefault, pad_h := 1,
          pad_w := 1, u := 2, v := 2, dilation_h := 1, dilation_w := 1, group_count := 1 }
        plainEnvironment failingHandle true
        { type := miopenDataType_t.miopenFloat, lens := (64, 64, 3, 3) }
        { type := miopenDataType_t.miopenFloat, lens := (1, 64, 56, 56) } ≠
      Except.ok false ∧
    (ConvolutionDescriptor.IsWinograd3x3Supported
        { mode := miopenConvolution, paddingMode := miopenPaddingDefault, pad_h := 1,
          pad_w := 1, u := 1, v := 1, dilation_h := 1, dilation_w := 1, group_count := 1 }
        plainEnvironment gfx900Handle true
        { type := miopenDataType_t.miopenFloat, lens := (64, 64, 3, 3) }
        { type := miopenDataType_t.miopenFloat, lens := (4294967296, 64, 56, 56) } =
      Except.ok true ∧ 2 ^ 16 ≤ 4294967296) := by
  refine ⟨?_, ?_, ?_, ?_⟩ <;> decide

/-- C20 (amended): for lengths below `2 ^ 31` (which the `int` variables hold
unchanged), when any one of the listed violations holds (mode not Standard;
`pad_h` or `pad_w` not 1; filter height or width not 3; `u` or `v` not 1;
device name not in gfx803, gfx900, gfx906; input channel count odd or below 16;
weight or input element size not 4 bytes; batch, input or output channels,
height or width at least `2 ^ 16`), `IsWinograd3x3Supported` returns `false`
provided precompiled binaries are disabled, or the mode is not Standard, or the
compute-unit query of the handle succeeds; the call raises exactly when
precompiled binaries are enabled, the mode is Standard and that query fails. -/
theorem C20_winograd_ineligible (d : ConvolutionDescriptor) (env : Environment)
    (handle : Handle) (direction : Bool) (tw tx : miopenDataType_t)
    (k c fh fw n ci h w : Nat)
    (hlens : k < 2 ^ 31 ∧ c < 2 ^ 31 ∧ fh < 2 ^ 31 ∧ fw < 2 ^ 31 ∧ n < 2 ^ 31 ∧ ci < 2 ^ 31 ∧
      h < 2 ^ 31 ∧ w < 2 ^ 31)
    (hviol : d.mode ≠ miopenConvolution ∨ d.pad_h ≠ 1 ∨ d.pad_w ≠ 1 ∨ fh ≠ 3 ∨ fw ≠ 3 ∨
      d.u ≠ 1 ∨ d.v ≠ 1 ∨
      ¬ (handle.GetDeviceName = "gfx803" ∨ handle.GetDeviceName = "gfx900" ∨
        handle.GetDeviceName = "gfx906") ∨
      ci % 2 = 1 ∨ ci < 16 ∨ env.GetTypeSize tw ≠ 4 ∨ env.GetTypeSize tx ≠ 4 ∨
      2 ^ 16 ≤ n ∨ 2 ^ 16 ≤ ci ∨ 2 ^ 16 ≤ (if direction then k else c) ∨ 2 ^ 16 ≤ h ∨
      2 ^ 16 ≤ w) :
    ((env.precompiledBinariesDisabled = true ∨ d.mode ≠ miopenConvolution ∨
        (∃ cu, handle.GetMaxComputeUnits = Except.ok cu)) →
      d.IsWinograd3x3Supported env handle direction { type := tw, lens := (k, c, fh, fw) }
        { type := tx, lens := (n, ci, h, w) } = Except.ok false) ∧
    ((∃ e, d.IsWinograd3x3Supported env handle direction
        { type := tw, lens := (k, c, fh, fw) } { type := tx, lens := (n, ci, h, w) } =
          Except.error e) ↔
      (env.precompiledBinariesDisabled = false ∧ d.mode = miopenConvolution ∧
        ∃ e, handle.GetMaxComputeUnits = Except.error e)) := by
  constructor
  · intro hsafe
    cases hres : d.IsWinograd3x3Supported env handle direction
        { type := tw, lens := (k, c, fh, fw) } { type := tx, lens := (n, ci, h, w) } with
    | error e =>
      exfalso
      obtain ⟨h1, h2, h3, -⟩ := (IsWinograd3x3Supported_eq_error_iff _ _ _ _ _ _ _).mp hres
      rcases hsafe with hs | hs | ⟨cu, hs⟩
      · rw [h1] at hs
        cases hs
      · exact hs h2
      · have := ((GetMaxComputeUnits_eq_ok_iff handle cu).mp hs).1
        rw [h3] at this
        cases this
    | ok b =>
      cases b with
      | false => rfl
      | true =>
        exfalso
        obtain ⟨h2, h4, h5, h6, h7, h8, h9, h10, h11, h12, h13, h14, h15, h21, h22, h23, h24⟩ :=
          IsWinograd3x3Supported_true_of_range d env handle direction tw tx k c fh fw n ci h w
            hlens hres
        clear hlens hres hsafe
        generalize (if direction then k else c) = nout at hviol h13
        rcases hviol with v | v | v | v | v | v | v | v | v | v | v | v | v | v | v | v | v
        · exact v h2
        · exact v h5
        · exact v h6
        · exact v h7
        · exact v h8
        · exact v h9
        · exact v h10
        · exact v h4
        · omega
        · omega
        · exact v h23
        · exact v h24
        · omega
        · omega
        · omega
        · omega
        · omega
  · constructor
    · rintro ⟨e, he⟩
      obtain ⟨h1, h2, h3, -⟩ := (IsWinograd3x3Supported_eq_error_iff _ _ _ _ _ _ _).mp he
      exact ⟨h1, h2, (GetMaxComputeUnits_error_iff handle).mpr h3⟩
    · rintro ⟨h1, h2, h3⟩
      exact ⟨_, (IsWinograd3x3Supported_eq_error_iff _ _ _ _ _ _ _).mpr
        ⟨h1, h2, (GetMaxComputeUnits_error_iff handle).mp h3, rfl⟩⟩

/-- C20 (amended), at a concrete input: stride 2 on a gfx900 device whose
query succeeds gives `false`. -/
theorem C20_winograd_ineligible_witness :
    ConvolutionDescriptor.IsWinograd3x3Supported
        { mode := miopenConvolution, paddingMode := miopenPaddingDefault, pad_h := 1,
          pad_w := 1, u := 2, v := 2, dilation_h := 1, dilation_w := 1, group_count := 1 }
        plainEnvironment gfx900Handle true
        { type := miopenDataType_t.miopenFloat, lens := (64, 64, 3, 3) }
        { type := miopenDataType_t.miopenFloat, lens := (1, 64, 56, 56) } = Except.ok false :=
  (C20_winograd_ineligible
    { mode := miopenConvolution, paddingMode := miopenPaddingDefault, pad_h := 1,
      pad_w := 1, u := 2, v := 2, dilation_h := 1, dilation_w := 1, group_count := 1 }
    plainEnvironment gfx900Handle true miopenDataType_t.miopenFloat miopenDataType_t.miopenFloat
    64 64 3 3 1 64 56 56 (by decide)
    (Or.inr (Or.inr (Or.inr (Or.inr (Or.inr (Or.inl (by decide)))))))).1
    (Or.inr (Or.inr ⟨64, by decide⟩))

/-! ## The workspace planner: the Winograd short-circuit -/

/-- C18 as stated fails for a dilation above 1 when the matrix-multiply family
is compiled in: for a Standard-mode descriptor with padding 1, stride 1 and
dilation 2, a 3x3 filter with 64 channels, a 56x56 input and a 54x54 output on
gfx900, `IsWinograd3x3Supported` returns `true` in both directions, yet both
planners return the 6718464 bytes of the matrix-multiply family. -/
theorem C18_counterexample :
    ConvolutionDescriptor.IsWinograd3x3Supported
        { mode := miopenConvolution, paddingMode := miopenPaddingDefault, pad_h := 1,
          pad_w := 1, u := 1, v := 1, dilation_h := 2, dilation_w := 2, group_count := 1 }
        plainEnvironment gfx900Handle true
        { type := miopenDataType_t.miopenFloat, lens := (64, 64, 3, 3) }
        { type := miopenDataType_t.miopenFloat, lens := (1, 64, 56, 56) } = Except.ok true ∧
    ConvolutionDescriptor.ForwardGetWorkSpaceSize
        { mode := miopenConvolution, paddingMode := miopenPaddingDefault, pad_h := 1,
          pad_w := 1, u := 1, v := 1, dilation_h := 2, dilation_w := 2, group_count := 1 }
        plainEnvironment gfx900Handle
        { type := miopenDataType_t.miopenFloat, lens := (64, 64, 3, 3) }
        { type := miopenDataType_t.miopenFloat, lens := (1, 64, 56, 56) }
        { type := miopenDataType_t.miopenFloat, lens := (1, 64, 54, 54) } =
      Except.ok 6718464 ∧
    ConvolutionDescriptor.IsWinograd3x3Supported
        { mode := miopenConvolution, paddingMode := miopenPaddingDefault, pad_h := 1,
          pad_w := 1, u := 1, v := 1, dilation_h := 2, dilation_w := 2, group_count := 1 }
        plainEnvironment gfx900Handle false
        { type := miopenDataType_t.miopenFloat, lens := (64, 64, 3, 3) }
        { type := miopenDataType_t.miopenFloat, lens := (1, 64, 54, 54) } = Except.ok true ∧
    ConvolutionDescriptor.BackwardDataGetWorkSpaceSize
        { mode := miopenConvolution, paddingMode := miopenPaddingDefault, pad_h := 1,
          pad_w := 1, u := 1, v := 1, dilation_h := 2, dilation_w := 2, group_count := 1 }
        plainEnvironment gfx900Handle
        { type := miopenDataType_t.miopenFloat, lens := (64, 64, 3, 3) }
        { type := miopenDataType_t.miopenFloat, lens := (1, 64, 54, 54) }
        { type := miopenDataType_t.miopenFloat, lens := (1, 64, 56, 56) } =
      Except.ok 6718464 := by
  refine ⟨?_, ?_, ?_, ?_⟩ <;> decide

/-- C18 (amended): when the matrix-multiply family is not compiled in, or both
dilations are at most 1, and the mode is not Grouped or Depthwise, then
`ForwardGetWorkSpaceSize` returns 0 whenever `IsWinograd3x3Supported` returns
`true` for the weight and input tensors, and `BackwardDataGetWorkSpaceSize`
returns 0 whenever it returns `true` for the weight and output-gradient
tensors, whatever the direct, matrix-multiply and transform-domain families
would require. -/
theorem C18_winograd_short_circuit (d : ConvolutionDescriptor) (env : Environment)
    (handle : Handle) (wDesc : TensorDescriptor)
    (hmode : ¬ (d.mode = miopenGroupConv ∨ d.mode = miopenDepthwise))
    (hdil : env.MIOPEN_USE_GEMM = false ∨ (d.dilation_h ≤ 1 ∧ d.dilation_w ≤ 1)) :
    (∀ xDesc yDesc : TensorDescriptor,
      d.IsWinograd3x3Supported env handle true wDesc xDesc = Except.ok true →
      d.ForwardGetWorkSpaceSize env handle wDesc xDesc yDesc = Except.ok 0) ∧
    (∀ dyDesc dxDesc : TensorDescriptor,
      d.IsWinograd3x3Supported env handle false wDesc dyDesc = Except.ok true →
      d.BackwardDataGetWorkSpaceSize env handle wDesc dyDesc dxDesc = Except.ok 0) := by
  have hdil2 : ¬ (env.MIOPEN_USE_GEMM = true ∧ (d.dilation_w > 1 ∨ d.dilation_h > 1)) := by
    rintro ⟨h1, h2⟩
    rcases hdil with h3 | ⟨h3, h4⟩
    · rw [h1] at h3
      cases h3
    · omega
  constructor
  · intro xDesc yDesc hw
    have hc := (IsWinograd3x3Supported_eq_true_iff _ _ _ _ _ _).mp hw
    obtain ⟨-, h2, -, -, -, -, h7, -⟩ := hc
    have hfh : ¬ ((tienInt wDesc).2.2.1 = 1) := by
      rw [h7]
      decide
    have hnt : ¬ (d.mode = miopenTranspose) := by
      rw [h2]
      decide
    simp only [ConvolutionDescriptor.ForwardGetWorkSpaceSize, if_neg hnt, hfh, false_and,
      and_false, if_false, if_neg hdil2, hw, decide_eq_false hmode]
    rfl
  · intro dyDesc dxDesc hw
    have hc := (IsWinograd3x3Supported_eq_true_iff _ _ _ _ _ _).mp hw
    obtain ⟨-, h2, -, -, -, -, h7, -⟩ := hc
    have hfh : ¬ ((tienInt wDesc).2.2.1 = 1) := by
      rw [h7]
      decide
    have hnt : ¬ (d.mode = miopenTranspose) := by
      rw [h2]
      decide
    simp only [ConvolutionDescriptor.BackwardDataGetWorkSpaceSize, if_neg hnt, hfh, false_and,
      and_false, if_false, if_neg hdil2, hw, decide_eq_false hmode]
    rfl

/-- C18 (amended), at a concrete input: the eligible problem with dilation 1,
a 56x56 input and a 56x56 output needs no workspace in both directions. -/
theorem C18_winograd_short_circuit_witness :
    ConvolutionDescriptor.ForwardGetWorkSpaceSize
        { mode := miopenConvolution, paddingMode := miopenPaddingDefault, pad_h := 1,
          pad_w := 1, u := 1, v := 1, dilation_h := 1, dilation_w := 1, group_count := 1 }
        plainEnvironment gfx900Handle
        { type := miopenDataType_t.miopenFloat, lens := (64, 64, 3, 3) }
        { type := miopenDataType_t.miopenFloat, lens := (1, 64, 56, 56) }
        { type := miopenDataType_t.miopenFloat, lens := (1, 64, 56, 56) } = Except.ok 0 ∧
    ConvolutionDescriptor.BackwardDataGetWorkSpaceSize
        { mode := miopenConvolution, paddingMode := miopenPaddingDefault, pad_h := 1,
          pad_w := 1, u := 1, v := 1, dilation_h := 1, dilation_w := 1, group_count := 1 }
        plainEnvironment gfx900Handle
        { type := miopenDataType_t.miopenFloat, lens := (64, 64, 3, 3) }
        { type := miopenDataType_t.miopenFloat, lens := (1, 64, 56, 56) }
        { type := miopenDataType_t.miopenFloat, lens := (1, 64, 56, 56) } = Except.ok 0 :=
  ⟨(C18_winograd_short_circuit
      { mode := miopenConvolution, paddingMode := miopenPaddingDefault, pad_h := 1,
        pad_w := 1, u := 1, v := 1, dilation_h := 1, dilation_w := 1, group_count := 1 }
      plainEnvironment gfx900Handle
      { type := miopenDataType_t.miopenFloat, lens := (64, 64, 3, 3) }
      (by decide) (Or.inr (by decide))).1 _ _ (by decide),
    (C18_winograd_short_circuit
      { mode := miopenConvolution, paddingMode := miopenPaddingDefault, pad_h := 1,
        pad_w := 1, u := 1, v := 1, dilation_h := 1, dilation_w := 1, group_count := 1 }
      plainEnvironment gfx900Handle
      { type := miopenDataType_t.miopenFloat, lens := (64, 64, 3, 3) }
      (by decide) (Or.inr (by decide))).2 _ _ (by decide)⟩

/-! ## The workspace planner: the maximum over the families -/

theorem groups_scaled_of_no_overflow (groups g : Nat) (h : groups * g < SIZE_MOD) :
    (toSizeT (groups : Int) * g) % SIZE_MOD = groups * g := by
  have e : toSizeT (groups : Int) = groups % SIZE_MOD := by
    unfold toSizeT SIZE_MOD
    have : ((groups : Int) % (2 ^ 64 : Int)) = ((groups % 2 ^ 64 : Nat) : Int) := by
      push_cast
      rfl
    rw [this]
    exact Int.toNat_natCast _
  rw [e, Nat.mod_mul_mod, Nat.mod_eq_of_lt h]

theorem IsWinograd3x3Supported_of_grouped (d : ConvolutionDescriptor) (env : Environment)
    (handle : Handle) (direction : Bool) (wDesc xDesc : TensorDescriptor)
    (h : d.mode = miopenGroupConv ∨ d.mode = miopenDepthwise) :
    d.IsWinograd3x3Supported env handle direction wDesc xDesc = Except.ok false := by
  have hne : d.mode ≠ miopenConvolution := by
    rcases h with h | h <;> rw [h] <;> decide
  unfold ConvolutionDescriptor.IsWinograd3x3Supported
  cases env.precompiledBinariesDisabled <;> simp [hne]

/-- C21: in a mode other than Transposed with the matrix-multiply family
compiled in, when the transpose-layout condition fails, both dilations are 1
and `IsWinograd3x3Supported` returns `false` (as it does in Grouped and
Depthwise mode), `ForwardGetWorkSpaceSize` returns
`max(max(fft, groups * ForwardGetWorkSpaceSizeGEMM(w, y)), direct)`, with
`groups` the input channel count in Depthwise mode, `group_count` in Grouped
mode and 1 otherwise (the product taken without wrap-around), and the result is
at least each of the three contributions; `BackwardDataGetWorkSpaceSize` does
the same with `BackwardDataGetWorkSpaceSizeGEMM(w, dy)`, its own
transpose-layout condition and the channel count of `dx`. -/
theorem C21_fallback_maximum (d : ConvolutionDescriptor) (env : Environment)
    (handle : Handle) (wDesc xDesc yDesc : TensorDescriptor) (groups : Nat)
    (hmode : d.mode ≠ miopenTranspose) (hgemm : env.MIOPEN_USE_GEMM = true)
    (hdh : d.dilation_h = 1) (hdw : d.dilation_w = 1)
    (hgroups : (groups : Int) =
      if d.mode = miopenDepthwise then (tienInt xDesc).2.1
      else if d.mode = miopenGroupConv then d.group_count else 1) :
    (¬ (((tienInt wDesc).2.2.1 = 1 ∧ (tienInt wDesc).2.2.2 = 1 ∧ d.pad_h = 0 ∧ d.pad_w = 0) ∧
        (((tienInt xDesc).2.2.1 ≤ 14 ∧ (tienInt xDesc).2.2.2 ≤ 14 ∧ d.u = 1 ∧ d.v = 1) ∨
          (d.u = 2 ∧ d.v = 2))) →
      (d.IsWinograd3x3Supported env handle true wDesc xDesc = Except.ok false ∨
        d.mode = miopenGroupConv ∨ d.mode = miopenDepthwise) →
      groups * d.ForwardGetWorkSpaceSizeGEMM env handle wDesc yDesc < SIZE_MOD →
      d.ForwardGetWorkSpaceSize env handle wDesc xDesc yDesc =
          Except.ok (max (max (env.ForwardGetWorkSpaceSizeFFT d wDesc xDesc yDesc)
            (groups * d.ForwardGetWorkSpaceSizeGEMM env handle wDesc yDesc))
            (d.ForwardBackwardDataGetWorkSpaceSizeDirect env handle xDesc yDesc wDesc 1)) ∧
        ∀ r, d.ForwardGetWorkSpaceSize env handle wDesc xDesc yDesc = Except.ok r →
          env.ForwardGetWorkSpaceSizeFFT d wDesc xDesc yDesc ≤ r ∧
          groups * d.ForwardGetWorkSpaceSizeGEMM env handle wDesc yDesc ≤ r ∧
          d.ForwardBackwardDataGetWorkSpaceSizeDirect env handle xDesc yDesc wDesc 1 ≤ r) ∧
    (¬ ((tienInt wDesc).2.2.1 = 1 ∧ (tienInt wDesc).2.2.2 = 1 ∧ d.pad_h = 0 ∧ d.pad_w = 0 ∧
        (d.u = 2 ∧ d.v = 2)) →
      (d.IsWinograd3x3Supported env handle false wDesc yDesc = Except.ok false ∨
        d.mode = miopenGroupConv ∨ d.mode = miopenDepthwise) →
      groups * d.BackwardDataGetWorkSpaceSizeGEMM env handle wDesc yDesc < SIZE_MOD →
      d.BackwardDataGetWorkSpaceSize env handle wDesc yDesc xDesc =
          Except.ok (max (max (env.BackwardGetWorkSpaceSizeFFT d wDesc yDesc xDesc)
            (groups * d.BackwardDataGetWorkSpaceSizeGEMM env handle wDesc yDesc))
            (d.ForwardBackwardDataGetWorkSpaceSizeDirect env handle xDesc yDesc wDesc 0)) ∧
        ∀ r, d.BackwardDataGetWorkSpaceSize env handle wDesc yDesc xDesc = Except.ok r →
          env.BackwardGetWorkSpaceSizeFFT d wDesc yDesc xDesc ≤ r ∧
          groups * d.BackwardDataGetWorkSpaceSizeGEMM env handle wDesc yDesc ≤ r ∧
          d.ForwardBackwardDataGetWorkSpaceSizeDirect env handle xDesc yDesc wDesc 0 ≤ r) := by
  have hdil : ¬ (d.dilation_w > 1 ∨ d.dilation_h > 1) := by omega
  constructor
  · intro hcond hw hfit
    have hwino : d.IsWinograd3x3Supported env handle true wDesc xDesc = Except.ok false := by
      rcases hw with h | h
      · exact h
      · exact IsWinograd3x3Supported_of_grouped d env handle true wDesc xDesc h
    have e : d.ForwardGetWorkSpaceSize env handle wDesc xDesc yDesc =
        Except.ok (max (max (env.ForwardGetWorkSpaceSizeFFT d wDesc xDesc yDesc)
          (groups * d.ForwardGetWorkSpaceSizeGEMM env handle wDesc yDesc))
          (d.ForwardBackwardDataGetWorkSpaceSizeDirect env handle xDesc yDesc wDesc 1)) := by
      simp only [ConvolutionDescriptor.ForwardGetWorkSpaceSize, if_neg hmode, hgemm, true_and,
        if_neg hcond, if_neg hdil, hwino, Bool.false_and, if_true, ← hgroups,
        groups_scaled_of_no_overflow groups _ hfit]
      rfl
    refine ⟨e, ?_⟩
    intro r hr
    rw [e] at hr
    injection hr with hr
    omega
  · intro hcond hw hfit
    have hwino : d.IsWinograd3x3Supported env handle false wDesc yDesc = Except.ok false := by
      rcases hw with h | h
      · exact h
      · exact IsWinograd3x3Supported_of_grouped d env handle false wDesc yDesc h
    have e : d.BackwardDataGetWorkSpaceSize env handle wDesc yDesc xDesc =
        Except.ok (max (max (env.BackwardGetWorkSpaceSizeFFT d wDesc yDesc xDesc)
          (groups * d.BackwardDataGetWorkSpaceSizeGEMM env handle wDesc yDesc))
          (d.ForwardBackwardDataGetWorkSpaceSizeDirect env handle xDesc yDesc wDesc 0)) := by
      simp only [ConvolutionDescriptor.BackwardDataGetWorkSpaceSize, if_neg hmode, hgemm,
        true_and, if_neg hcond, if_neg hdil, hwino, Bool.false_and, if_true, ← hgroups,
        groups_scaled_of_no_overflow groups _ hfit]
      rfl
    refine ⟨e, ?_⟩
    intro r hr
    rw [e] at hr
    injection hr with hr
    omega

/-- C21, at a concrete input: a Grouped-mode problem with two groups, a 3x3
filter of 8 input channels per group and an 8x8 output, where the
transform-domain family asks for 8192 bytes, the direct family for 4096 and the
matrix-multiply family for 2 * 18432. -/
theorem C21_fallback_maximum_witness :
    ConvolutionDescriptor.ForwardGetWorkSpaceSize
        { mode := miopenGroupConv, paddingMode := miopenPaddingDefault, pad_h := 1,
          pad_w := 1, u := 1, v := 1, dilation_h := 1, dilation_w := 1, group_count := 2 }
        busyEnvironment gfx900Handle
        { type := miopenDataType_t.miopenFloat, lens := (32, 8, 3, 3) }
        { type := miopenDataType_t.miopenFloat, lens := (1, 16, 8, 8) }
        { type := miopenDataType_t.miopenFloat, lens := (1, 32, 8, 8) } = Except.ok 36864 ∧
    ConvolutionDescriptor.BackwardDataGetWorkSpaceSize
        { mode := miopenGroupConv, paddingMode := miopenPaddingDefault, pad_h := 1,
          pad_w := 1, u := 1, v := 1, dilation_h := 1, dilation_w := 1, group_count := 2 }
        busyEnvironment gfx900Handle
        { type := miopenDataType_t.miopenFloat, lens := (32, 8, 3, 3) }
        { type := miopenDataType_t.miopenFloat, lens := (1, 32, 8, 8) }
        { type := miopenDataType_t.miopenFloat, lens := (1, 16, 8, 8) } = Except.ok 36864 :=
  ⟨((C21_fallback_maximum
        { mode := miopenGroupConv, paddingMode := miopenPaddingDefault, pad_h := 1,
          pad_w := 1, u := 1, v := 1, dilation_h := 1, dilation_w := 1, group_count := 2 }
        busyEnvironment gfx900Handle
        { type := miopenDataType_t.miopenFloat, lens := (32, 8, 3, 3) }
        { type := miopenDataType_t.miopenFloat, lens := (1, 16, 8, 8) }
        { type := miopenDataType_t.miopenFloat, lens := (1, 32, 8, 8) } 2 (by decide) rfl rfl rfl (by decide)).1
      (by decide) (Or.inr (Or.inl rfl)) (by decide)).1.trans (by decide),
    ((C21_fallback_maximum
        { mode := miopenGroupConv, paddingMode := miopenPaddingDefault, pad_h := 1,
          pad_w := 1, u := 1, v := 1, dilation_h := 1, dilation_w := 1, group_count := 2 }
        busyEnvironment gfx900Handle
        { type := miopenDataType_t.miopenFloat, lens := (32, 8, 3, 3) }
        { type := miopenDataType_t.miopenFloat, lens := (1, 16, 8, 8) }
        { type := miopenDataType_t.miopenFloat, lens := (1, 32, 8, 8) } 2 (by decide) rfl rfl rfl (by decide)).2
      (by decide) (Or.inr (Or.inl rfl)) (by decide)).1.trans (by decide)⟩

/-! ## Workspace of the direct family -/

theorem foldl_largest_spec (ss : List ConvSolution) (a : Nat) :
    a ≤ ss.foldl (fun sz solution =>
        if sz < solution.workspce_sz then solution.workspce_sz else sz) a ∧
    (∀ s ∈ ss, s.workspce_sz ≤ ss.foldl (fun sz solution =>
        if sz < solution.workspce_sz then solution.workspce_sz else sz) a) ∧
    (ss.foldl (fun sz solution =>
        if sz < solution.workspce_sz then solution.workspce_sz else sz) a = a ∨
      ∃ s ∈ ss, ss.foldl (fun sz solution =>
        if sz < solution.workspce_sz then solution.workspce_sz else sz) a = s.workspce_sz) := by
  induction ss generalizing a with
  | nil => simp
  | cons x xs ih =>
    simp only [List.foldl_cons, List.mem_cons]
    obtain ⟨h1, h2, h3⟩ := ih (if a < x.workspce_sz then x.workspce_sz else a)
    refine ⟨?_, ?_, ?_⟩
    · by_cases hlt : a < x.workspce_sz
      · rw [if_pos hlt] at h1 ⊢
        omega
      · rw [if_neg hlt] at h1 ⊢
        omega
    · rintro s (rfl | hs)
      · by_cases hlt : a < s.workspce_sz
        · rw [if_pos hlt] at h1 ⊢
          omega
        · rw [if_neg hlt] at h1 ⊢
          omega
      · exact h2 s hs
    · rcases h3 with h3 | ⟨s, hs, h3⟩
      · by_cases hlt : a < x.workspce_sz
        · right
          refine ⟨x, Or.inl rfl, ?_⟩
          rw [h3, if_pos hlt]
        · left
          rw [h3, if_neg hlt]
      · right
        exact ⟨s, Or.inr hs, h3⟩

theorem largestWorkspace_spec (ss : List ConvSolution) :
    (∀ s ∈ ss, s.workspce_sz ≤ largestWorkspace ss) ∧
    (ss = [] → largestWorkspace ss = 0) ∧
    ((∃ s ∈ ss, 0 < s.workspce_sz) → ∃ s ∈ ss, largestWorkspace ss = s.workspce_sz) := by
  obtain ⟨-, h2, h3⟩ := foldl_largest_spec ss 0
  refine ⟨h2, ?_, ?_⟩
  · rintro rfl
    rfl
  · rintro ⟨s, hs, hpos⟩
    rcases h3 with h3 | h3
    · have := h2 s hs
      omega
    · exact h3

/-- C22: `ForwardBackwardDataGetWorkSpaceSizeDirect` (when the direct family is
supported and not disabled) and `BackwardWeightsGetWorkSpaceSizeDirect` return
the largest `workspce_sz` among the solutions that `FindAllSolutions`
enumerates: 0 for an empty list, at least every solution's requirement, and
equal to one of them when some solution requires a positive amount; both
return 0 when the enumeration throws, and the forward/backward-data function
returns 0 when `IsDirectSupported(w)` is false or the direct family is
disabled.  Both functions are total: they return a size and never an
exception. -/
theorem C22_direct_family_largest (d : ConvolutionDescriptor) (env : Environment)
    (handle : Handle) (xDesc yDesc wDesc : TensorDescriptor) (direction : Int) :
    (∀ ss, d.IsDirectSupported wDesc = true → env.convDirectDisabled = false →
      env.FindAllSolutions
        { xDesc := xDesc, wDesc := wDesc, yDesc := yDesc, conv := d, direction := direction,
          doSearch := false, stream := handle, workaroundDisableSearchEnforce := true } =
        Except.ok ss →
      d.ForwardBackwardDataGetWorkSpaceSizeDirect env handle xDesc yDesc wDesc direction =
        largestWorkspace ss ∧
      (∀ s ∈ ss, s.workspce_sz ≤
        d.ForwardBackwardDataGetWorkSpaceSizeDirect env handle xDesc yDesc wDesc direction) ∧
      (ss = [] →
        d.ForwardBackwardDataGetWorkSpaceSizeDirect env handle xDesc yDesc wDesc direction = 0) ∧
      ((∃ s ∈ ss, 0 < s.workspce_sz) → ∃ s ∈ ss,
        d.ForwardBackwardDataGetWorkSpaceSizeDirect env handle xDesc yDesc wDesc direction =
          s.workspce_sz)) ∧
    (∀ e, env.FindAllSolutions
        { xDesc := xDesc, wDesc := wDesc, yDesc := yDesc, conv := d, direction := direction,
          doSearch := false, stream := handle, workaroundDisableSearchEnforce := true } =
        Except.error e →
      d.ForwardBackwardDataGetWorkSpaceSizeDirect env handle xDesc yDesc wDesc direction = 0) ∧
    ((d.IsDirectSupported wDesc = false ∨ env.convDirectDisabled = true) →
      d.ForwardBackwardDataGetWorkSpaceSizeDirect env handle xDesc yDesc wDesc direction = 0) ∧
    (∀ ss, env.FindAllSolutionsBwdWrW
        { xDesc := xDesc, dwDesc := wDesc, dyDesc := yDesc, conv := d, direction := 0,
          doSearch := false, stream := handle, workaroundDisableSearchEnforce := true } =
        Except.ok ss →
      d.BackwardWeightsGetWorkSpaceSizeDirect env handle yDesc xDesc wDesc =
        largestWorkspace ss ∧
      (∀ s ∈ ss, s.workspce_sz ≤
        d.BackwardWeightsGetWorkSpaceSizeDirect env handle yDesc xDesc wDesc) ∧
      (ss = [] → d.BackwardWeightsGetWorkSpaceSizeDirect env handle yDesc xDesc wDesc = 0) ∧
      ((∃ s ∈ ss, 0 < s.workspce_sz) → ∃ s ∈ ss,
        d.BackwardWeightsGetWorkSpaceSizeDirect env handle yDesc xDesc wDesc =
          s.workspce_sz)) ∧
    (∀ e, env.FindAllSolutionsBwdWrW
        { xDesc := xDesc, dwDesc := wDesc, dyDesc := yDesc, conv := d, direction := 0,
          doSearch := false, stream := handle, workaroundDisableSearchEnforce := true } =
        Except.error e →
      d.BackwardWeightsGetWorkSpaceSizeDirect env handle yDesc xDesc wDesc = 0) := by
  refine ⟨?_, ?_, ?_, ?_, ?_⟩
  · intro ss hsup hdis hss
    have e : d.ForwardBackwardDataGetWorkSpaceSizeDirect env handle xDesc yDesc wDesc
        direction = largestWorkspace ss := by
      simp only [ConvolutionDescriptor.ForwardBackwardDataGetWorkSpaceSizeDirect, hsup, hdis,
        hss]
      rfl
    rw [e]
    exact ⟨rfl, largestWorkspace_spec ss⟩
  · intro e he
    unfold ConvolutionDescriptor.ForwardBackwardDataGetWorkSpaceSizeDirect
    split_ifs
    · rfl
    · simp only [he]
  · intro h
    unfold ConvolutionDescriptor.ForwardBackwardDataGetWorkSpaceSizeDirect
    rw [if_pos]
    rcases h with h | h <;> simp [h]
  · intro ss hss
    have e : d.BackwardWeightsGetWorkSpaceSizeDirect env handle yDesc xDesc wDesc =
        largestWorkspace ss := by
      simp only [ConvolutionDescriptor.BackwardWeightsGetWorkSpaceSizeDirect, hss]
    rw [e]
    exact ⟨rfl, largestWorkspace_spec ss⟩
  · intro e he
    simp only [ConvolutionDescriptor.BackwardWeightsGetWorkSpaceSizeDirect, he]

/-- C22, at concrete inputs: with solutions of 1024, 4096 and 0 bytes both
functions return 4096, and both return 0 when the enumeration throws. -/
theorem C22_direct_family_largest_witness :
    ConvolutionDescriptor.ForwardBackwardDataGetWorkSpaceSizeDirect
        { mode := miopenConvolution, paddingMode := miopenPaddingDefault, pad_h := 1,
          pad_w := 1, u := 1, v := 1, dilation_h := 1, dilation_w := 1, group_count := 1 }
        busyEnvironment gfx900Handle
        { type := miopenDataType_t.miopenFloat, lens := (1, 16, 8, 8) }
        { type := miopenDataType_t.miopenFloat, lens := (1, 32, 8, 8) }
        { type := miopenDataType_t.miopenFloat, lens := (32, 16, 3, 3) } 1 = 4096 ∧
    ConvolutionDescriptor.ForwardBackwardDataGetWorkSpaceSizeDirect
        { mode := miopenConvolution, paddingMode := miopenPaddingDefault, pad_h := 1,
          pad_w := 1, u := 1, v := 1, dilation_h := 1, dilation_w := 1, group_count := 1 }
        throwingEnvironment gfx900Handle
        { type := miopenDataType_t.miopenFloat, lens := (1, 16, 8, 8) }
        { type := miopenDataType_t.miopenFloat, lens := (1, 32, 8, 8) }
        { type := miopenDataType_t.miopenFloat, lens := (32, 16, 3, 3) } 1 = 0 ∧
    ConvolutionDescriptor.BackwardWeightsGetWorkSpaceSizeDirect
        { mode := miopenConvolution, paddingMode := miopenPaddingDefault, pad_h := 1,
          pad_w := 1, u := 1, v := 1, dilation_h := 1, dilation_w := 1, group_count := 1 }
        busyEnvironment gfx900Handle
        { type := miopenDataType_t.miopenFloat, lens := (1, 32, 8, 8) }
        { type := miopenDataType_t.miopenFloat, lens := (1, 16, 8, 8) }
        { type := miopenDataType_t.miopenFloat, lens := (32, 16, 3, 3) } = 4096 ∧
    ConvolutionDescriptor.BackwardWeightsGetWorkSpaceSizeDirect
        { mode := miopenConvolution, paddingMode := miopenPaddingDefault, pad_h := 1,
          pad_w := 1, u := 1, v := 1, dilation_h := 1, dilation_w := 1, group_count := 1 }
        throwingEnvironment gfx900Handle
        { type := miopenDataType_t.miopenFloat, lens := (1, 32, 8, 8) }
        { type := miopenDataType_t.miopenFloat, lens := (1, 16, 8, 8) }
        { type := miopenDataType_t.miopenFloat, lens := (32, 16, 3, 3) } = 0 :=
  ⟨((C22_direct_family_largest
        { mode := miopenConvolution, paddingMode := miopenPaddingDefault, pad_h := 1,
          pad_w := 1, u := 1, v := 1, dilation_h := 1, dilation_w := 1, group_count := 1 }
        busyEnvironment gfx900Handle
        { type := miopenDataType_t.miopenFloat, lens := (1, 16, 8, 8) }
        { type := miopenDataType_t.miopenFloat, lens := (1, 32, 8, 8) }
        { type := miopenDataType_t.miopenFloat, lens := (32, 16, 3, 3) } 1).1 _ (by decide) rfl rfl).1.trans (by decide),
    (C22_direct_family_largest
        { mode := miopenConvolution, paddingMode := miopenPaddingDefault, pad_h := 1,
          pad_w := 1, u := 1, v := 1, dilation_h := 1, dilation_w := 1, group_count := 1 }
        throwingEnvironment gfx900Handle
        { type := miopenDataType_t.miopenFloat, lens := (1, 16, 8, 8) }
        { type := miopenDataType_t.miopenFloat, lens := (1, 32, 8, 8) }
        { type := miopenDataType_t.miopenFloat, lens := (32, 16, 3, 3) } 1).2.1 _ rfl,
    ((C22_direct_family_largest
        { mode := miopenConvolution, paddingMode := miopenPaddingDefault, pad_h := 1,
          pad_w := 1, u := 1, v := 1, dilation_h := 1, dilation_w := 1, group_count := 1 }
        busyEnvironment gfx900Handle
        { type := miopenDataType_t.miopenFloat, lens := (1, 16, 8, 8) }
        { type := miopenDataType_t.miopenFloat, lens := (1, 32, 8, 8) }
        { type := miopenDataType_t.miopenFloat, lens := (32, 16, 3, 3) } 1).2.2.2.1 _ rfl).1.trans (by decide),
    (C22_direct_family_largest
        { mode := miopenConvolution, paddingMode := miopenPaddingDefault, pad_h := 1,
          pad_w := 1, u := 1, v := 1, dilation_h := 1, dilation_w := 1, group_count := 1 }
        throwingEnvironment gfx900Handle
        { type := miopenDataType_t.miopenFloat, lens := (1, 16, 8, 8) }
        { type := miopenDataType_t.miopenFloat, lens := (1, 32, 8, 8) }
        { type := miopenDataType_t.miopenFloat, lens := (32, 16, 3, 3) } 1).2.2.2.2 _ rfl⟩

/-! ## The workspace planner and the allocation ceiling -/

/-- C23, evaluated at two inputs on a device whose largest single allocation is
2^32 bytes, with no workspace for the direct and transform-domain families.
A Standard-mode 1x1 filter with stride 2 over a 1024x1024x64x64 input takes the
transpose-layout variant, which has no test against the ceiling, and the
planner returns 2^32 + 2^22 bytes.  A Grouped-mode problem with two groups
whose per-group requirement of 2415919104 bytes passes the test inside
`ForwardGetWorkSpaceSizeGEMM` is then scaled by the group count, and the
planner returns 4831838208 bytes.  Both results exceed the ceiling. -/
theorem C23_ceiling_exceeded :
    Handle.GetMaxMemoryAllocSize gfx900Handle = 4294967296 ∧
    ConvolutionDescriptor.ForwardGetWorkSpaceSize
        { mode := miopenConvolution, paddingMode := miopenPaddingDefault, pad_h := 0,
          pad_w := 0, u := 2, v := 2, dilation_h := 1, dilation_w := 1, group_count := 1 }
        plainEnvironment gfx900Handle
        { type := miopenDataType_t.miopenFloat, lens := (1, 1024, 1, 1) }
        { type := miopenDataType_t.miopenFloat, lens := (1024, 1024, 64, 64) }
        { type := miopenDataType_t.miopenFloat, lens := (1024, 1, 32, 32) } = Except.ok 4299161600 ∧
    ConvolutionDescriptor.ForwardBackwardDataGetWorkSpaceSizeDirect
        { mode := miopenConvolution, paddingMode := miopenPaddingDefault, pad_h := 0,
          pad_w := 0, u := 2, v := 2, dilation_h := 1, dilation_w := 1, group_count := 1 }
        plainEnvironment gfx900Handle
        { type := miopenDataType_t.miopenFloat, lens := (1024, 1024, 64, 64) }
        { type := miopenDataType_t.miopenFloat, lens := (1024, 1, 32, 32) }
        { type := miopenDataType_t.miopenFloat, lens := (1, 1024, 1, 1) } 1 = 0 ∧
    ConvolutionDescriptor.GetForwardOutputDim
        { mode := miopenConvolution, paddingMode := miopenPaddingDefault, pad_h := 0,
          pad_w := 0, u := 2, v := 2, dilation_h := 1, dilation_w := 1, group_count := 1 }
        { type := miopenDataType_t.miopenFloat, lens := (1024, 1024, 64, 64) }
        { type := miopenDataType_t.miopenFloat, lens := (1, 1024, 1, 1) } = Except.ok (1024, 1, 32, 32) ∧
    ConvolutionDescriptor.ForwardGetWorkSpaceSizeGEMM
        { mode := miopenGroupConv, paddingMode := miopenPaddingDefault, pad_h := 1,
          pad_w := 1, u := 1, v := 1, dilation_h := 1, dilation_w := 1, group_count := 2 }
        plainEnvironment gfx900Handle
        { type := miopenDataType_t.miopenFloat, lens := (64, 256, 3, 3) }
        { type := miopenDataType_t.miopenFloat, lens := (1, 64, 512, 512) } = 2415919104 ∧
    ConvolutionDescriptor.ForwardGetWorkSpaceSize
        { mode := miopenGroupConv, paddingMode := miopenPaddingDefault, pad_h := 1,
          pad_w := 1, u := 1, v := 1, dilation_h := 1, dilation_w := 1, group_count := 2 }
        plainEnvironment gfx900Handle
        { type := miopenDataType_t.miopenFloat, lens := (64, 256, 3, 3) }
        { type := miopenDataType_t.miopenFloat, lens := (1, 512, 512, 512) }
        { type := miopenDataType_t.miopenFloat, lens := (1, 64, 512, 512) } = Except.ok 4831838208 ∧
    ConvolutionDescriptor.ForwardBackwardDataGetWorkSpaceSizeDirect
        { mode := miopenGroupConv, paddingMode := miopenPaddingDefault, pad_h := 1,
          pad_w := 1, u := 1, v := 1, dilation_h := 1, dilation_w := 1, group_count := 2 }
        plainEnvironment gfx900Handle
        { type := miopenDataType_t.miopenFloat, lens := (1, 512, 512, 512) }
        { type := miopenDataType_t.miopenFloat, lens := (1, 64, 512, 512) }
        { type := miopenDataType_t.miopenFloat, lens := (64, 256, 3, 3) } 1 = 0 := by
  refine ⟨?_, ?_, ?_, ?_, ?_, ?_, ?_⟩ <;> decide!

/-! ## The workspace planner: 1x1 filters with unit stride and no padding -/

theorem IsWinograd3x3Supported_of_small_filter (d : ConvolutionDescriptor) (env : Environment)
    (handle : Handle) (direction : Bool) (wDesc xDesc : TensorDescriptor)
    (hfh : (tienInt wDesc).2.2.1 ≠ 3)
    (hq : handle.attributeStatusIsSuccess = true ∨ env.precompiledBinariesDisabled = true) :
    d.IsWinograd3x3Supported env handle direction wDesc xDesc = Except.ok false := by
  cases hres : d.IsWinograd3x3Supported env handle direction wDesc xDesc with
  | error e =>
    have hc := (IsWinograd3x3Supported_eq_error_iff _ _ _ _ _ _ _).mp hres
    obtain ⟨h1, -, h3, -⟩ := hc
    rcases hq with hq | hq
    · rw [hq] at h3
      cases h3
    · rw [hq] at h1
      cases h1
  | ok b =>
    cases b with
    | false => rfl
    | true =>
      have hc := (IsWinograd3x3Supported_eq_true_iff _ _ _ _ _ _).mp hres
      obtain ⟨-, -, -, -, -, -, h7, -⟩ := hc
      exact absurd h7 hfh

/-- C24 fails as stated.  A Standard-mode 1x1 filter with unit stride and no
padding over an 8x8 input takes the transpose-layout variant and needs 12288
bytes although the direct and transform-domain families need none; with
dilation 2 the transform-domain family (8192 bytes) is not consulted and the
result is the direct family's 4096 bytes; on a device whose compute-unit
query fails the planner raises; and an input of height `2 ^ 32 + 5` and width
5 is read into `int` variables as 5x5, takes the transpose-layout variant and
needs 4800 bytes. -/
theorem C24_counterexample :
    (ConvolutionDescriptor.ForwardGetWorkSpaceSize
        { mode := miopenConvolution, paddingMode := miopenPaddingDefault, pad_h := 0,
          pad_w := 0, u := 1, v := 1, dilation_h := 1, dilation_w := 1, group_count := 1 }
        plainEnvironment gfx900Handle
        { type := miopenDataType_t.miopenFloat, lens := (32, 16, 1, 1) }
        { type := miopenDataType_t.miopenFloat, lens := (1, 16, 8, 8) }
        { type := miopenDataType_t.miopenFloat, lens := (1, 32, 8, 8) } = Except.ok 12288 ∧
      max (ConvolutionDescriptor.ForwardBackwardDataGetWorkSpaceSizeDirect
          { mode := miopenConvolution, paddingMode := miopenPaddingDefault, pad_h := 0,
            pad_w := 0, u := 1, v := 1, dilation_h := 1, dilation_w := 1, group_count := 1 }
          plainEnvironment gfx900Handle
          { type := miopenDataType_t.miopenFloat, lens := (1, 16, 8, 8) }
          { type := miopenDataType_t.miopenFloat, lens := (1, 32, 8, 8) }
          { type := miopenDataType_t.miopenFloat, lens := (32, 16, 1, 1) } 1)
        (plainEnvironment.ForwardGetWorkSpaceSizeFFT
          { mode := miopenConvolution, paddingMode := miopenPaddingDefault, pad_h := 0,
            pad_w := 0, u := 1, v := 1, dilation_h := 1, dilation_w := 1, group_count := 1 }
          { type := miopenDataType_t.miopenFloat, lens := (32, 16, 1, 1) }
          { type := miopenDataType_t.miopenFloat, lens := (1, 16, 8, 8) }
          { type := miopenDataType_t.miopenFloat, lens := (1, 32, 8, 8) }) = 0) ∧
    (ConvolutionDescriptor.ForwardGetWorkSpaceSize
        { mode := miopenConvolution, paddingMode := miopenPaddingDefault, pad_h := 0,
          pad_w := 0, u := 1, v := 1, dilation_h := 2, dilation_w := 2, group_count := 1 }
        busyEnvironment gfx900Handle
        { type := miopenDataType_t.miopenFloat, lens := (32, 16, 1, 1) }
        { type := miopenDataType_t.miopenFloat, lens := (1, 16, 32, 32) }
        { type := miopenDataType_t.miopenFloat, lens := (1, 32, 32, 32) } = Except.ok 4096 ∧
      max (ConvolutionDescriptor.ForwardBackwardDataGetWorkSpaceSizeDirect
          { mode := miopenConvolution, paddingMode := miopenPaddingDefault, pad_h := 0,
            pad_w := 0, u := 1, v := 1, dilation_h := 2, dilation_w := 2, group_count := 1 }
          busyEnvironment gfx900Handle
          { type := miopenDataType_t.miopenFloat, lens := (1, 16, 32, 32) }
          { type := miopenDataType_t.miopenFloat, lens := (1, 32, 32, 32) }
          { type := miopenDataType_t.miopenFloat, lens := (32, 16, 1, 1) } 1)
        (busyEnvironment.ForwardGetWorkSpaceSizeFFT
          { mode := miopenConvolution, paddingMode := miopenPaddingDefault, pad_h := 0,
            pad_w := 0, u := 1, v := 1, dilation_h := 2, dilation_w := 2, group_count := 1 }
          { type := miopenDataType_t.miopenFloat, lens := (32, 16, 1, 1) }
          { type := miopenDataType_t.miopenFloat, lens := (1, 16, 32, 32) }
          { type := miopenDataType_t.miopenFloat, lens := (1, 32, 32, 32) }) = 8192) ∧
    ConvolutionDescriptor.ForwardGetWorkSpaceSize
        { mode := miopenConvolution, paddingMode := miopenPaddingDefault, pad_h := 0,
          pad_w := 0, u := 1, v := 1, dilation_h := 1, dilation_w := 1, group_count := 1 }
        plainEnvironment failingHandle
        { type := miopenDataType_t.miopenFloat, lens := (32, 16, 1, 1) }
        { type := miopenDataType_t.miopenFloat, lens := (1, 16, 32, 32) }
        { type := miopenDataType_t.miopenFloat, lens := (1, 32, 32, 32) } =
      Except.error failingHandle.hipStatusException ∧
    (ConvolutionDescriptor.ForwardGetWorkSpaceSize
        { mode := miopenConvolution, paddingMode := miopenPaddingDefault, pad_h := 0,
          pad_w := 0, u := 1, v := 1, dilation_h := 1, dilation_w := 1, group_count := 1 }
        plainEnvironment gfx900Handle
        { type := miopenDataType_t.miopenFloat, lens := (32, 16, 1, 1) }
        { type := miopenDataType_t.miopenFloat, lens := (1, 16, 4294967301, 5) }
        { type := miopenDataType_t.miopenFloat, lens := (1, 32, 5, 5) } = Except.ok 4800 ∧
      max (ConvolutionDescriptor.ForwardBackwardDataGetWorkSpaceSizeDirect
          { mode := miopenConvolution, paddingMode := miopenPaddingDefault, pad_h := 0,
            pad_w := 0, u := 1, v := 1, dilation_h := 1, dilation_w := 1, group_count := 1 }
          plainEnvironment gfx900Handle
          { type := miopenDataType_t.miopenFloat, lens := (1, 16, 4294967301, 5) }
          { type := miopenDataType_t.miopenFloat, lens := (1, 32, 5, 5) }
          { type := miopenDataType_t.miopenFloat, lens := (32, 16, 1, 1) } 1)
        (plainEnvironment.ForwardGetWorkSpaceSizeFFT
          { mode := miopenConvolution, paddingMode := miopenPaddingDefault, pad_h := 0,
            pad_w := 0, u := 1, v := 1, dilation_h := 1, dilation_w := 1, group_count := 1 }
          { type := miopenDataType_t.miopenFloat, lens := (32, 16, 1, 1) }
          { type := miopenDataType_t.miopenFloat, lens := (1, 16, 4294967301, 5) }
          { type := miopenDataType_t.miopenFloat, lens := (1, 32, 5, 5) }) = 0) := by
  refine ⟨⟨?_, ?_⟩, ⟨?_, ?_⟩, ?_, ⟨?_, ?_⟩⟩ <;> decide

/-- C24 (amended): for every Standard-mode problem with a 1x1 filter,
u = v = 1 and pad_h = pad_w = 0 whose input height or width is above 14 (both
below `2 ^ 31`, so that the `int` variables hold them unchanged), with both
dilations at most 1, on a device whose compute-unit query succeeds (or with the
precompiled binaries disabled) and the matrix-multiply family compiled in, the
matrix-multiply family contributes no workspace to `ForwardGetWorkSpaceSize`:
the result is the maximum of the transform-domain and direct requirements, and
0 when both are 0. -/
theorem C24_trivial_size_planner (d : ConvolutionDescriptor) (env : Environment)
    (handle : Handle) (tw tx : miopenDataType_t) (k c n ci h w : Nat)
    (yDesc : TensorDescriptor)
    (hmode : d.mode = miopenConvolution) (hgemm : env.MIOPEN_USE_GEMM = true)
    (hu : d.u = 1) (hv : d.v = 1) (hph : d.pad_h = 0) (hpw : d.pad_w = 0)
    (hbig : 14 < h ∨ 14 < w) (hlens : h < 2 ^ 31 ∧ w < 2 ^ 31)
    (hdh : d.dilation_h ≤ 1) (hdw : d.dilation_w ≤ 1)
    (hq : handle.attributeStatusIsSuccess = true ∨ env.precompiledBinariesDisabled = true) :
    d.ForwardGetWorkSpaceSizeGEMM env handle { type := tw, lens := (k, c, 1, 1) } yDesc = 0 ∧
    d.ForwardGetWorkSpaceSize env handle { type := tw, lens := (k, c, 1, 1) }
        { type := tx, lens := (n, ci, h, w) } yDesc =
      Except.ok (max
        (env.ForwardGetWorkSpaceSizeFFT d { type := tw, lens := (k, c, 1, 1) }
          { type := tx, lens := (n, ci, h, w) } yDesc)
        (d.ForwardBackwardDataGetWorkSpaceSizeDirect env handle
          { type := tx, lens := (n, ci, h, w) } yDesc { type := tw, lens := (k, c, 1, 1) } 1)) ∧
    (env.ForwardGetWorkSpaceSizeFFT d { type := tw, lens := (k, c, 1, 1) }
          { type := tx, lens := (n, ci, h, w) } yDesc = 0 →
      d.ForwardBackwardDataGetWorkSpaceSizeDirect env handle
          { type := tx, lens := (n, ci, h, w) } yDesc { type := tw, lens := (k, c, 1, 1) } 1 = 0 →
      d.ForwardGetWorkSpaceSize env handle { type := tw, lens := (k, c, 1, 1) }
        { type := tx, lens := (n, ci, h, w) } yDesc = Except.ok 0) := by
  have hcond : ¬ ((((h : Int) ≤ 14 ∧ (w : Int) ≤ 14 ∧ d.u = 1 ∧ d.v = 1)) ∨
      (d.u = 2 ∧ d.v = 2)) := by
    rintro (⟨h1, h2, -⟩ | ⟨h1, -⟩)
    · omega
    · omega
  have hdil : ¬ (d.dilation_w > 1 ∨ d.dilation_h > 1) := by omega
  have eh := toInt_of_range (h : Int) (by omega) (by omega)
  have ew := toInt_of_range (w : Int) (by omega) (by omega)
  have e1 : toInt 1 = 1 := by decide
  have hgemm0 : d.ForwardGetWorkSpaceSizeGEMM env handle
      { type := tw, lens := (k, c, 1, 1) } yDesc = 0 := by
    simp [ConvolutionDescriptor.ForwardGetWorkSpaceSizeGEMM, tienInt,
      TensorDescriptor.GetLengths, hu, hv, hph, hpw, e1]
  have hwino := IsWinograd3x3Supported_of_small_filter d env handle true
    { type := tw, lens := (k, c, 1, 1) } { type := tx, lens := (n, ci, h, w) }
    (show toInt ((1 : Nat) : Int) ≠ 3 by decide) hq
  have hnt : ¬ (d.mode = miopenTranspose) := by
    rw [hmode]
    decide
  have hnd : ¬ (d.mode = miopenDepthwise) := by
    rw [hmode]
    decide
  have hng : ¬ (d.mode = miopenGroupConv) := by
    rw [hmode]
    decide
  have e : d.ForwardGetWorkSpaceSize env handle { type := tw, lens := (k, c, 1, 1) }
        { type := tx, lens := (n, ci, h, w) } yDesc =
      Except.ok (max
        (env.ForwardGetWorkSpaceSizeFFT d { type := tw, lens := (k, c, 1, 1) }
          { type := tx, lens := (n, ci, h, w) } yDesc)
        (d.ForwardBackwardDataGetWorkSpaceSizeDirect env handle
          { type := tx, lens := (n, ci, h, w) } yDesc { type := tw, lens := (k, c, 1, 1) } 1)) := by
    simp only [ConvolutionDescriptor.ForwardGetWorkSpaceSize, if_neg hnt, hgemm, true_and,
      tienInt, TensorDescriptor.GetLengths, eh, ew, hcond, and_false, if_false, if_neg hdil,
      hwino, Bool.false_and, if_true, hgemm0, if_neg hnd, if_neg hng]
    simp
  refine ⟨hgemm0, e, ?_⟩
  intro h1 h2
  rw [e, h1, h2]
  rfl

/-- C24 (amended), at a concrete input: a 1x1 filter with unit stride and no
padding over a 32x32 input, where the transform-domain family asks for 8192
bytes and the direct family for 4096. -/
theorem C24_trivial_size_planner_witness :
    ConvolutionDescriptor.ForwardGetWorkSpaceSize
        { mode := miopenConvolution, paddingMode := miopenPaddingDefault, pad_h := 0,
          pad_w := 0, u := 1, v := 1, dilation_h := 1, dilation_w := 1, group_count := 1 }
        busyEnvironment gfx900Handle
        { type := miopenDataType_t.miopenFloat, lens := (32, 16, 1, 1) }
        { type := miopenDataType_t.miopenFloat, lens := (1, 16, 32, 32) }
        { type := miopenDataType_t.miopenFloat, lens := (1, 32, 32, 32) } = Except.ok 8192 :=
  (C24_trivial_size_planner
      { mode := miopenConvolution, paddingMode := miopenPaddingDefault, pad_h := 0,
          pad_w := 0, u := 1, v := 1, dilation_h := 1, dilation_w := 1, group_count := 1 }
      busyEnvironment gfx900Handle miopenDataType_t.miopenFloat miopenDataType_t.miopenFloat
      32 16 1 16 32 32
      { type := miopenDataType_t.miopenFloat, lens := (1, 32, 32, 32) }
      rfl rfl rfl rfl rfl rfl (Or.inl (by decide)) (by decide) (by decide) (by decide)
      (Or.inl rfl)).2.1.trans (by decide)

/-! ## The workspace planner: the transpose-layout variant -/

/-- C30: `ConvolutionBackwardWeightsGetWorkSpaceSize` returns
`BackwardWeightsGetWorkSpaceSizeGEMM(x, dw)` in Transposed mode; in the other
modes, with the matrix-multiply family compiled in, it returns
`max(BackwardWeightsGetWorkSpaceSizeDirect(dy, x, dw),
groups * BackwardWeightsGetWorkSpaceSizeGEMM(dy, dw))` with `groups` the channel
count of `x` in Depthwise mode (below `2 ^ 31`, so that the `int` variable
holds it unchanged), `group_count` in Grouped mode and 1 otherwise (the product
taken without wrap-around); and it is 0 for a Standard-mode
problem with a 1x1 filter, unit stride and no padding whose direct family needs
no workspace. -/
theorem C30_backward_weights_workspace (d : ConvolutionDescriptor) (env : Environment)
    (handle : Handle) (dyDesc xDesc dwDesc : TensorDescriptor) (groups : Nat) :
    (d.mode = miopenTranspose →
      d.ConvolutionBackwardWeightsGetWorkSpaceSize env handle dyDesc xDesc dwDesc =
        d.BackwardWeightsGetWorkSpaceSizeGEMM env handle xDesc dwDesc) ∧
    (d.mode ≠ miopenTranspose → env.MIOPEN_USE_GEMM = true →
      (d.mode = miopenDepthwise → xDesc.GetLengths.2.1 < 2 ^ 31) →
      (groups : Int) =
        (if d.mode = miopenDepthwise then (xDesc.GetLengths.2.1 : Int)
          else if d.mode = miopenGroupConv then d.group_count else 1) →
      groups * d.BackwardWeightsGetWorkSpaceSizeGEMM env handle dyDesc dwDesc < SIZE_MOD →
      d.ConvolutionBackwardWeightsGetWorkSpaceSize env handle dyDesc xDesc dwDesc =
        max (d.BackwardWeightsGetWorkSpaceSizeDirect env handle dyDesc xDesc dwDesc)
          (groups * d.BackwardWeightsGetWorkSpaceSizeGEMM env handle dyDesc dwDesc)) ∧
    (d.mode = miopenConvolution → (tienInt dwDesc).2.2.1 = 1 → (tienInt dwDesc).2.2.2 = 1 →
      d.u = 1 → d.v = 1 → d.pad_h = 0 → d.pad_w = 0 →
      d.BackwardWeightsGetWorkSpaceSizeDirect env handle dyDesc xDesc dwDesc = 0 →
      d.ConvolutionBackwardWeightsGetWorkSpaceSize env handle dyDesc xDesc dwDesc = 0) := by
  refine ⟨?_, ?_, ?_⟩
  · intro hm
    simp only [ConvolutionDescriptor.ConvolutionBackwardWeightsGetWorkSpaceSize, if_pos hm]
  · intro hm hgemm hc hg hfit
    have hg2 : (groups : Int) =
        (if d.mode = miopenDepthwise then toInt (xDesc.GetLengths.2.1 : Int)
          else if d.mode = miopenGroupConv then d.group_count else 1) := by
      rw [hg]
      by_cases hd : d.mode = miopenDepthwise
      · have hlt := hc hd
        rw [if_pos hd, if_pos hd, toInt_of_range _ (by omega) (by omega)]
      · rw [if_neg hd, if_neg hd]
    simp only [ConvolutionDescriptor.ConvolutionBackwardWeightsGetWorkSpaceSize, if_neg hm,
      hgemm, if_true, ← hg2, groups_scaled_of_no_overflow groups _ hfit]
  · intro hm h1 h2 hu hv hph hpw hdirect
    have hnt : ¬ (d.mode = miopenTranspose) := by
      rw [hm]
      decide
    have hg0 : d.BackwardWeightsGetWorkSpaceSizeGEMM env handle dyDesc dwDesc = 0 := by
      simp only [ConvolutionDescriptor.BackwardWeightsGetWorkSpaceSizeGEMM, h1, h2, hu, hv, hph,
        hpw, and_self, if_true]
    simp only [ConvolutionDescriptor.ConvolutionBackwardWeightsGetWorkSpaceSize, if_neg hnt,
      hdirect, hg0, Nat.mul_zero, Nat.zero_mod]
    cases env.MIOPEN_USE_GEMM <;> simp

/-- C30, at concrete inputs: a Transposed-mode problem (3x3 filter of 8
channels over an 8x8 input as the second tensor: 8*3*3*8*8*4 bytes), a
Depthwise-mode problem with 16 channels (16 times the 1*3*3*8*8*4 bytes of one
group, above the direct family's 4096 bytes), and a Standard-mode 1x1 problem
with no direct workspace. -/
theorem C30_backward_weights_workspace_witness :
    ConvolutionDescriptor.ConvolutionBackwardWeightsGetWorkSpaceSize
        { mode := miopenTranspose, paddingMode := miopenPaddingDefault, pad_h := 1,
          pad_w := 1, u := 1, v := 1, dilation_h := 1, dilation_w := 1, group_count := 1 }
        busyEnvironment gfx900Handle
        { type := miopenDataType_t.miopenFloat, lens := (1, 32, 8, 8) }
        { type := miopenDataType_t.miopenFloat, lens := (1, 16, 8, 8) }
        { type := miopenDataType_t.miopenFloat, lens := (32, 8, 3, 3) } = 18432 ∧
    ConvolutionDescriptor.ConvolutionBackwardWeightsGetWorkSpaceSize
        { mode := miopenDepthwise, paddingMode := miopenPaddingDefault, pad_h := 1,
          pad_w := 1, u := 1, v := 1, dilation_h := 1, dilation_w := 1, group_count := 1 }
        busyEnvironment gfx900Handle
        { type := miopenDataType_t.miopenFloat, lens := (1, 16, 8, 8) }
        { type := miopenDataType_t.miopenFloat, lens := (1, 16, 8, 8) }
        { type := miopenDataType_t.miopenFloat, lens := (16, 1, 3, 3) } = 36864 ∧
    ConvolutionDescriptor.ConvolutionBackwardWeightsGetWorkSpaceSize
        { mode := miopenConvolution, paddingMode := miopenPaddingDefault, pad_h := 0,
          pad_w := 0, u := 1, v := 1, dilation_h := 1, dilation_w := 1, group_count := 1 }
        plainEnvironment gfx900Handle
        { type := miopenDataType_t.miopenFloat, lens := (1, 32, 8, 8) }
        { type := miopenDataType_t.miopenFloat, lens := (1, 16, 8, 8) }
        { type := miopenDataType_t.miopenFloat, lens := (32, 16, 1, 1) } = 0 :=
  ⟨((C30_backward_weights_workspace
        { mode := miopenTranspose, paddingMode := miopenPaddingDefault, pad_h := 1,
          pad_w := 1, u := 1, v := 1, dilation_h := 1, dilation_w := 1, group_count := 1 }
        busyEnvironment gfx900Handle
        { type := miopenDataType_t.miopenFloat, lens := (1, 32, 8, 8) }
        { type := miopenDataType_t.miopenFloat, lens := (1, 16, 8, 8) }
        { type := miopenDataType_t.miopenFloat, lens := (32, 8, 3, 3) } 1).1 rfl).trans (by decide),
    ((C30_backward_weights_workspace
        { mode := miopenDepthwise, paddingMode := miopenPaddingDefault, pad_h := 1,
          pad_w := 1, u := 1, v := 1, dilation_h := 1, dilation_w := 1, group_count := 1 }
        busyEnvironment gfx900Handle
        { type := miopenDataType_t.miopenFloat, lens := (1, 16, 8, 8) }
        { type := miopenDataType_t.miopenFloat, lens := (1, 16, 8, 8) }
        { type := miopenDataType_t.miopenFloat, lens := (16, 1, 3, 3) } 16).2.1 (by decide) rfl
        (fun _ => by decide) (by decide) (by decide)).trans (by decide),
    (C30_backward_weights_workspace
        { mode := miopenConvolution, paddingMode := miopenPaddingDefault, pad_h := 0,
          pad_w := 0, u := 1, v := 1, dilation_h := 1, dilation_w := 1, group_count := 1 }
        plainEnvironment gfx900Handle
        { type := miopenDataType_t.miopenFloat, lens := (1, 32, 8, 8) }
        { type := miopenDataType_t.miopenFloat, lens := (1, 16, 8, 8) }
        { type := miopenDataType_t.miopenFloat, lens := (32, 16, 1, 1) } 1).2.2 rfl (by decide) (by decide) rfl rfl rfl rfl (by decide)⟩

/-! ## The solver test: serialization of a configuration -/

theorem takeWhile_ne_eq_self (l : List Char) (h : lineFeed ∉ l) :
    l.takeWhile (fun ch => ch != lineFeed) = l := by
  induction l with
  | nil => rfl
  | cons x xs ih =>
    have hx : x ≠ lineFeed := fun e => h (e ▸ List.mem_cons_self _ _)
    have hxs : lineFeed ∉ xs := fun e => h (List.mem_cons_of_mem _ e)
    simp [List.takeWhile_cons, hx, ih hxs]

theorem Deserialize_Serialize_iff (c fresh : TestConfig) :
    fresh.Deserialize (c.Serialize "") = (true, { str := c.str }) ↔
      (c.str ≠ "" ∧ lineFeed ∉ c.str.data) := by
  obtain ⟨⟨l⟩⟩ := c
  have happ : ("" : String) ++ (⟨l⟩ : String) = ⟨l⟩ := by
    show String.mk ([] ++ l) = String.mk l
    rfl
  simp only [TestConfig.Serialize, TestConfig.Deserialize, std_getline, happ]
  by_cases hl : l = []
  · subst hl
    simp
  · rw [if_neg hl]
    constructor
    · intro h
      have h2 : List.takeWhile (fun ch => ch != lineFeed) l = l := by
        have := congrArg (fun r => r.2.str.data) h
        simpa using this
      refine ⟨fun e => hl (congrArg String.data e), ?_⟩
      intro hmem
      have hall := List.mem_takeWhile_imp (h2.symm ▸ hmem)
      simp at hall
    · rintro ⟨-, hmem⟩
      simp [takeWhile_ne_eq_self l hmem]

/-- C29 fails as stated: the text of a configuration with an empty string is
empty and `Deserialize` returns `false` on it, and a string with a line feed
comes back cut before the line feed. -/
theorem C29_counterexample :
    (TestConfig.Deserialize { str := "" } (TestConfig.Serialize { str := "" } "")).1 = false ∧
    TestConfig.Deserialize { str := "" }
        (TestConfig.Serialize { str := String.mk ['a', lineFeed, 'b'] } "") =
      (true, { str := "a" }) ∧
    String.mk ['a', lineFeed, 'b'] ≠ "a" := by
  refine ⟨?_, ?_, ?_⟩ <;> decide

/-- C29 (amended): for every `TestConfig` `c` whose string is not empty and
holds no line feed, deserializing the text that `Serialize(c)` writes into an
empty stream succeeds (returns `true`) and gives a configuration whose `str`
equals `c.str`, whatever the target held before; and when `Deserialize` returns
`false`, on any text, the target is left unchanged. -/
theorem C29_serialization_round_trip (c fresh : TestConfig) :
    (c.str ≠ "" → lineFeed ∉ c.str.data →
      (fresh.Deserialize (c.Serialize "")).1 = true ∧
      (fresh.Deserialize (c.Serialize "")).2.str = c.str) ∧
    (∀ s : String, (fresh.Deserialize s).1 = false → (fresh.Deserialize s).2 = fresh) := by
  constructor
  · intro h1 h2
    have h := (Deserialize_Serialize_iff c fresh).mpr ⟨h1, h2⟩
    rw [h]
    exact ⟨rfl, rfl⟩
  · intro s hs
    unfold TestConfig.Deserialize at hs ⊢
    cases hg : std_getline s with
    | none => rfl
    | some temp =>
      rw [hg] at hs
      cases hs

/-- C29 (amended), at the string that the searchable test solver stores. -/
theorem C29_serialization_round_trip_witness :
    (TestConfig.Deserialize { str := "" }
        (TestConfig.Serialize { str := "SearchableTestSolver" } "")).1 = true ∧
    (TestConfig.Deserialize { str := "" }
        (TestConfig.Serialize { str := "SearchableTestSolver" } "")).2.str =
      "SearchableTestSolver" :=
  (C29_serialization_round_trip { str := "SearchableTestSolver" } { str := "" }).1
    (by decide) (by decide)

/-! ## The solver test: the search engine -/

theorem SolverTest_Run_replay :
    (runRequests SolverStore SolverTest_requests SolverTest_initial).1 =
      ["TrivialSlowTestSolver", "TrivialTestSolver", "TrivialTestSolver",
        "SearchableTestSolver.NoSearch", "SearchableTestSolver", "SearchableTestSolver",
        "SearchableTestSolver"] ∧
    (runRequests SolverStore (SolverTest_requests.take 5) SolverTest_initial).2.searches_done =
      1 ∧
    (runRequests SolverStore SolverTest_requests SolverTest_initial).2.searches_done = 1 := by
  refine ⟨?_, ?_, ?_⟩ <;> decide

theorem selectSolver_eq_none_iff (catalog : List Solver) (context : ConvolutionContext) :
    selectSolver catalog context = none ↔
      ∀ t ∈ catalog, t.IsApplicable context = false := by
  unfold selectSolver
  cases hfast : catalog.find?
      (fun solver => solver.IsApplicable context && solver.IsFast context) with
  | some s =>
    have hs := List.find?_some hfast
    have hmem := List.mem_of_find?_eq_some hfast
    simp only [Bool.and_eq_true] at hs
    constructor
    · intro h
      cases h
    · intro h
      have := h s hmem
      rw [hs.1] at this
      cases this
  | none =>
    simp only [List.find?_eq_none]
    constructor
    · intro h t ht
      simpa using h t ht
    · intro h t ht
      simp [h t ht]

theorem selectSolver_spec (catalog : List Solver) (context : ConvolutionContext) (s : Solver)
    (h : selectSolver catalog context = some s) :
    s ∈ catalog ∧ s.IsApplicable context = true ∧
    ((∃ t ∈ catalog, t.IsApplicable context = true ∧ t.IsFast context = true) →
      s.IsFast context = true ∧
      ∃ before after, catalog = before ++ s :: after ∧
        ∀ t ∈ before, ¬ (t.IsApplicable context = true ∧ t.IsFast context = true)) := by
  unfold selectSolver at h
  cases hfast : catalog.find?
      (fun solver => solver.IsApplicable context && solver.IsFast context) with
  | some s2 =>
    rw [hfast] at h
    injection h with h
    subst h
    have hs := List.find?_eq_some.mp hfast
    obtain ⟨hp, before, after, hcat, hbefore⟩ := hs
    simp only [Bool.and_eq_true] at hp
    refine ⟨List.mem_of_find?_eq_some hfast, hp.1, ?_⟩
    intro _
    refine ⟨hp.2, before, after, hcat, ?_⟩
    rintro t ht ⟨h1, h2⟩
    have := hbefore t ht
    simp [h1, h2] at this
  | none =>
    rw [hfast] at h
    have h2 : List.find? (fun solver => solver.IsApplicable context) catalog = some s := h
    have h3 := List.find?_some h2
    refine ⟨List.mem_of_find?_eq_some h2, h3, ?_⟩
    rintro ⟨t, ht, h1, h2⟩
    have hn := List.find?_eq_none.mp hfast t ht
    simp [h1, h2] at hn

theorem selectSolver_SolverStore (context : ConvolutionContext) :
    (context.in_width = 1 → context.in_height = 1 →
      selectSolver SolverStore context = some TrivialSlowTestSolver) ∧
    (context.in_width = 1 → context.in_height ≠ 1 →
      selectSolver SolverStore context = some TrivialTestSolver) ∧
    (context.in_width ≠ 1 → selectSolver SolverStore context = some SearchableTestSolver) := by
  refine ⟨?_, ?_, ?_⟩
  · intro hw hh
    simp [selectSolver, SolverStore, List.find?, TrivialSlowTestSolver, hw, hh]
  · intro hw hh
    simp [selectSolver, SolverStore, List.find?, TrivialSlowTestSolver, TrivialTestSolver, hw,
      hh]
  · intro hw
    simp [selectSolver, SolverStore, List.find?, TrivialSlowTestSolver, TrivialTestSolver,
      SearchableTestSolver, hw]

/-- C26: for every catalog, in registration order, and every problem, the
strategy whose plan `mloConstruct` realizes is a member of the catalog that is
applicable (a strategy is chosen exactly when some member is applicable); if
some applicable member is flagged fast, the chosen one is flagged fast and no
member registered before it is both applicable and fast.  With the catalog of
the test, `[TrivialSlowTestSolver, TrivialTestSolver, SearchableTestSolver]`:
in_width = 1 and in_height = 1 selects `TrivialSlowTestSolver`; in_width = 1
and in_height other than 1 (0 in the test) selects `TrivialTestSolver`, with or
without search requested; in_width other than 1 selects
`SearchableTestSolver`. -/
theorem C26_strategy_selection (catalog : List Solver) (context : ConvolutionContext)
    (state : EngineState) :
    (selectSolver catalog context = none ↔
      ∀ t ∈ catalog, t.IsApplicable context = false) ∧
    (∀ s, selectSolver catalog context = some s →
      mloConstruct catalog context state =
        (some (s.FindSolution context state).1, (s.FindSolution context state).2) ∧
      s ∈ catalog ∧ s.IsApplicable context = true ∧
      ((∃ t ∈ catalog, t.IsApplicable context = true ∧ t.IsFast context = true) →
        s.IsFast context = true ∧
        ∃ before after, catalog = before ++ s :: after ∧
          ∀ t ∈ before, ¬ (t.IsApplicable context = true ∧ t.IsFast context = true))) ∧
    (context.in_width = 1 → context.in_height = 1 →
      (selectSolver SolverStore context).map Solver.SolverId = some "TrivialSlowTestSolver" ∧
      getKernelFile (mloConstruct SolverStore context state).1 = "TrivialSlowTestSolver") ∧
    (context.in_width = 1 → context.in_height ≠ 1 →
      (selectSolver SolverStore context).map Solver.SolverId = some "TrivialTestSolver" ∧
      getKernelFile (mloConstruct SolverStore context state).1 = "TrivialTestSolver") ∧
    (context.in_width ≠ 1 →
      (selectSolver SolverStore context).map Solver.SolverId = some "SearchableTestSolver") := by
  refine ⟨selectSolver_eq_none_iff catalog context, ?_, ?_, ?_, ?_⟩
  · intro s hs
    refine ⟨?_, selectSolver_spec catalog context s hs⟩
    simp only [mloConstruct, hs]
  · intro hw hh
    have h := (selectSolver_SolverStore context).1 hw hh
    simp only [mloConstruct, h]
    exact ⟨rfl, rfl⟩
  · intro hw hh
    have h := (selectSolver_SolverStore context).2.1 hw hh
    simp only [mloConstruct, h]
    exact ⟨rfl, rfl⟩
  · intro hw
    have h := (selectSolver_SolverStore context).2.2 hw
    rw [h]
    rfl

/-- C26, at the first three requests of the test and at a request without an
input description. -/
theorem C26_strategy_selection_witness :
    getKernelFile (mloConstruct SolverStore (TrivialConstruct.setInputDescr 1 1)
      SolverTest_initial).1 = "TrivialSlowTestSolver" ∧
    getKernelFile (mloConstruct SolverStore (TrivialConstruct.setInputDescr 0 1)
      SolverTest_initial).1 = "TrivialTestSolver" ∧
    getKernelFile (mloConstruct SolverStore ((TrivialConstruct.setInputDescr 0 1).doSearch true)
      SolverTest_initial).1 = "TrivialTestSolver" ∧
    (selectSolver SolverStore TrivialConstruct).map Solver.SolverId =
      some "SearchableTestSolver" :=
  ⟨((C26_strategy_selection SolverStore (TrivialConstruct.setInputDescr 1 1)
      SolverTest_initial).2.2.1 rfl rfl).2,
    ((C26_strategy_selection SolverStore (TrivialConstruct.setInputDescr 0 1)
      SolverTest_initial).2.2.2.1 rfl (by decide)).2,
    ((C26_strategy_selection SolverStore ((TrivialConstruct.setInputDescr 0 1).doSearch true)
      SolverTest_initial).2.2.2.1 rfl (by decide)).2,
    (C26_strategy_selection SolverStore TrivialConstruct SolverTest_initial).2.2.2.2
      (by decide)⟩

theorem Get_Put_self (db : PerformanceStore) (signature : ProblemSignature) (id : String) :
    (db.Put signature id { str := "SearchableTestSolver" }).Get signature id =
      some { str := "SearchableTestSolver" } := by
  simp only [PerformanceStore.Get, PerformanceStore.Put, List.lookup_cons_self]
  decide

theorem Get_Put_of_ne (db : PerformanceStore) (signature signature2 : ProblemSignature)
    (id id2 : String) (config : TestConfig) (h : (signature, id) ≠ (signature2, id2)) :
    (db.Put signature2 id2 config).Get signature id = db.Get signature id := by
  have hb : ((signature, id) == (signature2, id2)) = false := beq_false_of_ne h
  simp only [PerformanceStore.Get, PerformanceStore.Put, List.lookup_cons, hb]

theorem FindSolution_hit_preserved (solver : Solver) (context : ConvolutionContext)
    (state : EngineState) (signature : ProblemSignature) (id : String) (config : TestConfig)
    (h : state.db.Get signature id = some config) :
    (solver.FindSolution context state).2.db.Get signature id = some config := by
  unfold Solver.FindSolution
  cases solver.IsSearchable with
  | false => exact h
  | true =>
    simp only [Bool.not_true, Bool.false_eq_true, if_false]
    cases hget : state.db.Get context.signature solver.SolverId with
    | some stored => exact h
    | none =>
      cases context.do_search with
      | false => exact h
      | true =>
        simp only [if_true]
        have hne : (signature, id) ≠ (context.signature, solver.SolverId) := by
          intro e
          injection e with e1 e2
          rw [e1, e2, hget] at h
          cases h
        rw [Get_Put_of_ne _ _ _ _ _ _ hne]
        exact h

theorem mloConstruct_hit_preserved (catalog : List Solver) (context : ConvolutionContext)
    (state : EngineState) (signature : ProblemSignature) (id : String) (config : TestConfig)
    (h : state.db.Get signature id = some config) :
    (mloConstruct catalog context state).2.db.Get signature id = some config := by
  unfold mloConstruct
  cases selectSolver catalog context with
  | none => exact h
  | some solver => exact FindSolution_hit_preserved solver context state signature id config h

theorem runRequests_hit_preserved (catalog : List Solver) (requests : List ConvolutionContext)
    (state : EngineState) (signature : ProblemSignature) (id : String) (config : TestConfig)
    (h : state.db.Get signature id = some config) :
    (runRequests catalog requests state).2.db.Get signature id = some config := by
  induction requests generalizing state with
  | nil => exact h
  | cons c cs ih =>
    exact ih _ (mloConstruct_hit_preserved catalog c state signature id config h)

theorem mloConstruct_searchable_miss_no_search (context : ConvolutionContext)
    (state : EngineState) (hw : context.in_width ≠ 1)
    (hmiss : state.db.Get context.signature "SearchableTestSolver" = none)
    (hs : context.do_search = false) :
    mloConstruct SolverStore context state =
      (some { construction_params :=
        [{ kernel_file := "SearchableTestSolver.NoSearch", comp_options := " " }] }, state) := by
  have hmiss2 : state.db.Get context.signature SearchableTestSolver.SolverId = none := hmiss
  have hsearchable : SearchableTestSolver.IsSearchable = true := rfl
  simp only [mloConstruct, (selectSolver_SolverStore context).2.2 hw, Solver.FindSolution,
    hsearchable, hmiss2, hs]
  rfl

theorem mloConstruct_searchable_miss_search (context : ConvolutionContext)
    (state : EngineState) (hw : context.in_width ≠ 1)
    (hmiss : state.db.Get context.signature "SearchableTestSolver" = none)
    (hs : context.do_search = true) :
    mloConstruct SolverStore context state =
      (some { construction_params :=
        [{ kernel_file := "SearchableTestSolver", comp_options := " " }] },
        { db := state.db.Put context.signature "SearchableTestSolver"
            { str := "SearchableTestSolver" },
          searches_done := state.searches_done + 1 }) := by
  have hmiss2 : state.db.Get context.signature SearchableTestSolver.SolverId = none := hmiss
  have hsearchable : SearchableTestSolver.IsSearchable = true := rfl
  simp only [mloConstruct, (selectSolver_SolverStore context).2.2 hw, Solver.FindSolution,
    hsearchable, hmiss2, hs]
  rfl

theorem mloConstruct_searchable_hit (context : ConvolutionContext) (state : EngineState)
    (stored : TestConfig) (hw : context.in_width ≠ 1)
    (hhit : state.db.Get context.signature "SearchableTestSolver" = some stored) :
    mloConstruct SolverStore context state =
      (some { construction_params := [{ kernel_file := stored.str, comp_options := " " }] },
        state) := by
  have hhit2 : state.db.Get context.signature SearchableTestSolver.SolverId = some stored :=
    hhit
  have hsearchable : SearchableTestSolver.IsSearchable = true := rfl
  simp only [mloConstruct, (selectSolver_SolverStore context).2.2 hw, Solver.FindSolution,
    hsearchable, hhit2]
  rfl

theorem runRequests_all_hits (requests : List ConvolutionContext) (state : EngineState)
    (signature : ProblemSignature) (stored : TestConfig) (hw : signature.in_width ≠ 1)
    (hhit : state.db.Get signature "SearchableTestSolver" = some stored)
    (hsame : ∀ c ∈ requests, c.signature = signature) :
    runRequests SolverStore requests state = (requests.map (fun _ => stored.str), state) := by
  induction requests with
  | nil => rfl
  | cons c cs ih =>
    have hc : c.signature = signature := hsame c (List.mem_cons_self _ _)
    have hcw : c.in_width ≠ 1 := by
      intro e
      apply hw
      rw [← hc]
      exact e
    have h1 := mloConstruct_searchable_hit c state stored hcw (hc ▸ hhit)
    have h2 := ih (fun c2 hc2 => hsame c2 (List.mem_cons_of_mem _ hc2))
    simp only [runRequests, h1, h2, List.map_cons]
    rfl

/-- C25: with the catalog of the solver test, for a problem that selects the
searchable strategy (in_width other than 1) and is absent from the store, a
request with search enabled runs one search and writes its result to the
store; after any further requests, every later request for the same signature,
with search enabled or not, leaves the search counter and the store as they
are and realizes the plan from the stored configuration (kernel file
"SearchableTestSolver"); and when all the further requests are for that
signature, the counter stays where the first request left it. -/
theorem C25_idempotent_search (context context2 : ConvolutionContext) (state : EngineState)
    (later : List ConvolutionContext) (hw : context.in_width ≠ 1)
    (hmiss : state.db.Get context.signature "SearchableTestSolver" = none)
    (hsig : context2.signature = context.signature) :
    (mloConstruct SolverStore (context.doSearch true) state).2.searches_done =
      state.searches_done + 1 ∧
    (mloConstruct SolverStore (context.doSearch true) state).2.db.Get context.signature
      "SearchableTestSolver" = some { str := "SearchableTestSolver" } ∧
    mloConstruct SolverStore context2
        (runRequests SolverStore later
          (mloConstruct SolverStore (context.doSearch true) state).2).2 =
      (some { construction_params :=
          [{ kernel_file := "SearchableTestSolver", comp_options := " " }] },
        (runRequests SolverStore later
          (mloConstruct SolverStore (context.doSearch true) state).2).2) ∧
    ((∀ c ∈ later, c.signature = context.signature) →
      runRequests SolverStore later (mloConstruct SolverStore (context.doSearch true) state).2 =
        (later.map (fun _ => "SearchableTestSolver"),
          (mloConstruct SolverStore (context.doSearch true) state).2)) := by
  have hfirst := mloConstruct_searchable_miss_search (context.doSearch true) state hw hmiss rfl
  have hstored : (mloConstruct SolverStore (context.doSearch true) state).2.db.Get
      context.signature "SearchableTestSolver" = some { str := "SearchableTestSolver" } := by
    rw [hfirst]
    exact Get_Put_self _ _ _
  have hw2 : context2.in_width ≠ 1 := by
    intro e
    apply hw
    have h2 : context2.in_width = context.in_width :=
      congrArg ProblemSignature.in_width hsig
    rw [← h2]
    exact e
  refine ⟨?_, hstored, ?_, ?_⟩
  · rw [hfirst]
  · have hlater := runRequests_hit_preserved SolverStore later _ _ _ _ hstored
    exact mloConstruct_searchable_hit context2 _ { str := "SearchableTestSolver" } hw2
      (hsig ▸ hlater)
  · intro hsame
    exact runRequests_all_hits later _ context.signature { str := "SearchableTestSolver" } hw
      hstored hsame

/-- C25, at the last three requests of the test: after the fifth request (the
first with search enabled for the problem without input description) the
counter is 1, and the sixth and seventh requests leave it at 1 and yield
"SearchableTestSolver". -/
theorem C25_idempotent_search_witness :
    (mloConstruct SolverStore (TrivialConstruct.doSearch true)
      SolverTest_initial).2.searches_done = 1 ∧
    runRequests SolverStore [TrivialConstruct, TrivialConstruct.doSearch true]
        (mloConstruct SolverStore (TrivialConstruct.doSearch true) SolverTest_initial).2 =
      (["SearchableTestSolver", "SearchableTestSolver"],
        (mloConstruct SolverStore (TrivialConstruct.doSearch true) SolverTest_initial).2) :=
  ⟨(C25_idempotent_search TrivialConstruct TrivialConstruct SolverTest_initial
      [TrivialConstruct, TrivialConstruct.doSearch true] (by decide) (by decide) rfl).1,
    (C25_idempotent_search TrivialConstruct TrivialConstruct SolverTest_initial
      [TrivialConstruct, TrivialConstruct.doSearch true] (by decide) (by decide) rfl).2.2.2
      (by decide)⟩

/-- C27: when the chosen strategy is not searchable, or is searchable with its
(signature, strategy id) key absent from the store and search not requested,
the engine realizes the plan from the strategy's default configuration, runs
no search and leaves the store as it is.  With the catalog of the test and a
problem that selects the searchable strategy, the kernel file is then
"SearchableTestSolver.NoSearch", and a following request with search enabled
still runs the search (the counter goes up by one) and yields the searched
configuration, "SearchableTestSolver". -/
theorem C27_config_without_search (catalog : List Solver) (context : ConvolutionContext)
    (state : EngineState) :
    (∀ s, selectSolver catalog context = some s →
      (s.IsSearchable = false ∨
        (state.db.Get context.signature s.SolverId = none ∧ context.do_search = false)) →
      mloConstruct catalog context state =
        (some (s.GetSolution context (s.InitPerformanceConfigImpl context { str := "" })),
          state)) ∧
    (context.in_width ≠ 1 →
      state.db.Get context.signature "SearchableTestSolver" = none →
      context.do_search = false →
      getKernelFile (mloConstruct SolverStore context state).1 =
        "SearchableTestSolver.NoSearch" ∧
      (mloConstruct SolverStore context state).2 = state ∧
      getKernelFile (mloConstruct SolverStore (context.doSearch true)
        (mloConstruct SolverStore context state).2).1 = "SearchableTestSolver" ∧
      (mloConstruct SolverStore (context.doSearch true)
        (mloConstruct SolverStore context state).2).2.searches_done =
        state.searches_done + 1) := by
  constructor
  · intro s hsel hcase
    simp only [mloConstruct, hsel, Solver.FindSolution]
    cases hsr : s.IsSearchable with
    | false => rfl
    | true =>
      rcases hcase with h | ⟨h1, h2⟩
      · rw [hsr] at h
        cases h
      · simp only [Bool.not_true, Bool.false_eq_true, if_false, h1, h2]
  · intro hw hmiss hs
    have h1 := mloConstruct_searchable_miss_no_search context state hw hmiss hs
    have h2 := mloConstruct_searchable_miss_search (context.doSearch true) state hw hmiss rfl
    rw [h1]
    refine ⟨rfl, rfl, ?_, ?_⟩
    · show getKernelFile (mloConstruct SolverStore (context.doSearch true) state).1 = _
      rw [h2]
      rfl
    · show (mloConstruct SolverStore (context.doSearch true) state).2.searches_done = _
      rw [h2]

/-- C27, at the second request of the test (a strategy that is not searchable)
and at its fourth and fifth requests. -/
theorem C27_config_without_search_witness :
    mloConstruct SolverStore (TrivialConstruct.setInputDescr 0 1) SolverTest_initial =
      (some { construction_params :=
        [{ kernel_file := "TrivialTestSolver", comp_options := " " }] }, SolverTest_initial) ∧
    getKernelFile (mloConstruct SolverStore (TrivialConstruct.doSearch false)
      SolverTest_initial).1 = "SearchableTestSolver.NoSearch" ∧
    (mloConstruct SolverStore (TrivialConstruct.doSearch false) SolverTest_initial).2 =
      SolverTest_initial :=
  ⟨(C27_config_without_search SolverStore (TrivialConstruct.setInputDescr 0 1)
      SolverTest_initial).1 TrivialTestSolver
      ((selectSolver_SolverStore (TrivialConstruct.setInputDescr 0 1)).2.1 rfl (by decide))
      (Or.inl rfl),
    ((C27_config_without_search SolverStore (TrivialConstruct.doSearch false)
      SolverTest_initial).2 (by decide) (by decide) rfl).1,
    ((C27_config_without_search SolverStore (TrivialConstruct.doSearch false)
      SolverTest_initial).2 (by decide) (by decide) rfl).2.1⟩

/-! ## GetForwardOutputDim: the Valid policy against the general formula -/

theorem ceil_succ_ratdiv (a u : Int) (hu : 1 ≤ u) :
    Int.ceil (((a + 1 : Int) : ℚ) / (u : ℚ)) = a / u + 1 := by
  obtain ⟨h1, h2⟩ := ceil_ratdiv_spec (a + 1) u hu
  have hq := Int.ediv_add_emod a u
  have hr0 := Int.emod_nonneg a (show u ≠ 0 by omega)
  have hr1 := Int.emod_lt_of_pos a (show 0 < u by omega)
  have hle : Int.ceil (((a + 1 : Int) : ℚ) / (u : ℚ)) ≤ a / u + 1 := by
    by_contra hcon
    have h3 : a / u + 1 ≤ Int.ceil (((a + 1 : Int) : ℚ) / (u : ℚ)) - 1 := by omega
    have h4 := Int.mul_le_mul_of_nonneg_left h3 (show 0 ≤ u by omega)
    have h5 : u * (a / u + 1) = u * (a / u) + u := by ring
    omega
  have hge : a / u + 1 ≤ Int.ceil (((a + 1 : Int) : ℚ) / (u : ℚ)) := by
    by_contra hcon
    have h3 : Int.ceil (((a + 1 : Int) : ℚ) / (u : ℚ)) ≤ a / u := by omega
    have h4 := Int.mul_le_mul_of_nonneg_left h3 (show 0 ≤ u by omega)
    omega
  omega

theorem valid_extent_eq_default_extent (h fh : Nat) (u : Int) (hu : 1 ≤ u) (hfit : fh ≤ h) :
    Int.ceil ((((h : Int) - (fh : Int) + 1 : Int) : ℚ) / (u : ℚ)) =
      max 1 (Int.tdiv ((h : Int) - (1 + 1 * ((fh : Int) - 1)) + 2 * 0) u + 1) := by
  have hfit2 : (fh : Int) ≤ (h : Int) := by exact_mod_cast hfit
  have e : (h : Int) - (1 + 1 * ((fh : Int) - 1)) + 2 * 0 = (h : Int) - (fh : Int) := by ring
  rw [e, Int.tdiv_eq_ediv (by omega) (by omega), ceil_succ_ratdiv _ u hu]
  have hq0 : 0 ≤ ((h : Int) - (fh : Int)) / u := Int.ediv_nonneg (by omega) (by omega)
  rw [max_eq_right (by omega)]

/-- C31: in Standard mode with dilation 1 and strides >= 1, when the input is
at least as high and as wide as the filter, `GetForwardOutputDim` under the
Valid policy returns what it returns under the Default policy with
pad_h = pad_w = 0 (the same dimensions, or the same error), whatever the
padding members of the Valid descriptor are (the lengths are below `2 ^ 52`
and the strides are `int` values, so that the `double` quotient of the Valid
branch is exact enough for its ceiling); the extent is
`ceil((input - filter + 1)/stride) = floor((input - filter)/stride) + 1`, and
this value `out` satisfies
`(out - 1)*stride + filter <= input < out*stride + filter`. -/
theorem C31_valid_equals_default_without_padding (d : ConvolutionDescriptor)
    (tx tw : miopenDataType_t) (n c h w k fc fh fw : Nat)
    (hpad : d.paddingMode = miopenPaddingValid) (hmode : d.mode = miopenConvolution)
    (hdh : d.dilation_h = 1) (hdw : d.dilation_w = 1) (hu : 1 ≤ d.u) (hv : 1 ≤ d.v)
    (_hstride : d.u < 2 ^ 31 ∧ d.v < 2 ^ 31)
    (hfh : fh ≤ h) (hfw : fw ≤ w)
    (hlens : n < 2 ^ 52 ∧ k < 2 ^ 52 ∧ h < 2 ^ 52 ∧ w < 2 ^ 52) :
    d.GetForwardOutputDim { type := tx, lens := (n, c, h, w) }
        { type := tw, lens := (k, fc, fh, fw) } =
      ConvolutionDescriptor.GetForwardOutputDim
        { d with paddingMode := miopenPaddingDefault, pad_h := 0, pad_w := 0 }
        { type := tx, lens := (n, c, h, w) } { type := tw, lens := (k, fc, fh, fw) } ∧
    (tx = tw → c = fc →
      d.GetForwardOutputDim { type := tx, lens := (n, c, h, w) }
          { type := tw, lens := (k, fc, fh, fw) } =
        Except.ok (n, k,
          toSizeT (Int.floor ((((h : Int) - (fh : Int) : Int) : ℚ) / (d.u : ℚ)) + 1),
          toSizeT (Int.floor ((((w : Int) - (fw : Int) : Int) : ℚ) / (d.v : ℚ)) + 1))) ∧
    Int.ceil ((((h : Int) - (fh : Int) + 1 : Int) : ℚ) / (d.u : ℚ)) =
      Int.floor ((((h : Int) - (fh : Int) : Int) : ℚ) / (d.u : ℚ)) + 1 ∧
    Int.ceil ((((w : Int) - (fw : Int) + 1 : Int) : ℚ) / (d.v : ℚ)) =
      Int.floor ((((w : Int) - (fw : Int) : Int) : ℚ) / (d.v : ℚ)) + 1 ∧
    ((Int.floor ((((h : Int) - (fh : Int) : Int) : ℚ) / (d.u : ℚ)) + 1 - 1) * d.u + (fh : Int) ≤
        (h : Int) ∧
      (h : Int) <
        (Int.floor ((((h : Int) - (fh : Int) : Int) : ℚ) / (d.u : ℚ)) + 1) * d.u + (fh : Int)) ∧
    ((Int.floor ((((w : Int) - (fw : Int) : Int) : ℚ) / (d.v : ℚ)) + 1 - 1) * d.v + (fw : Int) ≤
        (w : Int) ∧
      (w : Int) <
        (Int.floor ((((w : Int) - (fw : Int) : Int) : ℚ) / (d.v : ℚ)) + 1) * d.v + (fw : Int)) := by
  obtain ⟨mode, pm, pad_h, pad_w, u, v, dilation_h, dilation_w, group_count⟩ := d
  simp only at hpad hmode hdh hdw hu hv ⊢
  subst hpad hmode hdh hdw
  have hfh2 : (fh : Int) ≤ (h : Int) := by exact_mod_cast hfh
  have hfw2 : (fw : Int) ≤ (w : Int) := by exact_mod_cast hfw
  have eh := valid_extent_eq_default_extent h fh u hu hfh
  have ew := valid_extent_eq_default_extent w fw v hv hfw
  have fh1 : Int.floor ((((h : Int) - (fh : Int) : Int) : ℚ) / (u : ℚ)) =
      ((h : Int) - (fh : Int)) / u := by
    rw [floor_ratdiv_of_nonneg _ _ (by omega) (by omega), Int.tdiv_eq_ediv (by omega) (by omega)]
  have fw1 : Int.floor ((((w : Int) - (fw : Int) : Int) : ℚ) / (v : ℚ)) =
      ((w : Int) - (fw : Int)) / v := by
    rw [floor_ratdiv_of_nonneg _ _ (by omega) (by omega), Int.tdiv_eq_ediv (by omega) (by omega)]
  have ch := ceil_succ_ratdiv ((h : Int) - (fh : Int)) u hu
  have cw := ceil_succ_ratdiv ((w : Int) - (fw : Int)) v hv
  obtain ⟨hn, hk, hh, hw⟩ := hlens
  have qh := tdiv_range ((h : Int) - (1 + 1 * ((fh : Int) - 1)) + 2 * 0) u (2 ^ 52)
    (by omega) (by omega)
  have qw := tdiv_range ((w : Int) - (1 + 1 * ((fw : Int) - 1)) + 2 * 0) v (2 ^ 52)
    (by omega) (by omega)
  have sh := sizeToPtrdiff_of_lt h (by omega)
  have sw := sizeToPtrdiff_of_lt w (by omega)
  have sfh := sizeToPtrdiff_of_lt fh (by omega)
  have sfw := sizeToPtrdiff_of_lt fw (by omega)
  have sn := toSizeT_sizeToPtrdiff n (by unfold SIZE_MOD; omega)
  have sk := toSizeT_sizeToPtrdiff k (by unfold SIZE_MOD; omega)
  have e0 : toInt (2 * 0) = 2 * 0 := by decide
  have vh := toPtrdiff_of_range ((h : Int) - (fh : Int) + 1) (by omega) (by omega)
  have vw := toPtrdiff_of_range ((w : Int) - (fw : Int) + 1) (by omega) (by omega)
  have ah := toPtrdiff_of_range ((h : Int) - (1 + 1 * ((fh : Int) - 1)) + 2 * 0)
    (by omega) (by omega)
  have aw := toPtrdiff_of_range ((w : Int) - (1 + 1 * ((fw : Int) - 1)) + 2 * 0)
    (by omega) (by omega)
  have bh := toPtrdiff_of_range
    (Int.tdiv ((h : Int) - (1 + 1 * ((fh : Int) - 1)) + 2 * 0) u + 1) (by omega) (by omega)
  have bw := toPtrdiff_of_range
    (Int.tdiv ((w : Int) - (1 + 1 * ((fw : Int) - 1)) + 2 * 0) v + 1) (by omega) (by omega)
  refine ⟨?_, ?_, ?_, ?_, ?_, ?_⟩
  · simp only [ConvolutionDescriptor.GetForwardOutputDim, TensorDescriptor.GetType,
      TensorDescriptor.GetLengths, tienPtrdiff, doubleToPtrdiff_std_ceil, sh, sw, sfh, sfw, e0,
      vh, vw, ah, aw, bh, bw, eh, ew]
    simp
  · rintro rfl rfl
    simp only [ConvolutionDescriptor.GetForwardOutputDim, TensorDescriptor.GetType,
      TensorDescriptor.GetLengths, tienPtrdiff, doubleToPtrdiff_std_ceil, sh, sw, sfh, sfw, vh,
      vw, sn, sk, ch, cw, fh1, fw1]
    simp [sn, sk]
  · rw [ch, fh1]
  · rw [cw, fw1]
  · rw [fh1]
    have hq := Int.ediv_add_emod ((h : Int) - (fh : Int)) u
    have hr0 := Int.emod_nonneg ((h : Int) - (fh : Int)) (show u ≠ 0 by omega)
    have hr1 := Int.emod_lt_of_pos ((h : Int) - (fh : Int)) (show 0 < u by omega)
    have e1 : (((h : Int) - (fh : Int)) / u + 1 - 1) * u = u * (((h : Int) - (fh : Int)) / u) := by
      ring
    have e2 : (((h : Int) - (fh : Int)) / u + 1) * u =
        u * (((h : Int) - (fh : Int)) / u) + u := by ring
    rw [e1, e2]
    constructor <;> omega
  · rw [fw1]
    have hq := Int.ediv_add_emod ((w : Int) - (fw : Int)) v
    have hr0 := Int.emod_nonneg ((w : Int) - (fw : Int)) (show v ≠ 0 by omega)
    have hr1 := Int.emod_lt_of_pos ((w : Int) - (fw : Int)) (show 0 < v by omega)
    have e1 : (((w : Int) - (fw : Int)) / v + 1 - 1) * v = v * (((w : Int) - (fw : Int)) / v) := by
      ring
    have e2 : (((w : Int) - (fw : Int)) / v + 1) * v =
        v * (((w : Int) - (fw : Int)) / v) + v := by ring
    rw [e1, e2]
    constructor <;> omega

/-- C31, at a concrete input: a 10x11 input and a 3x4 filter with strides 2 and
3 give a 4x3 output under the Valid policy (whose padding of 3 plays no part)
and under the Default policy without padding. -/
theorem C31_valid_equals_default_without_padding_witness :
    ConvolutionDescriptor.GetForwardOutputDim
        { mode := miopenConvolution, paddingMode := miopenPaddingValid, pad_h := 3,
          pad_w := 3, u := 2, v := 3, dilation_h := 1, dilation_w := 1, group_count := 1 }
        { type := miopenDataType_t.miopenFloat, lens := (1, 3, 10, 11) }
        { type := miopenDataType_t.miopenFloat, lens := (8, 3, 3, 4) } =
      ConvolutionDescriptor.GetForwardOutputDim
        { mode := miopenConvolution, paddingMode := miopenPaddingDefault, pad_h := 0,
          pad_w := 0, u := 2, v := 3, dilation_h := 1, dilation_w := 1, group_count := 1 }
        { type := miopenDataType_t.miopenFloat, lens := (1, 3, 10, 11) }
        { type := miopenDataType_t.miopenFloat, lens := (8, 3, 3, 4) } ∧
    ConvolutionDescriptor.GetForwardOutputDim
        { mode := miopenConvolution, paddingMode := miopenPaddingValid, pad_h := 3,
          pad_w := 3, u := 2, v := 3, dilation_h := 1, dilation_w := 1, group_count := 1 }
        { type := miopenDataType_t.miopenFloat, lens := (1, 3, 10, 11) }
        { type := miopenDataType_t.miopenFloat, lens := (8, 3, 3, 4) } = Except.ok (1, 8, 4, 3) :=
  ⟨(C31_valid_equals_default_without_padding
      { mode := miopenConvolution, paddingMode := miopenPaddingValid, pad_h := 3,
          pad_w := 3, u := 2, v := 3, dilation_h := 1, dilation_w := 1, group_count := 1 }
      miopenDataType_t.miopenFloat miopenDataType_t.miopenFloat 1 3 10 11 8 3 3 4
      rfl rfl rfl rfl (by decide) (by decide) (by decide) (by decide) (by decide)
      (by decide)).1,
    ((C31_valid_equals_default_without_padding
      { mode := miopenConvolution, paddingMode := miopenPaddingValid, pad_h := 3,
          pad_w := 3, u := 2, v := 3, dilation_h := 1, dilation_w := 1, group_count := 1 }
      miopenDataType_t.miopenFloat miopenDataType_t.miopenFloat 1 3 10 11 8 3 3 4
      rfl rfl rfl rfl (by decide) (by decide) (by decide) (by decide) (by decide)
      (by decide)).2.1 rfl rfl).trans (by decide!)⟩

/-! ## GetForwardOutputDim on constructed descriptors -/

theorem sizeToPtrdiff_ne_zero (n : Nat) (h : 1 ≤ n) : sizeToPtrdiff n ≠ 0 := by
  unfold sizeToPtrdiff toPtrdiff SIZE_MOD
  split_ifs <;> omega

theorem tdiv_ne_zero_of_tmod_eq_zero (a b : Int) (ha : a ≠ 0) (hm : Int.tmod a b = 0) :
    Int.tdiv a b ≠ 0 := by
  intro hq
  have h := Int.tmod_add_tdiv a b
  rw [hm, hq] at h
  omega

/-- Every divisor that `GetForwardOutputDim` evaluates is a stride, or the
`filter_c` read in Grouped mode, or the quotient `input_c / filter_c` in
Grouped mode when the remainder is 0, or the `input_c` read in Depthwise
mode. -/
theorem GetForwardOutputDim_traced_divisors (d : ConvolutionDescriptor)
    (tx tw : miopenDataType_t) (n c h w k fc fh fw : Nat) (z : Int)
    (hz : z ∈ (d.GetForwardOutputDim_traced { type := tx, lens := (n, c, h, w) }
        { type := tw, lens := (k, fc, fh, fw) }).2) :
    z = d.u ∨ z = d.v ∨
      (d.mode = miopenGroupConv ∧ (z = sizeToPtrdiff fc ∨
        (Int.tmod (sizeToPtrdiff c) (sizeToPtrdiff fc) = 0 ∧
          z = Int.tdiv (sizeToPtrdiff c) (sizeToPtrdiff fc)))) ∨
      (d.mode = miopenDepthwise ∧ z = sizeToPtrdiff c) := by
  obtain ⟨mode, pm, pad_h, pad_w, u, v, dilation_h, dilation_w, group_count⟩ := d
  simp only [ConvolutionDescriptor.GetForwardOutputDim_traced, TensorDescriptor.GetType,
    TensorDescriptor.GetLengths, tienPtrdiff, MIOPEN_THROW] at hz
  by_cases ht : tx = tw
  · cases mode <;> cases pm <;> simp [ht] at hz <;> (try split_ifs at hz) <;> simp_all <;> tauto
  · simp [ht] at hz

/-- The divisors that `GetForwardOutputDim` evaluates are not 0 when the
strides are not 0 and the channel counts that the check of the mode divides by
are at least 1. -/
theorem GetForwardOutputDim_traced_divisors_ne_zero (d : ConvolutionDescriptor)
    (tx tw : miopenDataType_t) (n c h w k fc fh fw : Nat)
    (hu : d.u ≠ 0) (hv : d.v ≠ 0)
    (hgroup : d.mode = miopenGroupConv → 1 ≤ c ∧ 1 ≤ fc)
    (hdepth : d.mode = miopenDepthwise → 1 ≤ c) :
    ∀ z ∈ (d.GetForwardOutputDim_traced { type := tx, lens := (n, c, h, w) }
        { type := tw, lens := (k, fc, fh, fw) }).2, z ≠ 0 := by
  intro z hz
  rcases GetForwardOutputDim_traced_divisors d tx tw n c h w k fc fh fw z hz with
    e | e | ⟨hm, e | ⟨hmod, e⟩⟩ | ⟨hm, e⟩
  · rw [e]
    exact hu
  · rw [e]
    exact hv
  · rw [e]
    exact sizeToPtrdiff_ne_zero fc (hgroup hm).2
  · rw [e]
    exact tdiv_ne_zero_of_tmod_eq_zero _ _ (sizeToPtrdiff_ne_zero c (hgroup hm).1) hmod
  · rw [e]
    exact sizeToPtrdiff_ne_zero c (hdepth hm)

theorem constructed_invariants (d : ConvolutionDescriptor)
    (hcon : (∃ pad_h pad_w u v dilation_h dilation_w,
        ConvolutionDescriptor.ConvolutionDescriptor6 pad_h pad_w u v dilation_h dilation_w =
          Except.ok d) ∨
      (∃ mode paddingMode pad_h pad_w u v dilation_h dilation_w,
        ConvolutionDescriptor.ConvolutionDescriptor8 mode paddingMode pad_h pad_w u v
          dilation_h dilation_w = Except.ok d)) :
    (d.paddingMode = miopenPaddingDefault ∨ d.paddingMode = miopenPaddingSame ∨
      d.paddingMode = miopenPaddingValid) ∧
    (d.mode = miopenConvolution ∨ d.mode = miopenTranspose ∨ d.mode = miopenGroupConv ∨
      d.mode = miopenDepthwise) ∧
    0 ≤ d.pad_h ∧ 0 ≤ d.pad_w ∧ 1 ≤ d.u ∧ 1 ≤ d.v ∧ 1 ≤ d.dilation_h ∧ 1 ≤ d.dilation_w ∧
    d.group_count = 1 := by
  rcases hcon with ⟨pad_h, pad_w, u, v, dilation_h, dilation_w, h⟩ |
    ⟨mode, paddingMode, pad_h, pad_w, u, v, dilation_h, dilation_w, h⟩
  · unfold ConvolutionDescriptor.ConvolutionDescriptor6 at h
    simp only [MIOPEN_THROW] at h
    split_ifs at h with h1
    injection h with h
    subst h
    refine ⟨Or.inl rfl, Or.inl rfl, ?_, ?_, ?_, ?_, ?_, ?_, rfl⟩ <;> simp only <;> omega
  · unfold ConvolutionDescriptor.ConvolutionDescriptor8 at h
    simp only [MIOPEN_THROW] at h
    split_ifs at h with h1 h2 h3
    injection h with h
    subst h
    refine ⟨?_, h2, ?_, ?_, ?_, ?_, ?_, ?_, rfl⟩
    · rcases h3 with h | h | h
      · exact Or.inr (Or.inl h)
      · exact Or.inr (Or.inr h)
      · exact Or.inl h
    all_goals simp only
    all_goals omega

theorem GetForwardOutputDim_of_type_ne (d : ConvolutionDescriptor) (tx tw : miopenDataType_t)
    (lx lw : Nat × Nat × Nat × Nat) (hne : tx ≠ tw) :
    d.GetForwardOutputDim { type := tx, lens := lx } { type := tw, lens := lw } =
      Except.error
        { status := miopenStatusBadParm, message := "Types do not match for the filter" } := by
  simp [ConvolutionDescriptor.GetForwardOutputDim, TensorDescriptor.GetType, hne, MIOPEN_THROW]

theorem GetForwardOutputDim_of_channel_rule (d : ConvolutionDescriptor) (ty : miopenDataType_t)
    (n c h w k fc fh fw : Nat)
    (hpad : d.paddingMode = miopenPaddingDefault ∨ d.paddingMode = miopenPaddingSame ∨
      d.paddingMode = miopenPaddingValid)
    (hconv : d.mode = miopenConvolution → c = fc)
    (htrans : d.mode = miopenTranspose → c = k)
    (hgroup : d.mode = miopenGroupConv → c % fc = 0 ∧ k % (c / fc) = 0)
    (hdepth : d.mode = miopenDepthwise → fc = 1 ∧ k % c = 0)
    (hrange : d.mode = miopenGroupConv ∨ d.mode = miopenDepthwise →
      c < 2 ^ 63 ∧ fc < 2 ^ 63 ∧ k < 2 ^ 63) :
    ∃ r, d.GetForwardOutputDim { type := ty, lens := (n, c, h, w) }
        { type := ty, lens := (k, fc, fh, fw) } = Except.ok r := by
  obtain ⟨mode, pm, pad_h, pad_w, u, v, dilation_h, dilation_w, group_count⟩ := d
  simp only at hpad hconv htrans hgroup hdepth hrange ⊢
  by_cases hgd : mode = miopenGroupConv ∨ mode = miopenDepthwise
  · obtain ⟨hc, hfc, hk⟩ := hrange hgd
    have ec := sizeToPtrdiff_of_lt c hc
    have efc := sizeToPtrdiff_of_lt fc hfc
    have ek := sizeToPtrdiff_of_lt k hk
    simp only [ConvolutionDescriptor.GetForwardOutputDim, TensorDescriptor.GetType,
      TensorDescriptor.GetLengths, tienPtrdiff, MIOPEN_THROW, ec, efc, ek, natCast_tdiv_natCast,
      natCast_tmod_natCast]
    clear hrange ec efc ek
    rcases hgd with hm | hm <;> subst hm <;> rcases hpad with hb | hb | hb <;> subst hb <;>
      simp_all
  · simp only [ConvolutionDescriptor.GetForwardOutputDim, TensorDescriptor.GetType,
      TensorDescriptor.GetLengths, tienPtrdiff, MIOPEN_THROW]
    clear hrange
    cases mode <;> rcases hpad with hb | hb | hb <;> subst hb <;> simp_all <;>
      split_ifs <;> simp

theorem GetForwardOutputDim_of_channel_mismatch (d : ConvolutionDescriptor)
    (ty : miopenDataType_t) (n c h w k fc fh fw : Nat)
    (hrule : ¬ ((d.mode = miopenConvolution → c = fc) ∧ (d.mode = miopenTranspose → c = k) ∧
      (d.mode = miopenGroupConv → c % fc = 0 ∧ k % (c / fc) = 0) ∧
      (d.mode = miopenDepthwise → fc = 1 ∧ k % c = 0)))
    (hrange : d.mode = miopenGroupConv ∨ d.mode = miopenDepthwise →
      c < 2 ^ 63 ∧ fc < 2 ^ 63 ∧ k < 2 ^ 63) :
    d.GetForwardOutputDim { type := ty, lens := (n, c, h, w) }
        { type := ty, lens := (k, fc, fh, fw) } =
      Except.error
        { status := miopenStatusBadParm, message := "Channels do not match for the filter" } := by
  obtain ⟨mode, pm, pad_h, pad_w, u, v, dilation_h, dilation_w, group_count⟩ := d
  simp only at hrule hrange ⊢
  by_cases hgd : mode = miopenGroupConv ∨ mode = miopenDepthwise
  · obtain ⟨hc, hfc, hk⟩ := hrange hgd
    have ec := sizeToPtrdiff_of_lt c hc
    have efc := sizeToPtrdiff_of_lt fc hfc
    have ek := sizeToPtrdiff_of_lt k hk
    simp only [ConvolutionDescriptor.GetForwardOutputDim, TensorDescriptor.GetType,
      TensorDescriptor.GetLengths, tienPtrdiff, MIOPEN_THROW, ec, efc, ek, natCast_tdiv_natCast,
      natCast_tmod_natCast]
    clear hrange ec efc ek hc hfc hk
    rcases hgd with hm | hm <;> subst hm <;> simp_all
    · intro h1 h2
      exfalso
      have h3 : fc ∣ c := by exact_mod_cast h1
      have h4 : c / fc ∣ k := by exact_mod_cast h2
      exact hrule (Nat.mod_eq_zero_of_dvd h3) (Nat.mod_eq_zero_of_dvd h4)
    · intro h1 h2
      exfalso
      have h3 : c ∣ k := by exact_mod_cast h2
      exact hrule h1 (Nat.mod_eq_zero_of_dvd h3)
  · have i1 : sizeToPtrdiff c = sizeToPtrdiff fc ↔ c = fc :=
      ⟨sizeToPtrdiff_injective c fc, fun he => by rw [he]⟩
    have i2 : sizeToPtrdiff c = sizeToPtrdiff k ↔ c = k :=
      ⟨sizeToPtrdiff_injective c k, fun he => by rw [he]⟩
    simp only [ConvolutionDescriptor.GetForwardOutputDim, TensorDescriptor.GetType,
      TensorDescriptor.GetLengths, tienPtrdiff, MIOPEN_THROW, ne_eq, i1, i2]
    clear hrange i1 i2
    cases mode <;> simp_all

/-- C32 as stated fails on three inputs of descriptors that the 8-argument
constructor returns.  In Depthwise mode with `input_c = 0` and the filter
(0, 1, 3, 3) the channel rule holds, and the remainder `filter_k % input_c` is
taken with the divisor 0.  In Grouped mode with `filter_c = 0` the remainder
`input_c % filter_c` is taken with the divisor 0.  In Grouped mode with
`input_c = 2 ^ 63 + 1` and the filter (3074457345618258603, 3, 3, 3) the
channel rule holds, but `input_c` is read as a negative `std::ptrdiff_t` and
the call throws the channel-mismatch error. -/
theorem C32_counterexample :
    ConvolutionDescriptor.ConvolutionDescriptor8 miopenDepthwise miopenPaddingDefault
        1 1 1 1 1 1 =
      Except.ok
        { mode := miopenDepthwise, paddingMode := miopenPaddingDefault, pad_h := 1, pad_w := 1,
          u := 1, v := 1, dilation_h := 1, dilation_w := 1, group_count := 1 } ∧
    (((1 : Nat) = 1 ∧ 0 % 0 = 0) ∧
      (ConvolutionDescriptor.GetForwardOutputDim_traced
        { mode := miopenDepthwise, paddingMode := miopenPaddingDefault, pad_h := 1, pad_w := 1,
          u := 1, v := 1, dilation_h := 1, dilation_w := 1, group_count := 1 }
        { type := miopenDataType_t.miopenFloat, lens := (1, 0, 5, 5) }
        { type := miopenDataType_t.miopenFloat, lens := (0, 1, 3, 3) }).2 = [0, 1, 1]) ∧
    ConvolutionDescriptor.ConvolutionDescriptor8 miopenGroupConv miopenPaddingDefault
        1 1 1 1 1 1 =
      Except.ok
        { mode := miopenGroupConv, paddingMode := miopenPaddingDefault, pad_h := 1, pad_w := 1,
          u := 1, v := 1, dilation_h := 1, dilation_w := 1, group_count := 1 } ∧
    (ConvolutionDescriptor.GetForwardOutputDim_traced
        { mode := miopenGroupConv, paddingMode := miopenPaddingDefault, pad_h := 1, pad_w := 1,
          u := 1, v := 1, dilation_h := 1, dilation_w := 1, group_count := 1 }
        { type := miopenDataType_t.miopenFloat, lens := (1, 8, 5, 5) }
        { type := miopenDataType_t.miopenFloat, lens := (16, 0, 3, 3) }).2 = [0] ∧
    ((9223372036854775809 % 3 = 0 ∧
        3074457345618258603 % (9223372036854775809 / 3) = 0) ∧
      ConvolutionDescriptor.GetForwardOutputDim
        { mode := miopenGroupConv, paddingMode := miopenPaddingDefault, pad_h := 1, pad_w := 1,
          u := 1, v := 1, dilation_h := 1, dilation_w := 1, group_count := 1 }
        { type := miopenDataType_t.miopenFloat, lens := (1, 9223372036854775809, 5, 5) }
        { type := miopenDataType_t.miopenFloat,
          lens := (3074457345618258603, 3, 3, 3) } =
      Except.error
        { status := miopenStatusBadParm,
          message := "Channels do not match for the filter" }) := by
  refine ⟨rfl, ⟨?_, ?_⟩, rfl, ?_, ⟨?_, ?_⟩⟩ <;> decide

/-- C32 (amended): for every descriptor that one of the two constructors
returns and every pair of rank-4 tensors, where in Grouped and Depthwise mode
the three channel counts are below `2 ^ 63` and `input_c` is at least 1, and
in Grouped mode `filter_c` is at least 1: `GetForwardOutputDim` divides by no
zero and does not fail with the invalid-value error "Invalid Padding Mode!":
when it fails, it is with the type-mismatch error (the types differ) or with
the channel-mismatch error (the types agree and the channel rule of the mode
is broken), and it returns dimensions whenever the types agree and the channel
rule of the mode holds. -/
theorem C32_constructed_never_invalid_padding (d : ConvolutionDescriptor)
    (tx tw : miopenDataType_t) (n c h w k fc fh fw : Nat)
    (hcon : (∃ pad_h pad_w u v dilation_h dilation_w,
        ConvolutionDescriptor.ConvolutionDescriptor6 pad_h pad_w u v dilation_h dilation_w =
          Except.ok d) ∨
      (∃ mode paddingMode pad_h pad_w u v dilation_h dilation_w,
        ConvolutionDescriptor.ConvolutionDescriptor8 mode paddingMode pad_h pad_w u v
          dilation_h dilation_w = Except.ok d))
    (hrange : d.mode = miopenGroupConv ∨ d.mode = miopenDepthwise →
      1 ≤ c ∧ c < 2 ^ 63 ∧ fc < 2 ^ 63 ∧ k < 2 ^ 63)
    (hfc : d.mode = miopenGroupConv → 1 ≤ fc) :
    (∀ z ∈ (d.GetForwardOutputDim_traced { type := tx, lens := (n, c, h, w) }
        { type := tw, lens := (k, fc, fh, fw) }).2, z ≠ 0) ∧
    (∀ e, d.GetForwardOutputDim { type := tx, lens := (n, c, h, w) }
        { type := tw, lens := (k, fc, fh, fw) } = Except.error e →
      e.status ≠ miopenStatusInvalidValue ∧
      ((tx ≠ tw ∧ e =
          { status := miopenStatusBadParm, message := "Types do not match for the filter" }) ∨
        (tx = tw ∧
          ¬ ((d.mode = miopenConvolution → c = fc) ∧ (d.mode = miopenTranspose → c = k) ∧
            (d.mode = miopenGroupConv → c % fc = 0 ∧ k % (c / fc) = 0) ∧
            (d.mode = miopenDepthwise → fc = 1 ∧ k % c = 0)) ∧
          e = { status := miopenStatusBadParm,
                message := "Channels do not match for the filter" }))) ∧
    (tx = tw →
      ((d.mode = miopenConvolution → c = fc) ∧ (d.mode = miopenTranspose → c = k) ∧
        (d.mode = miopenGroupConv → c % fc = 0 ∧ k % (c / fc) = 0) ∧
        (d.mode = miopenDepthwise → fc = 1 ∧ k % c = 0)) →
      ∃ r, d.GetForwardOutputDim { type := tx, lens := (n, c, h, w) }
        { type := tw, lens := (k, fc, fh, fw) } = Except.ok r) := by
  obtain ⟨hpad, -, -, -, hu, hv, -⟩ := constructed_invariants d hcon
  have hrange2 : d.mode = miopenGroupConv ∨ d.mode = miopenDepthwise →
      c < 2 ^ 63 ∧ fc < 2 ^ 63 ∧ k < 2 ^ 63 := fun hm => (hrange hm).2
  refine ⟨?_, ?_, ?_⟩
  · exact GetForwardOutputDim_traced_divisors_ne_zero d tx tw n c h w k fc fh fw (by omega)
      (by omega) (fun hm => ⟨(hrange (Or.inl hm)).1, hfc hm⟩)
      (fun hm => (hrange (Or.inr hm)).1)
  · intro e he
    by_cases ht : tx = tw
    · subst ht
      by_cases hrule : ((d.mode = miopenConvolution → c = fc) ∧
          (d.mode = miopenTranspose → c = k) ∧
          (d.mode = miopenGroupConv → c % fc = 0 ∧ k % (c / fc) = 0) ∧
          (d.mode = miopenDepthwise → fc = 1 ∧ k % c = 0))
      · obtain ⟨r, hr⟩ := GetForwardOutputDim_of_channel_rule d tx n c h w k fc fh fw hpad
          hrule.1 hrule.2.1 hrule.2.2.1 hrule.2.2.2 hrange2
        rw [hr] at he
        cases he
      · rw [GetForwardOutputDim_of_channel_mismatch d tx n c h w k fc fh fw hrule hrange2] at he
        injection he with he
        subst he
        exact ⟨by decide, Or.inr ⟨rfl, hrule, rfl⟩⟩
    · rw [GetForwardOutputDim_of_type_ne d tx tw _ _ ht] at he
      injection he with he
      subst he
      exact ⟨by decide, Or.inl ⟨ht, rfl⟩⟩
  · rintro rfl hrule
    exact GetForwardOutputDim_of_channel_rule d tx n c h w k fc fh fw hpad
      hrule.1 hrule.2.1 hrule.2.2.1 hrule.2.2.2 hrange2

/-- C32 (amended), at a descriptor that the 8-argument constructor returns for
Grouped mode under the Same policy: 8 input channels with a filter of 4
channels per group and 16 outputs give dimensions, and a filter of 3 channels
per group gives the channel-mismatch error. -/
theorem C32_constructed_never_invalid_padding_witness :
    ConvolutionDescriptor.ConvolutionDescriptor8 miopenGroupConv miopenPaddingSame 1 1 1 1 1 1 =
      Except.ok
        { mode := miopenGroupConv, paddingMode := miopenPaddingSame, pad_h := 1, pad_w := 1,
          u := 1, v := 1, dilation_h := 1, dilation_w := 1, group_count := 1 } ∧
    (∃ r, ConvolutionDescriptor.GetForwardOutputDim
        { mode := miopenGroupConv, paddingMode := miopenPaddingSame, pad_h := 1, pad_w := 1,
          u := 1, v := 1, dilation_h := 1, dilation_w := 1, group_count := 1 }
        { type := miopenDataType_t.miopenFloat, lens := (1, 8, 5, 5) }
        { type := miopenDataType_t.miopenFloat, lens := (16, 4, 3, 3) } = Except.ok r) ∧
    (miopenStatusBadParm ≠ miopenStatusInvalidValue ∧
      ConvolutionDescriptor.GetForwardOutputDim
          { mode := miopenGroupConv, paddingMode := miopenPaddingSame, pad_h := 1, pad_w := 1,
            u := 1, v := 1, dilation_h := 1, dilation_w := 1, group_count := 1 }
          { type := miopenDataType_t.miopenFloat, lens := (1, 8, 5, 5) }
          { type := miopenDataType_t.miopenFloat, lens := (16, 3, 3, 3) } =
        Except.error
          { status := miopenStatusBadParm,
            message := "Channels do not match for the filter" }) :=
  ⟨rfl,
    (C32_constructed_never_invalid_padding
      { mode := miopenGroupConv, paddingMode := miopenPaddingSame, pad_h := 1, pad_w := 1,
        u := 1, v := 1, dilation_h := 1, dilation_w := 1, group_count := 1 }
      miopenDataType_t.miopenFloat miopenDataType_t.miopenFloat 1 8 5 5 16 4 3 3
      (Or.inr ⟨miopenGroupConv, miopenPaddingSame, 1, 1, 1, 1, 1, 1, rfl⟩)
      (fun _ => by decide) (fun _ => by decide)).2.2 rfl (by decide),
    ⟨((C32_constructed_never_invalid_padding
      { mode := miopenGroupConv, paddingMode := miopenPaddingSame, pad_h := 1, pad_w := 1,
        u := 1, v := 1, dilation_h := 1, dilation_w := 1, group_count := 1 }
      miopenDataType_t.miopenFloat miopenDataType_t.miopenFloat 1 8 5 5 16 3 3 3
      (Or.inr ⟨miopenGroupConv, miopenPaddingSame, 1, 1, 1, 1, 1, 1, rfl⟩)
      (fun _ => by decide) (fun _ => by decide)).2.1
      { status := miopenStatusBadParm, message := "Channels do not match for the filter" }
      (by decide)).1, by decide⟩⟩

/-! ## Divisors -/

/-- C33 as stated fails in its part on `GetBackwardsWeightsDim`: for the
Depthwise-mode descriptor that the 8-argument constructor returns
(`group_count = 1`) and an input with `2 ^ 32` channels, all of whose lengths
are at least 1, the `int` variable `groups` holds 0, and `input_c / groups` is
taken with the divisor 0. -/
theorem C33_counterexample :
    ConvolutionDescriptor.ConvolutionDescriptor8 miopenDepthwise miopenPaddingDefault
        1 1 1 1 1 1 =
      Except.ok
        { mode := miopenDepthwise, paddingMode := miopenPaddingDefault, pad_h := 1, pad_w := 1,
          u := 1, v := 1, dilation_h := 1, dilation_w := 1, group_count := 1 } ∧
    (ConvolutionDescriptor.GetBackwardsWeightsDim_traced
        { mode := miopenDepthwise, paddingMode := miopenPaddingDefault, pad_h := 1, pad_w := 1,
          u := 1, v := 1, dilation_h := 1, dilation_w := 1, group_count := 1 }
        { type := miopenDataType_t.miopenFloat, lens := (1, 4294967296, 5, 5) }
        { type := miopenDataType_t.miopenFloat, lens := (1, 4294967296, 5, 5) }).2 = [0] ∧
    (1 ≤ 4294967296 ∧ (1 : Int) ≤ 1) := by
  refine ⟨rfl, ?_, ?_⟩ <;> decide

/-- C33 (amended): for every descriptor that a constructor returns and every
input and filter whose four lengths are all at least 1, every division and
remainder that `GetForwardOutputDim` evaluates has a non-zero divisor
(`filter_c` and `input_c / filter_c` in Grouped mode, `input_c` in Depthwise
mode, `u` and `v` in the spatial formulas); and for every descriptor with
`group_count >= 1` (an `int` value), the divisor of `input_c / groups` in
`GetBackwardsWeightsDim` is non-zero, provided that in Depthwise mode
`input_c` is not a multiple of `2 ^ 32` (the `int` variable `groups` holds
`input_c` reduced to 32 bits). -/
theorem C33_divisors_nonzero (d : ConvolutionDescriptor) (tx tw : miopenDataType_t)
    (n c h w k fc fh fw : Nat)
    (hcon : (∃ pad_h pad_w u v dilation_h dilation_w,
        ConvolutionDescriptor.ConvolutionDescriptor6 pad_h pad_w u v dilation_h dilation_w =
          Except.ok d) ∨
      (∃ mode paddingMode pad_h pad_w u v dilation_h dilation_w,
        ConvolutionDescriptor.ConvolutionDescriptor8 mode paddingMode pad_h pad_w u v
          dilation_h dilation_w = Except.ok d))
    (hdims : 1 ≤ n ∧ 1 ≤ c ∧ 1 ≤ h ∧ 1 ≤ w ∧ 1 ≤ k ∧ 1 ≤ fc ∧ 1 ≤ fh ∧ 1 ≤ fw) :
    (∀ z ∈ (d.GetForwardOutputDim_traced { type := tx, lens := (n, c, h, w) }
        { type := tw, lens := (k, fc, fh, fw) }).2, z ≠ 0) ∧
    (∀ (d2 : ConvolutionDescriptor) (yDesc : TensorDescriptor),
      1 ≤ d2.group_count → d2.group_count < 2 ^ 31 →
      (d2.mode = miopenDepthwise → c % 2 ^ 32 ≠ 0) →
      ∀ z ∈ (d2.GetBackwardsWeightsDim_traced { type := tx, lens := (n, c, h, w) } yDesc).2,
        z ≠ 0) := by
  obtain ⟨-, -, -, -, hu, hv, -⟩ := constructed_invariants d hcon
  obtain ⟨-, hc, -, -, -, hfc, -, -⟩ := hdims
  constructor
  · exact GetForwardOutputDim_traced_divisors_ne_zero d tx tw n c h w k fc fh fw (by omega)
      (by omega) (fun _ => ⟨hc, hfc⟩) (fun _ => hc)
  · intro d2 yDesc hg1 hg2 hc32 z hz
    simp only [ConvolutionDescriptor.GetBackwardsWeightsDim_traced, TensorDescriptor.GetType,
      TensorDescriptor.GetLengths] at hz
    by_cases ht : tx = yDesc.type
    · rw [if_neg (not_not.mpr ht)] at hz
      simp only [List.mem_singleton] at hz
      subst hz
      by_cases hm : d2.mode = miopenDepthwise
      · have hne := hc32 hm
        rw [if_pos hm]
        unfold toSizeT toInt
        omega
      · rw [if_neg hm]
        by_cases hg : d2.mode = miopenGroupConv
        · rw [if_pos hg]
          unfold toSizeT
          omega
        · rw [if_neg hg]
          decide
    · rw [if_pos ht] at hz
      exact absurd hz (List.not_mem_nil z)

/-- C33 (amended), at a Grouped-mode descriptor that the 8-argument constructor
returns, with 8 input channels and a filter of 4 channels per group: the
divisors are 4, 4, 8 / 4 = 2 and the two strides. -/
theorem C33_divisors_nonzero_witness :
    (ConvolutionDescriptor.GetForwardOutputDim_traced
        { mode := miopenGroupConv, paddingMode := miopenPaddingDefault, pad_h := 1, pad_w := 1,
          u := 2, v := 2, dilation_h := 1, dilation_w := 1, group_count := 1 }
        { type := miopenDataType_t.miopenFloat, lens := (1, 8, 5, 5) }
        { type := miopenDataType_t.miopenFloat, lens := (16, 4, 3, 3) }).2 = [4, 4, 2, 2, 2] ∧
    (∀ z ∈ (ConvolutionDescriptor.GetForwardOutputDim_traced
        { mode := miopenGroupConv, paddingMode := miopenPaddingDefault, pad_h := 1, pad_w := 1,
          u := 2, v := 2, dilation_h := 1, dilation_w := 1, group_count := 1 }
        { type := miopenDataType_t.miopenFloat, lens := (1, 8, 5, 5) }
        { type := miopenDataType_t.miopenFloat, lens := (16, 4, 3, 3) }).2, z ≠ 0) ∧
    (∀ z ∈ (ConvolutionDescriptor.GetBackwardsWeightsDim_traced
        { mode := miopenGroupConv, paddingMode := miopenPaddingDefault, pad_h := 1, pad_w := 1,
          u := 2, v := 2, dilation_h := 1, dilation_w := 1, group_count := 1 }
        { type := miopenDataType_t.miopenFloat, lens := (1, 8, 5, 5) }
        { type := miopenDataType_t.miopenFloat, lens := (1, 16, 3, 3) }).2, z ≠ 0) :=
  ⟨by decide,
    (C33_divisors_nonzero
      { mode := miopenGroupConv, paddingMode := miopenPaddingDefault, pad_h := 1, pad_w := 1,
          u := 2, v := 2, dilation_h := 1, dilation_w := 1, group_count := 1 }
      miopenDataType_t.miopenFloat miopenDataType_t.miopenFloat 1 8 5 5 16 4 3 3
      (Or.inr ⟨miopenGroupConv, miopenPaddingDefault, 1, 1, 2, 2, 1, 1, rfl⟩) (by decide)).1,
    (C33_divisors_nonzero
      { mode := miopenGroupConv, paddingMode := miopenPaddingDefault, pad_h := 1, pad_w := 1,
          u := 2, v := 2, dilation_h := 1, dilation_w := 1, group_count := 1 }
      miopenDataType_t.miopenFloat miopenDataType_t.miopenFloat 1 8 5 5 16 4 3 3
      (Or.inr ⟨miopenGroupConv, miopenPaddingDefault, 1, 1, 2, 2, 1, 1, rfl⟩) (by decide)).2
      { mode := miopenGroupConv, paddingMode := miopenPaddingDefault, pad_h := 1, pad_w := 1,
          u := 2, v := 2, dilation_h := 1, dilation_w := 1, group_count := 1 }
      { type := miopenDataType_t.miopenFloat, lens := (1, 16, 3, 3) } (by decide) (by decide)
      (fun _ => by decide)⟩

/-! ## IsDirectSupported -/

/-- C34: `IsDirectSupported(w)` returns `true` in every mode other than
Standard; in Standard mode (with pad_h, pad_w >= 0, as every constructed
descriptor has, and the filter height and width below `2 ^ 31`, so that the
`int` variables hold them unchanged) it returns `true` exactly when the filter
(h, w) is 1x1 with
pad_h = pad_w = 0, or 3x3 with u <= 2 and v <= 2, or 5x5, 7x7, 9x9 or 11x11, or
5x10 or 5x20 with u = v = 2 and pad_h = pad_w = 0; and in Standard mode the
result is the one computed without the clause on kernels of even height and
even width, which therefore never changes it. -/
theorem C34_direct_supported_filters (d : ConvolutionDescriptor) (tw : miopenDataType_t)
    (k c fh fw : Nat) (hlens : fh < 2 ^ 31 ∧ fw < 2 ^ 31) :
    (d.mode ≠ miopenConvolution →
      d.IsDirectSupported { type := tw, lens := (k, c, fh, fw) } = true) ∧
    (d.mode = miopenConvolution → 0 ≤ d.pad_h → 0 ≤ d.pad_w →
      (d.IsDirectSupported { type := tw, lens := (k, c, fh, fw) } = true ↔
        ((fh = 1 ∧ fw = 1 ∧ d.pad_h = 0 ∧ d.pad_w = 0) ∨
          (fh = 3 ∧ fw = 3 ∧ d.u ≤ 2 ∧ d.v ≤ 2) ∨
          (fh = 5 ∧ fw = 5) ∨ (fh = 7 ∧ fw = 7) ∨ (fh = 9 ∧ fw = 9) ∨ (fh = 11 ∧ fw = 11) ∨
          (fh = 5 ∧ fw = 10 ∧ d.u = 2 ∧ d.v = 2 ∧ d.pad_h = 0 ∧ d.pad_w = 0) ∨
          (fh = 5 ∧ fw = 20 ∧ d.u = 2 ∧ d.v = 2 ∧ d.pad_h = 0 ∧ d.pad_w = 0)))) ∧
    (d.mode = miopenConvolution →
      d.IsDirectSupported { type := tw, lens := (k, c, fh, fw) } =
        (decide ((fh = 1 ∧ fw = 1) ∨ (fh = 3 ∧ fw = 3) ∨ (fh = 5 ∧ fw = 5) ∨
            (fh = 7 ∧ fw = 7) ∨ (fh = 9 ∧ fw = 9) ∨ (fh = 11 ∧ fw = 11) ∨
            (fh = 5 ∧ fw = 10 ∧ d.u = 2 ∧ d.v = 2 ∧ d.pad_h = 0 ∧ d.pad_w = 0) ∨
            (fh = 5 ∧ fw = 20 ∧ d.u = 2 ∧ d.v = 2 ∧ d.pad_h = 0 ∧ d.pad_w = 0)) &&
          !decide ((fh = 3 ∧ fw = 3 ∧ (d.u > 2 ∨ d.v > 2)) ∨
            (fh = 1 ∧ fw = 1 ∧ (d.pad_h > 0 ∨ d.pad_w > 0))))) := by
  have efh := toInt_of_range (fh : Int) (by omega) (by omega)
  have efw := toInt_of_range (fw : Int) (by omega) (by omega)
  clear hlens
  have hm1 : Int.tmod (fh : Int) 2 = ((fh % 2 : Nat) : Int) := natCast_tmod_natCast fh 2
  have hm2 : Int.tmod (fw : Int) 2 = ((fw % 2 : Nat) : Int) := natCast_tmod_natCast fw 2
  have hodd : ((fh = 1 ∧ fw = 1) ∨ (fh = 3 ∧ fw = 3) ∨ (fh = 5 ∧ fw = 5) ∨
      (fh = 7 ∧ fw = 7) ∨ (fh = 9 ∧ fw = 9) ∨ (fh = 11 ∧ fw = 11) ∨
      (fh = 5 ∧ fw = 10 ∧ d.u = 2 ∧ d.v = 2 ∧ d.pad_h = 0 ∧ d.pad_w = 0) ∨
      (fh = 5 ∧ fw = 20 ∧ d.u = 2 ∧ d.v = 2 ∧ d.pad_h = 0 ∧ d.pad_w = 0)) →
      ¬ (fh % 2 = 0 ∧ fw % 2 = 0) := by
    rintro (⟨h1, -⟩ | ⟨h1, -⟩ | ⟨h1, -⟩ | ⟨h1, -⟩ | ⟨h1, -⟩ | ⟨h1, -⟩ | ⟨h1, -⟩ | ⟨h1, -⟩) ⟨e1, -⟩ <;>
      omega
  refine ⟨?_, ?_, ?_⟩
  · intro hmode
    simp only [ConvolutionDescriptor.IsDirectSupported, if_pos hmode]
  · intro hmode hph hpw
    simp only [ConvolutionDescriptor.IsDirectSupported, hmode, ne_eq, not_true_eq_false,
      if_false, tienInt, TensorDescriptor.GetLengths, efh, efw, hm1, hm2, Bool.and_eq_true,
      Bool.not_eq_true', decide_eq_true_eq, decide_eq_false_iff_not]
    clear efh efw hm1 hm2
    norm_cast
    constructor
    · rintro ⟨h1, h2⟩
      rcases h1 with ⟨e1, e2⟩ | ⟨e1, e2⟩ | ⟨e1, e2⟩ | ⟨e1, e2⟩ | ⟨e1, e2⟩ | ⟨e1, e2⟩ |
        ⟨e1, e2, hu, hv, hp1, hp2⟩ | ⟨e1, e2, hu, hv, hp1, hp2⟩
      all_goals subst e1 e2
      · have hn : ¬ (d.pad_h > 0 ∨ d.pad_w > 0) := fun hn => h2 (Or.inr (Or.inl ⟨rfl, rfl, hn⟩))
        clear h2
        simp only [true_and, OfNat.one_ne_ofNat, false_and, or_false]
        constructor <;> omega
      · have hn : ¬ (d.u > 2 ∨ d.v > 2) := fun hn => h2 (Or.inl ⟨rfl, rfl, hn⟩)
        clear h2
        simp only [true_and, OfNat.ofNat_ne_one, Nat.reduceEqDiff, false_and, false_or, or_false]
        constructor <;> omega
      all_goals clear h2
      all_goals simp [*]
    · intro h
      have hA : (fh = 1 ∧ fw = 1) ∨ (fh = 3 ∧ fw = 3) ∨ (fh = 5 ∧ fw = 5) ∨
          (fh = 7 ∧ fw = 7) ∨ (fh = 9 ∧ fw = 9) ∨ (fh = 11 ∧ fw = 11) ∨
          (fh = 5 ∧ fw = 10 ∧ d.u = 2 ∧ d.v = 2 ∧ d.pad_h = 0 ∧ d.pad_w = 0) ∨
          (fh = 5 ∧ fw = 20 ∧ d.u = 2 ∧ d.v = 2 ∧ d.pad_h = 0 ∧ d.pad_w = 0) := by
        rcases h with ⟨e1, e2, -⟩ | ⟨e1, e2, -⟩ | ⟨e1, e2⟩ | ⟨e1, e2⟩ | ⟨e1, e2⟩ | ⟨e1, e2⟩ |
          ⟨e1, e2, hu, hv, hp1, hp2⟩ | ⟨e1, e2, hu, hv, hp1, hp2⟩
        all_goals subst e1 e2
        all_goals simp [*]
      refine ⟨hA, ?_⟩
      rintro (⟨e1, e2, e3⟩ | ⟨e1, e2, e3⟩ | e)
      · rcases h with ⟨h1, -⟩ | ⟨-, -, h3, h4⟩ | ⟨h1, -⟩ | ⟨h1, -⟩ | ⟨h1, -⟩ | ⟨h1, -⟩ |
          ⟨h1, -⟩ | ⟨h1, -⟩ <;> omega
      · rcases h with ⟨-, -, h3, h4⟩ | ⟨h1, -⟩ | ⟨h1, -⟩ | ⟨h1, -⟩ | ⟨h1, -⟩ | ⟨h1, -⟩ |
          ⟨h1, -⟩ | ⟨h1, -⟩ <;> omega
      · exact hodd hA e
  · intro hmode
    simp only [ConvolutionDescriptor.IsDirectSupported, hmode, ne_eq, not_true_eq_false,
      if_false, tienInt, TensorDescriptor.GetLengths, efh, efw, hm1, hm2]
    rw [Bool.eq_iff_iff]
    simp only [Bool.and_eq_true, Bool.not_eq_true', decide_eq_true_eq, decide_eq_false_iff_not]
    clear efh efw hm1 hm2
    norm_cast
    constructor
    · rintro ⟨h1, h2⟩
      exact ⟨h1, fun hb => h2 (hb.elim Or.inl (fun hb2 => Or.inr (Or.inl hb2)))⟩
    · rintro ⟨h1, h2⟩
      refine ⟨h1, ?_⟩
      rintro (hb | hb | e)
      · exact h2 (Or.inl hb)
      · exact h2 (Or.inr hb)
      · exact hodd h1 e

/-- C34, at concrete inputs: a Standard-mode 3x3 filter with strides 2 and 1 is
supported, and so is a 4x4 filter in Grouped mode. -/
theorem C34_direct_supported_filters_witness :
    ConvolutionDescriptor.IsDirectSupported
        { mode := miopenConvolution, paddingMode := miopenPaddingDefault, pad_h := 1, pad_w := 1,
          u := 2, v := 1, dilation_h := 1, dilation_w := 1, group_count := 1 }
        { type := miopenDataType_t.miopenFloat, lens := (32, 16, 3, 3) } = true ∧
    ConvolutionDescriptor.IsDirectSupported
        { mode := miopenGroupConv, paddingMode := miopenPaddingDefault, pad_h := 1, pad_w := 1,
          u := 1, v := 1, dilation_h := 1, dilation_w := 1, group_count := 2 }
        { type := miopenDataType_t.miopenFloat, lens := (32, 16, 4, 4) } = true :=
  ⟨((C34_direct_supported_filters
      { mode := miopenConvolution, paddingMode := miopenPaddingDefault, pad_h := 1, pad_w := 1,
          u := 2, v := 1, dilation_h := 1, dilation_w := 1, group_count := 1 }
      miopenDataType_t.miopenFloat 32 16 3 3 (by decide)).2.1 rfl (by decide) (by decide)).mpr
      (Or.inr (Or.inl ⟨rfl, rfl, by decide, by decide⟩)),
    (C34_direct_supported_filters
      { mode := miopenGroupConv, paddingMode := miopenPaddingDefault, pad_h := 1, pad_w := 1,
          u := 1, v := 1, dilation_h := 1, dilation_w := 1, group_count := 2 }
      miopenDataType_t.miopenFloat 32 16 4 4 (by decide)).1 (by decide)⟩

/-! ## The workspace planner in Transposed mode -/

theorem GEMM_functions_agree (d : ConvolutionDescriptor) (env : Environment) (handle : Handle)
    (wDesc tDesc : TensorDescriptor) :
    d.ForwardGetWorkSpaceSizeGEMM env handle wDesc tDesc =
      d.BackwardDataGetWorkSpaceSizeGEMM env handle wDesc tDesc ∧
    d.BackwardDataGetWorkSpaceSizeGEMM env handle wDesc tDesc =
      d.BackwardWeightsGetWorkSpaceSizeGEMM env handle tDesc wDesc :=
  ⟨rfl, rfl⟩

theorem ForwardGetWorkSpaceSizeGEMM_le_ceiling (d : ConvolutionDescriptor) (env : Environment)
    (handle : Handle) (wDesc tDesc : TensorDescriptor) :
    d.ForwardGetWorkSpaceSizeGEMM env handle wDesc tDesc ≤ handle.GetMaxMemoryAllocSize := by
  unfold ConvolutionDescriptor.ForwardGetWorkSpaceSizeGEMM
  simp only
  split_ifs <;> omega

/-- C35: in Transposed mode with the matrix-multiply family compiled in,
`ForwardGetWorkSpaceSize(w, x, y)` is `BackwardDataGetWorkSpaceSizeGEMM(w, x)`,
whatever `y` is, and `BackwardDataGetWorkSpaceSize(w, dy, dx)` is
`ForwardGetWorkSpaceSizeGEMM(w, dx)`, whatever `dy` is; both are at most the
allocation ceiling of the device (0 included); and the three
`...GetWorkSpaceSizeGEMM` functions agree on the same weight tensor and the
same other tensor. -/
theorem C35_transposed_planner (d : ConvolutionDescriptor) (env : Environment)
    (handle : Handle) (wDesc xDesc yDesc : TensorDescriptor)
    (hmode : d.mode = miopenTranspose) (hgemm : env.MIOPEN_USE_GEMM = true) :
    d.ForwardGetWorkSpaceSize env handle wDesc xDesc yDesc =
      Except.ok (d.BackwardDataGetWorkSpaceSizeGEMM env handle wDesc xDesc) ∧
    d.BackwardDataGetWorkSpaceSize env handle wDesc yDesc xDesc =
      Except.ok (d.ForwardGetWorkSpaceSizeGEMM env handle wDesc xDesc) ∧
    (∀ y2 : TensorDescriptor, d.ForwardGetWorkSpaceSize env handle wDesc xDesc y2 =
      d.ForwardGetWorkSpaceSize env handle wDesc xDesc yDesc) ∧
    (∀ dy2 : TensorDescriptor, d.BackwardDataGetWorkSpaceSize env handle wDesc dy2 xDesc =
      d.BackwardDataGetWorkSpaceSize env handle wDesc yDesc xDesc) ∧
    d.BackwardDataGetWorkSpaceSizeGEMM env handle wDesc xDesc ≤ handle.GetMaxMemoryAllocSize ∧
    d.ForwardGetWorkSpaceSizeGEMM env handle wDesc xDesc ≤ handle.GetMaxMemoryAllocSize ∧
    (∀ tDesc : TensorDescriptor,
      d.ForwardGetWorkSpaceSizeGEMM env handle wDesc tDesc =
        d.BackwardDataGetWorkSpaceSizeGEMM env handle wDesc tDesc ∧
      d.BackwardDataGetWorkSpaceSizeGEMM env handle wDesc tDesc =
        d.BackwardWeightsGetWorkSpaceSizeGEMM env handle tDesc wDesc) := by
  have hf : ∀ y2 : TensorDescriptor, d.ForwardGetWorkSpaceSize env handle wDesc xDesc y2 =
      Except.ok (d.BackwardDataGetWorkSpaceSizeGEMM env handle wDesc xDesc) := by
    intro y2
    simp only [ConvolutionDescriptor.ForwardGetWorkSpaceSize, if_pos hmode, hgemm, if_true]
  have hb : ∀ dy2 : TensorDescriptor, d.BackwardDataGetWorkSpaceSize env handle wDesc dy2 xDesc =
      Except.ok (d.ForwardGetWorkSpaceSizeGEMM env handle wDesc xDesc) := by
    intro dy2
    simp only [ConvolutionDescriptor.BackwardDataGetWorkSpaceSize, if_pos hmode, hgemm, if_true]
  refine ⟨hf yDesc, hb yDesc, fun y2 => (hf y2).trans (hf yDesc).symm,
    fun dy2 => (hb dy2).trans (hb yDesc).symm, ?_, ?_, ?_⟩
  · rw [← (GEMM_functions_agree d env handle wDesc xDesc).1]
    exact ForwardGetWorkSpaceSizeGEMM_le_ceiling d env handle wDesc xDesc
  · exact ForwardGetWorkSpaceSizeGEMM_le_ceiling d env handle wDesc xDesc
  · intro tDesc
    exact GEMM_functions_agree d env handle wDesc tDesc

/-- C35, at a concrete input: a Transposed-mode 3x3 filter of 32 channels and
an 8x8 tensor give 32*3*3*8*8*4 bytes in both directions. -/
theorem C35_transposed_planner_witness :
    ConvolutionDescriptor.ForwardGetWorkSpaceSize
        { mode := miopenTranspose, paddingMode := miopenPaddingDefault, pad_h := 1, pad_w := 1,
          u := 1, v := 1, dilation_h := 1, dilation_w := 1, group_count := 1 }
        plainEnvironment gfx900Handle
        { type := miopenDataType_t.miopenFloat, lens := (16, 32, 3, 3) }
        { type := miopenDataType_t.miopenFloat, lens := (1, 16, 8, 8) }
        { type := miopenDataType_t.miopenFloat, lens := (1, 32, 8, 8) } = Except.ok 73728 ∧
    ConvolutionDescriptor.BackwardDataGetWorkSpaceSize
        { mode := miopenTranspose, paddingMode := miopenPaddingDefault, pad_h := 1, pad_w := 1,
          u := 1, v := 1, dilation_h := 1, dilation_w := 1, group_count := 1 }
        plainEnvironment gfx900Handle
        { type := miopenDataType_t.miopenFloat, lens := (16, 32, 3, 3) }
        { type := miopenDataType_t.miopenFloat, lens := (1, 32, 8, 8) }
        { type := miopenDataType_t.miopenFloat, lens := (1, 16, 8, 8) } = Except.ok 73728 :=
  ⟨(C35_transposed_planner
      { mode := miopenTranspose, paddingMode := miopenPaddingDefault, pad_h := 1, pad_w := 1,
          u := 1, v := 1, dilation_h := 1, dilation_w := 1, group_count := 1 }
      plainEnvironment gfx900Handle
      { type := miopenDataType_t.miopenFloat, lens := (16, 32, 3, 3) }
      { type := miopenDataType_t.miopenFloat, lens := (1, 16, 8, 8) }
      { type := miopenDataType_t.miopenFloat, lens := (1, 32, 8, 8) } rfl rfl).1.trans (by decide),
    (C35_transposed_planner
      { mode := miopenTranspose, paddingMode := miopenPaddingDefault, pad_h := 1, pad_w := 1,
          u := 1, v := 1, dilation_h := 1, dilation_w := 1, group_count := 1 }
      plainEnvironment gfx900Handle
      { type := miopenDataType_t.miopenFloat, lens := (16, 32, 3, 3) }
      { type := miopenDataType_t.miopenFloat, lens := (1, 16, 8, 8) }
      { type := miopenDataType_t.miopenFloat, lens := (1, 32, 8, 8) } rfl rfl).2.1.trans (by decide)⟩

/-! ## GetForwardOutputDim: monotonicity of the general formula -/

theorem extent_mono_numerator (a1 a2 u : Int) (hu : 1 ≤ u) (ha : a1 ≤ a2) :
    max 1 (Int.tdiv a1 u + 1) ≤ max 1 (Int.tdiv a2 u + 1) := by
  by_cases h2 : 0 ≤ a2
  · by_cases h1 : 0 ≤ a1
    · rw [Int.tdiv_eq_ediv h1 (by omega), Int.tdiv_eq_ediv h2 (by omega)]
      have := Int.ediv_le_ediv (show 0 < u by omega) ha
      omega
    · have := tdiv_nonpos_of_mixed a1 u (Or.inl ⟨by omega, by omega⟩)
      omega
  · have e1 := tdiv_nonpos_of_mixed a1 u (Or.inl ⟨by omega, by omega⟩)
    have e2 := tdiv_nonpos_of_mixed a2 u (Or.inl ⟨by omega, by omega⟩)
    omega

theorem extent_anti_stride (a u1 u2 : Int) (hu2 : 1 ≤ u2) (hu : u2 ≤ u1) :
    max 1 (Int.tdiv a u1 + 1) ≤ max 1 (Int.tdiv a u2 + 1) := by
  by_cases h : 0 ≤ a
  · rw [Int.tdiv_eq_ediv h (by omega), Int.tdiv_eq_ediv h (by omega)]
    have hq0 : 0 ≤ a / u1 := Int.ediv_nonneg h (by omega)
    have hq1 : a / u1 * u1 ≤ a := Int.ediv_mul_le a (by omega)
    have hq2 : a / u1 * u2 ≤ a / u1 * u1 := Int.mul_le_mul_of_nonneg_left hu hq0
    have hq3 : a / u1 ≤ a / u2 := Int.le_ediv_of_mul_le (by omega) (by omega)
    omega
  · have e1 := tdiv_nonpos_of_mixed a u1 (Or.inl ⟨by omega, by omega⟩)
    have e2 := tdiv_nonpos_of_mixed a u2 (Or.inl ⟨by omega, by omega⟩)
    omega

theorem extent_bounds (a u : Int) (hu : 1 ≤ u) :
    1 ≤ max 1 (Int.tdiv a u + 1) ∧ max 1 (Int.tdiv a u + 1) ≤ max 1 (a + 1) := by
  by_cases h : 0 ≤ a
  · rw [Int.tdiv_eq_ediv h (by omega)]
    have hq1 : a / u ≤ a := Int.ediv_le_self _ h
    omega
  · have e1 := tdiv_nonpos_of_mixed a u (Or.inl ⟨by omega, by omega⟩)
    omega

theorem extent_monotone (h1 h2 fh1 fh2 : Nat) (p1 p2 dil1 dil2 u1 u2 : Int)
    (hh : h1 ≤ h2) (hp : p1 ≤ p2) (hf : fh2 ≤ fh1) (hf2 : 1 ≤ fh2) (hd : dil2 ≤ dil1)
    (hd2 : 1 ≤ dil2) (hu : u2 ≤ u1) (hu2 : 1 ≤ u2) (hfit : (h2 : Int) + 2 * p2 < 2 ^ 64) :
    toSizeT (max 1 (Int.tdiv ((h1 : Int) - (1 + dil1 * ((fh1 : Int) - 1)) + 2 * p1) u1 + 1)) ≤
      toSizeT (max 1 (Int.tdiv ((h2 : Int) - (1 + dil2 * ((fh2 : Int) - 1)) + 2 * p2) u2 + 1)) ∧
    1 ≤ toSizeT (max 1 (Int.tdiv ((h1 : Int) - (1 + dil1 * ((fh1 : Int) - 1)) + 2 * p1) u1
      + 1)) := by
  have hh' : (h1 : Int) ≤ (h2 : Int) := by exact_mod_cast hh
  have hf' : (fh2 : Int) ≤ (fh1 : Int) := by exact_mod_cast hf
  have hf2' : (1 : Int) ≤ (fh2 : Int) := by exact_mod_cast hf2
  have hm1 : dil2 * ((fh2 : Int) - 1) ≤ dil2 * ((fh1 : Int) - 1) :=
    Int.mul_le_mul_of_nonneg_left (by omega) (by omega)
  have hm2 : dil2 * ((fh1 : Int) - 1) ≤ dil1 * ((fh1 : Int) - 1) :=
    Int.mul_le_mul_of_nonneg_right hd (by omega)
  have hm3 : 0 ≤ dil2 * ((fh2 : Int) - 1) := Int.mul_nonneg (by omega) (by omega)
  have hnum : (h1 : Int) - (1 + dil1 * ((fh1 : Int) - 1)) + 2 * p1 ≤
      (h2 : Int) - (1 + dil2 * ((fh2 : Int) - 1)) + 2 * p2 := by omega
  have s1 := extent_mono_numerator _ _ u1 (by omega) hnum
  have s2 := extent_anti_stride ((h2 : Int) - (1 + dil2 * ((fh2 : Int) - 1)) + 2 * p2) u1 u2
    hu2 hu
  have b1 := extent_bounds ((h1 : Int) - (1 + dil1 * ((fh1 : Int) - 1)) + 2 * p1) u1 (by omega)
  have b2 := extent_bounds ((h2 : Int) - (1 + dil2 * ((fh2 : Int) - 1)) + 2 * p2) u2 hu2
  have c1 := toSizeT_of_nonneg_of_lt
    (max 1 (Int.tdiv ((h1 : Int) - (1 + dil1 * ((fh1 : Int) - 1)) + 2 * p1) u1 + 1))
    (by omega) (by omega)
  have c2 := toSizeT_of_nonneg_of_lt
    (max 1 (Int.tdiv ((h2 : Int) - (1 + dil2 * ((fh2 : Int) - 1)) + 2 * p2) u2 + 1))
    (by omega) (by omega)
  constructor
  · have : ((toSizeT (max 1 (Int.tdiv ((h1 : Int) - (1 + dil1 * ((fh1 : Int) - 1)) + 2 * p1)
        u1 + 1)) : Nat) : Int) ≤
        ((toSizeT (max 1 (Int.tdiv ((h2 : Int) - (1 + dil2 * ((fh2 : Int) - 1)) + 2 * p2)
          u2 + 1)) : Nat) : Int) := by
      rw [c1, c2]
      omega
    exact_mod_cast this
  · have : (1 : Int) ≤ ((toSizeT (max 1 (Int.tdiv ((h1 : Int) - (1 + dil1 * ((fh1 : Int) - 1))
        + 2 * p1) u1 + 1)) : Nat) : Int) := by
      rw [c1]
      exact b1.1
    exact_mod_cast this

/-- C36: for two descriptors of the same mode other than Transposed under the
Default policy (strides and dilations >= 1) and the same batch and channel
counts (all lengths at least 1) satisfying the channel rule of the mode, if
the second problem
has an input at least as high, a padding at least as large, a filter at most as
high (and at least 1), a dilation at most as large and a stride at most as
large as the first, then `GetForwardOutputDim` returns dimensions for both and
the H_out of the first is at most the H_out of the second; both are at least
1; and the same holds for W_out.  Taking the two problems equal in all but one
quantity gives: H_out does not decrease with input_h and with pad_h, and does
not increase with filter_h, dilation_h and u.  (The lengths are below `2 ^ 31`,
the dilations are `int` values and `2*pad` is an `int` value, so that nothing
overflows.) -/
theorem C36_forward_extent_monotone (d1 d2 : ConvolutionDescriptor) (ty : miopenDataType_t)
    (n c k fc h1 w1 fh1 fw1 h2 w2 fh2 fw2 : Nat)
    (hsame : d1.mode = d2.mode) (hmode : d1.mode ≠ miopenTranspose)
    (hpad1 : d1.paddingMode = miopenPaddingDefault)
    (hpad2 : d2.paddingMode = miopenPaddingDefault)
    (hconv : d1.mode = miopenConvolution → c = fc)
    (hgroup : d1.mode = miopenGroupConv → c % fc = 0 ∧ k % (c / fc) = 0)
    (hdepth : d1.mode = miopenDepthwise → fc = 1 ∧ k % c = 0)
    (_hdims : 1 ≤ n ∧ 1 ≤ c ∧ 1 ≤ k ∧ 1 ≤ fc ∧ 1 ≤ h1 ∧ 1 ≤ w1)
    (hfh : 1 ≤ fh2) (hfw : 1 ≤ fw2)
    (hdh : 1 ≤ d2.dilation_h) (hdw : 1 ≤ d2.dilation_w) (hu : 1 ≤ d2.u) (hv : 1 ≤ d2.v)
    (hh_le : h1 ≤ h2) (hw_le : w1 ≤ w2)
    (hph_le : d1.pad_h ≤ d2.pad_h) (hpw_le : d1.pad_w ≤ d2.pad_w)
    (hfh_le : fh2 ≤ fh1) (hfw_le : fw2 ≤ fw1)
    (hdh_le : d2.dilation_h ≤ d1.dilation_h) (hdw_le : d2.dilation_w ≤ d1.dilation_w)
    (hu_le : d2.u ≤ d1.u) (hv_le : d2.v ≤ d1.v)
    (hlens : n < 2 ^ 31 ∧ c < 2 ^ 31 ∧ k < 2 ^ 31 ∧ fc < 2 ^ 31 ∧ h1 < 2 ^ 31 ∧ w1 < 2 ^ 31 ∧
      fh1 < 2 ^ 31 ∧ fw1 < 2 ^ 31 ∧ h2 < 2 ^ 31 ∧ w2 < 2 ^ 31 ∧ fh2 < 2 ^ 31 ∧ fw2 < 2 ^ 31)
    (hdil : d1.dilation_h < 2 ^ 31 ∧ d1.dilation_w < 2 ^ 31)
    (hpadr : -2 ^ 30 ≤ d1.pad_h ∧ d2.pad_h < 2 ^ 30 ∧ -2 ^ 30 ≤ d1.pad_w ∧ d2.pad_w < 2 ^ 30) :
    ∃ N C H1 W1 H2 W2 : Nat,
      d1.GetForwardOutputDim { type := ty, lens := (n, c, h1, w1) }
          { type := ty, lens := (k, fc, fh1, fw1) } = Except.ok (N, C, H1, W1) ∧
      d2.GetForwardOutputDim { type := ty, lens := (n, c, h2, w2) }
          { type := ty, lens := (k, fc, fh2, fw2) } = Except.ok (N, C, H2, W2) ∧
      H1 ≤ H2 ∧ W1 ≤ W2 ∧ 1 ≤ H1 ∧ 1 ≤ W1 ∧ 1 ≤ H2 ∧ 1 ≤ W2 := by
  obtain ⟨hn, hc, hk, hfc, hh1, hw1, hfh1, hfw1, hh2, hw2, hfh2, hfw2⟩ := hlens
  obtain ⟨hp1, hp2, hp3, hp4⟩ := hpadr
  have hfit_h : (h2 : Int) + 2 * d2.pad_h < 2 ^ 64 := by omega
  have hfit_w : (w2 : Int) + 2 * d2.pad_w < 2 ^ 64 := by omega
  have e1 := (GetForwardOutputDim_general d1 ty n c h1 w1 k fc fh1 fw1 hmode (Or.inl hpad1)
    hconv hgroup hdepth ⟨hn, hc, hh1, hw1, hk, hfc, hfh1, hfw1⟩
    ⟨by omega, hdil.1, by omega, hdil.2⟩ ⟨hp1, by omega, hp3, by omega⟩).1
  have e2 := (GetForwardOutputDim_general d2 ty n c h2 w2 k fc fh2 fw2 (hsame ▸ hmode)
    (Or.inl hpad2) (hsame ▸ hconv) (hsame ▸ hgroup) (hsame ▸ hdepth)
    ⟨hn, hc, hh2, hw2, hk, hfc, hfh2, hfw2⟩
    ⟨by omega, by omega, by omega, by omega⟩ ⟨by omega, hp2, by omega, hp4⟩).1
  have mh := extent_monotone h1 h2 fh1 fh2 d1.pad_h d2.pad_h d1.dilation_h d2.dilation_h
    d1.u d2.u hh_le hph_le hfh_le hfh hdh_le hdh hu_le hu hfit_h
  have mw := extent_monotone w1 w2 fw1 fw2 d1.pad_w d2.pad_w d1.dilation_w d2.dilation_w
    d1.v d2.v hw_le hpw_le hfw_le hfw hdw_le hdw hv_le hv hfit_w
  exact ⟨_, _, _, _, _, _, e1, e2, mh.1, mw.1, mh.2, mw.2, le_trans mh.2 mh.1,
    le_trans mw.2 mw.1⟩

/-- C36, at a concrete pair: an 8x8 input with a 3x3 filter, dilation 2,
stride 2 and no padding gives a 2x2 output; a 10x10 input with a 2x2 filter,
dilation 1, stride 1 and padding 1 gives an 11x11 output. -/
theorem C36_forward_extent_monotone_witness :
    (∃ N C H1 W1 H2 W2 : Nat,
      ConvolutionDescriptor.GetForwardOutputDim
          { mode := miopenConvolution, paddingMode := miopenPaddingDefault, pad_h := 0, pad_w := 0,
            u := 2, v := 2, dilation_h := 2, dilation_w := 2, group_count := 1 }
          { type := miopenDataType_t.miopenFloat, lens := (1, 3, 8, 8) }
          { type := miopenDataType_t.miopenFloat, lens := (4, 3, 3, 3) } = Except.ok (N, C, H1, W1) ∧
      ConvolutionDescriptor.GetForwardOutputDim
          { mode := miopenConvolution, paddingMode := miopenPaddingDefault, pad_h := 1, pad_w := 1,
            u := 1, v := 1, dilation_h := 1, dilation_w := 1, group_count := 1 }
          { type := miopenDataType_t.miopenFloat, lens := (1, 3, 10, 10) }
          { type := miopenDataType_t.miopenFloat, lens := (4, 3, 2, 2) } = Except.ok (N, C, H2, W2) ∧
      H1 ≤ H2 ∧ W1 ≤ W2 ∧ 1 ≤ H1 ∧ 1 ≤ W1 ∧ 1 ≤ H2 ∧ 1 ≤ W2) ∧
    ConvolutionDescriptor.GetForwardOutputDim
        { mode := miopenConvolution, paddingMode := miopenPaddingDefault, pad_h := 0, pad_w := 0,
            u := 2, v := 2, dilation_h := 2, dilation_w := 2, group_count := 1 }
        { type := miopenDataType_t.miopenFloat, lens := (1, 3, 8, 8) }
        { type := miopenDataType_t.miopenFloat, lens := (4, 3, 3, 3) } = Except.ok (1, 4, 2, 2) ∧
    ConvolutionDescriptor.GetForwardOutputDim
        { mode := miopenConvolution, paddingMode := miopenPaddingDefault, pad_h := 1, pad_w := 1,
            u := 1, v := 1, dilation_h := 1, dilation_w := 1, group_count := 1 }
        { type := miopenDataType_t.miopenFloat, lens := (1, 3, 10, 10) }
        { type := miopenDataType_t.miopenFloat, lens := (4, 3, 2, 2) } = Except.ok (1, 4, 11, 11) :=
  ⟨C36_forward_extent_monotone
      { mode := miopenConvolution, paddingMode := miopenPaddingDefault, pad_h := 0, pad_w := 0,
            u := 2, v := 2, dilation_h := 2, dilation_w := 2, group_count := 1 }
      { mode := miopenConvolution, paddingMode := miopenPaddingDefault, pad_h := 1, pad_w := 1,
            u := 1, v := 1, dilation_h := 1, dilation_w := 1, group_count := 1 }
      miopenDataType_t.miopenFloat 1 3 4 3 8 8 3 3 10 10 2 2
      rfl (by decide) rfl rfl (fun _ => rfl) (fun hm => absurd hm (by decide))
      (fun hm => absurd hm (by decide)) (by decide)
      (by decide) (by decide) (by decide) (by decide) (by decide) (by decide)
      (by decide) (by decide) (by decide) (by decide) (by decide) (by decide)
      (by decide) (by decide) (by decide) (by decide) (by decide) (by decide) (by decide),
    by decide, by decide⟩

end miopen
